import Mathlib

/-!
# Simulated battery miniclass (`src/simbatt/miniclass.c`)

A shallow embedding of the battery miniclass callbacks and of the simulation
control routines, followed by the properties proved about them.

Conventions of the embedding:

* a `ULONG`, `USHORT` or `UCHAR` is a `Nat`; where the C arithmetic can wrap
  the reduction modulo `2 ^ 32` is written out;
* a `LONG` is an `Int`;
* a routine that works on the device extension takes the extension and gives
  back the extension it leaves behind, next to its status and out-parameters;
* an out-parameter is passed in with the content the caller's variable had
  before the call, so that "nothing was written" can be said;
* memory that is copied out as raw bytes (`memcpy`) is a `List Nat` of bytes,
  multi-byte integers little-endian;
* every routine also lists, in order, the lock operations, the state accesses
  and the class-driver notifications it performs.
-/

namespace SimBatt

/-! ## Literals declared outside `miniclass.c` -/

/-- Modelled from the spec: `BATTERY_TAG_INVALID`, the reserved invalid tag.
The macro comes from the platform battery-class header, which is not among the
sources; its value there is zero. -/
def BATTERY_TAG_INVALID : Nat := 0

/-- Modelled from the spec: `SIMBATT_RATE_CALCULATE`, the "calculate" sentinel
of the estimated time, declared in `simbattdriverif.h` (not among the
sources). -/
def SIMBATT_RATE_CALCULATE : Nat := 0x7fffffff

/-- Modelled from the spec: `BATTERY_UNKNOWN_TIME`, the "unknown time" value of
the platform battery-class header. -/
def BATTERY_UNKNOWN_TIME : Nat := 0xFFFFFFFF

/-- Modelled from the spec: `BATTERY_UNKNOWN_VOLTAGE`, the "unknown voltage"
value of the platform battery-class header. -/
def BATTERY_UNKNOWN_VOLTAGE : Nat := 0xFFFFFFFF

/-- Modelled from the spec: `UNKNOWN_CURRENT`, the "unknown current" value of
the platform battery-class header. -/
def UNKNOWN_CURRENT : Nat := 0xFFFFFFFF

/-- Modelled from the spec: the capability flag "system battery" of the
platform battery-class header. -/
def BATTERY_SYSTEM_BATTERY : Nat := 0x80000000

/-- Modelled from the spec: the capability flag "relative capacity". -/
def BATTERY_CAPACITY_RELATIVE : Nat := 0x40000000

/-- Modelled from the spec: the capability flag "short term". -/
def BATTERY_IS_SHORT_TERM : Nat := 0x20000000

/-- Modelled from the spec: the power-state flag "on line". -/
def BATTERY_POWER_ON_LINE : Nat := 0x00000001

/-- Modelled from the spec: the power-state flag "discharging". -/
def BATTERY_DISCHARGING : Nat := 0x00000002

/-- Modelled from the spec: the power-state flag "charging". -/
def BATTERY_CHARGING : Nat := 0x00000004

/-- Modelled from the spec: the power-state flag "critical". -/
def BATTERY_CRITICAL : Nat := 0x00000008

/-- Modelled from the spec: `SIMBATT_STATE_VERSION` of `simbatt.h` (not among
the sources). -/
def SIMBATT_STATE_VERSION : Nat := 2

/-- Modelled from the spec: `MAX_BATTERY_STRING_SIZE`, the capacity in UTF-16
units of each of the four text fields. -/
def MAX_BATTERY_STRING_SIZE : Nat := 128

/-- The wide string literal `L"..."` as its UTF-16 code units, without the
terminator (the literals of this module are ASCII). -/
def wideLiteral (s : String) : List Nat := s.toList.map Char.toNat

/-- The literal `DEFAULT_NAME` -/
def DEFAULT_NAME : List Nat := wideLiteral "SimulatedBattery"

/-- The literal `DEFAULT_MANUFACTURER` -/
def DEFAULT_MANUFACTURER : List Nat := wideLiteral "Microsoft Corp"

/-- The literal `DEFAULT_SERIALNO` -/
def DEFAULT_SERIALNO : List Nat := wideLiteral "0000"

/-- The literal `DEFAULT_UNIQUEID` -/
def DEFAULT_UNIQUEID : List Nat := wideLiteral "SimulatedBattery0000"

/-! ## Status codes -/

/-- The `NTSTATUS` values this module produces or receives. -/
inductive NTSTATUS where
  | STATUS_SUCCESS
  | STATUS_BUFFER_OVERFLOW
  | STATUS_NO_SUCH_DEVICE
  | STATUS_INVALID_DEVICE_REQUEST
  | STATUS_INVALID_PARAMETER
  | STATUS_INVALID_PARAMETER_4
  | STATUS_BUFFER_TOO_SMALL
  | STATUS_NOT_SUPPORTED
  deriving DecidableEq

open NTSTATUS

/-- The macro `NT_SUCCESS`: the status is a success or informational code (sign
bit clear). `STATUS_BUFFER_OVERFLOW` is a warning (`0x80000005`), the others
besides `STATUS_SUCCESS` are errors (`0xC...`). -/
def NT_SUCCESS : NTSTATUS → Bool
  | STATUS_SUCCESS => true
  | _ => false

/-! ## Data model -/

/-- The record `BATTERY_STATUS`: three `ULONG`s and the signed `LONG` rate. -/
structure BATTERY_STATUS where
  PowerState : Nat
  Capacity : Nat
  Voltage : Nat
  Rate : Int
  deriving DecidableEq

/-- The record `BATTERY_INFORMATION`: `ULONG Capabilities`, `UCHAR Technology`,
`UCHAR Reserved[3]`, `UCHAR Chemistry[4]`, then six `ULONG`s. -/
structure BATTERY_INFORMATION where
  Capabilities : Nat
  Technology : Nat
  Reserved0 : Nat
  Reserved1 : Nat
  Reserved2 : Nat
  Chemistry0 : Nat
  Chemistry1 : Nat
  Chemistry2 : Nat
  Chemistry3 : Nat
  DesignedCapacity : Nat
  FullChargedCapacity : Nat
  DefaultAlert1 : Nat
  DefaultAlert2 : Nat
  CriticalBias : Nat
  CycleCount : Nat
  deriving DecidableEq

/-- The record `BATTERY_MANUFACTURE_DATE`: `UCHAR Day`, `UCHAR Month`, `USHORT Year`. -/
structure BATTERY_MANUFACTURE_DATE where
  Day : Nat
  Month : Nat
  Year : Nat
  deriving DecidableEq

/-- The record `BATTERY_REPORTING_SCALE`: `ULONG Granularity`, `ULONG Capacity`. -/
structure BATTERY_REPORTING_SCALE where
  Granularity : Nat
  Capacity : Nat
  deriving DecidableEq

/-- The record `BATTERY_CHARGING_SOURCE`: the source type (`Type` in C) and
`ULONG MaxCurrent`. -/
structure BATTERY_CHARGING_SOURCE where
  SourceType : Nat
  MaxCurrent : Nat
  deriving DecidableEq

/-- The record `SIMBATT_STATE` the simulated battery answers from. The four
text fields are arrays of `MAX_BATTERY_STRING_SIZE` UTF-16 units, the
granularity scale an array of four entries. -/
structure SIMBATT_STATE where
  Version : Nat
  ManufactureDate : BATTERY_MANUFACTURE_DATE
  BatteryInfo : BATTERY_INFORMATION
  BatteryStatus : BATTERY_STATUS
  GranularityScale : List BATTERY_REPORTING_SCALE
  GranularityCount : Nat
  EstimatedTime : Nat
  Temperature : Nat
  MaxCurrentDraw : Nat
  DeviceName : List Nat
  ManufacturerName : List Nat
  SerialNumber : List Nat
  UniqueId : List Nat
  deriving DecidableEq

/-- The record `SIMBATT_FDO_DATA`, the device extension: the current tag and the
state.
(The class handle and the lock are handles without content of their own; what
is done with them is recorded in the event lists below.) -/
structure SIMBATT_FDO_DATA where
  BatteryTag : Nat
  State : SIMBATT_STATE
  deriving DecidableEq

/-- What a routine does besides computing: taking and releasing
`DevExt->StateLock`, touching a field of the extension, and calling
`BatteryClassStatusNotify`. -/
inductive Event where
  | LockAcquire
  | LockRelease
  | StateAccess
  | StatusNotify
  deriving DecidableEq

open Event

/-! ## Tag allocation -/

/-- Routine `SimBattUpdateTag`: add one to the tag, and one more if that gave
`BATTERY_TAG_INVALID`. The tag is a `ULONG`, so each addition wraps. -/
def SimBattUpdateTag (DevExt : SIMBATT_FDO_DATA) : SIMBATT_FDO_DATA :=
  let DevExt1 := { DevExt with BatteryTag := (DevExt.BatteryTag + 1) % 2 ^ 32 }
  if DevExt1.BatteryTag = BATTERY_TAG_INVALID then
    { DevExt1 with BatteryTag := (DevExt1.BatteryTag + 1) % 2 ^ 32 }
  else
    DevExt1

/-! ## Strings and raw bytes -/

/-- Modelled from the spec: the length worker of the platform's safe-string
header, which `RtlStringCbLengthW` calls: the number of units before the first
terminator among the first `cchMax` units of `psz`, or nothing when there is
no terminator among them. -/
def RtlStringLengthWorkerW : List Nat → Nat → Option Nat
  | _, 0 => none
  | [], _ + 1 => none
  | c :: cs, cchMax + 1 =>
    if c = 0 then some 0
    else
      match RtlStringLengthWorkerW cs cchMax with
      | some n => some (n + 1)
      | none => none

/-- Modelled from the spec: `RtlStringCbLengthW(psz, cbMax, &cbLength)` of the
platform's safe-string header: the byte length of the string (two bytes per
unit, terminator not counted) when a terminator lies within `cbMax` bytes,
otherwise `STATUS_INVALID_PARAMETER` with the length set to zero. -/
def RtlStringCbLengthW (psz : List Nat) (cbMax : Nat) : NTSTATUS × Nat :=
  match RtlStringLengthWorkerW psz (cbMax / 2) with
  | some cchLength => (STATUS_SUCCESS, cchLength * 2)
  | none => (STATUS_INVALID_PARAMETER, 0)

/-- Modelled from the spec: `RtlStringCchCopyW(Destination, cchDest, String)`
of the platform's safe-string header: copies the units of `String` and a
terminator into the front of `Destination`; a source that does not fit is cut
to `cchDest - 1` units and reported as `STATUS_BUFFER_OVERFLOW`; a zero
`cchDest` is an invalid parameter. Units of `Destination` behind the
terminator keep their content. -/
def RtlStringCchCopyW (Destination : List Nat) (cchDest : Nat) (String : List Nat) :
    NTSTATUS × List Nat :=
  if cchDest = 0 then (STATUS_INVALID_PARAMETER, Destination)
  else
    let copied := String.take (cchDest - 1)
    (if String.length ≤ cchDest - 1 then STATUS_SUCCESS else STATUS_BUFFER_OVERFLOW,
     copied ++ [0] ++ Destination.drop (copied.length + 1))

/-- Routine `SimBattSetBatteryString`: set one of the simulated battery strings. -/
def SimBattSetBatteryString (String : List Nat) (Destination : List Nat) :
    NTSTATUS × List Nat :=
  RtlStringCchCopyW Destination MAX_BATTERY_STRING_SIZE String

/-- The two bytes of a 16-bit value, low byte first. -/
def le16 (x : Nat) : List Nat := [x % 256, x / 256 % 256]

/-- The four bytes of a 32-bit value, low byte first. -/
def le32 (x : Nat) : List Nat :=
  [x % 256, x / 256 % 256, x / 65536 % 256, x / 16777216 % 256]

/-- The value of four bytes read as a `ULONG`, low byte first. -/
def ule32 (b0 b1 b2 b3 : Nat) : Nat := b0 + 256 * b1 + 65536 * b2 + 16777216 * b3

/-- The bytes of an array of `WCHAR`. -/
def wcharBytes (a : List Nat) : List Nat := a.flatMap le16

/-- The bytes of a `BATTERY_INFORMATION` (36 of them). -/
def BATTERY_INFORMATION.bytes (i : BATTERY_INFORMATION) : List Nat :=
  le32 i.Capabilities ++
  [i.Technology % 256, i.Reserved0 % 256, i.Reserved1 % 256, i.Reserved2 % 256] ++
  [i.Chemistry0 % 256, i.Chemistry1 % 256, i.Chemistry2 % 256, i.Chemistry3 % 256] ++
  le32 i.DesignedCapacity ++ le32 i.FullChargedCapacity ++
  le32 i.DefaultAlert1 ++ le32 i.DefaultAlert2 ++
  le32 i.CriticalBias ++ le32 i.CycleCount

/-- The bytes of a `BATTERY_MANUFACTURE_DATE` (4 of them). -/
def BATTERY_MANUFACTURE_DATE.bytes (d : BATTERY_MANUFACTURE_DATE) : List Nat :=
  [d.Day % 256, d.Month % 256] ++ le16 d.Year

/-- The bytes of a `BATTERY_REPORTING_SCALE` (8 of them). -/
def BATTERY_REPORTING_SCALE.bytes (e : BATTERY_REPORTING_SCALE) : List Nat :=
  le32 e.Granularity ++ le32 e.Capacity

/-- The bytes of an array of `BATTERY_REPORTING_SCALE`. -/
def scaleBytes (a : List BATTERY_REPORTING_SCALE) : List Nat :=
  a.flatMap BATTERY_REPORTING_SCALE.bytes

/-- The C expression `sizeof(BATTERY_INFORMATION)` -/
def sizeof_BATTERY_INFORMATION : Nat := 36

/-- The C expression `sizeof(BATTERY_MANUFACTURE_DATE)` -/
def sizeof_BATTERY_MANUFACTURE_DATE : Nat := 4

/-- The C expression `sizeof(BATTERY_REPORTING_SCALE)` -/
def sizeof_BATTERY_REPORTING_SCALE : Nat := 8

/-- The C expression `sizeof(WCHAR)` -/
def sizeof_WCHAR : Nat := 2

/-- The C expression `sizeof(ULONG)` -/
def sizeof_ULONG : Nat := 4

/-- The C expression `memcpy(Buffer, ReturnBuffer, n)`: the first `n` bytes of the
destination are replaced by the first `n` bytes of the source. -/
def memcpy (Buffer ReturnBuffer : List Nat) (n : Nat) : List Nat :=
  ReturnBuffer.take n ++ Buffer.drop n

/-! ## Battery interface -/

/-- What a routine without out-parameters leaves behind: its status, the
device extension after it, and what it did on the way. -/
structure Outcome where
  Status : NTSTATUS
  DevExt : SIMBATT_FDO_DATA
  Events : List Event
  deriving DecidableEq

/-- Routine `SimBattPrepareHardware`: initialise the battery data to its defaults. The
tag is advanced first; the manufacture date, the granularity table and the
estimated time are not assigned and keep what the record held. -/
def SimBattPrepareHardware (DevExt : SIMBATT_FDO_DATA) : Outcome :=
  let DevExt1 := SimBattUpdateTag DevExt
  let State := DevExt1.State
  let State := { State with Version := SIMBATT_STATE_VERSION }
  let State := { State with
    BatteryStatus := { State.BatteryStatus with
      PowerState := BATTERY_POWER_ON_LINE
      Capacity := 100
      Voltage := BATTERY_UNKNOWN_VOLTAGE
      Rate := 0 } }
  let State := { State with
    BatteryInfo := { State.BatteryInfo with
      Capabilities := BATTERY_SYSTEM_BATTERY
      Technology := 1
      Chemistry0 := 'F'.toNat
      Chemistry1 := 'a'.toNat
      Chemistry2 := 'k'.toNat
      Chemistry3 := 'e'.toNat
      DesignedCapacity := 100
      FullChargedCapacity := 100
      DefaultAlert1 := 0
      DefaultAlert2 := 0
      CriticalBias := 0
      CycleCount := 100 } }
  let State := { State with MaxCurrentDraw := UNKNOWN_CURRENT }
  let State := { State with
    DeviceName := (SimBattSetBatteryString DEFAULT_NAME State.DeviceName).2 }
  let State := { State with
    ManufacturerName :=
      (SimBattSetBatteryString DEFAULT_MANUFACTURER State.ManufacturerName).2 }
  let State := { State with
    SerialNumber := (SimBattSetBatteryString DEFAULT_SERIALNO State.SerialNumber).2 }
  let State := { State with
    UniqueId := (SimBattSetBatteryString DEFAULT_UNIQUEID State.UniqueId).2 }
  let State := { State with Temperature := 2931 }
  { Status := STATUS_SUCCESS
    DevExt := { DevExt1 with State := State }
    Events := [LockAcquire, StateAccess, LockRelease] }

/-- The result of `SimBattQueryTag`. -/
structure QueryTagResult where
  Status : NTSTATUS
  BatteryTag : Nat
  DevExt : SIMBATT_FDO_DATA
  Events : List Event
  deriving DecidableEq

/-- Routine `SimBattQueryTag`: hand out the current tag; a tag equal to
`BATTERY_TAG_INVALID` is reported as "no such device". -/
def SimBattQueryTag (DevExt : SIMBATT_FDO_DATA) : QueryTagResult :=
  let BatteryTag := DevExt.BatteryTag
  { Status := if BatteryTag = BATTERY_TAG_INVALID then STATUS_NO_SUCH_DEVICE
              else STATUS_SUCCESS
    BatteryTag := BatteryTag
    DevExt := DevExt
    Events := [LockAcquire, StateAccess, LockRelease] }

/-- The enumeration `BATTERY_QUERY_INFORMATION_LEVEL`; `other` stands for every
value outside the nine the switch names. -/
inductive BATTERY_QUERY_INFORMATION_LEVEL where
  | BatteryInformation
  | BatteryGranularityInformation
  | BatteryTemperature
  | BatteryEstimatedTime
  | BatteryDeviceName
  | BatteryManufactureDate
  | BatteryManufactureName
  | BatteryUniqueID
  | BatterySerialNumber
  | other (value : Nat)
  deriving DecidableEq

open BATTERY_QUERY_INFORMATION_LEVEL

/-- What the switch of `SimBattQueryInformation` settles: the status, the
memory `ReturnBuffer` points at (the bytes of the whole object; nothing for
`NULL`) and `ReturnBufferLength`. -/
structure QuerySelection where
  Status : NTSTATUS
  ReturnBuffer : Option (List Nat)
  ReturnBufferLength : Nat
  deriving DecidableEq

/-- The `ResultValue` of the `BatteryEstimatedTime` case. `3600 * Capacity` is
a `ULONG` product and wraps; `-AtRate` is a `LONG` negation, converted to
`ULONG` for the unsigned division (two's complement, so the most negative
rate has magnitude `2 ^ 31`). -/
def EstimatedTimeResultValue (State : SIMBATT_STATE) (AtRate : Int) : Nat :=
  if State.EstimatedTime = SIMBATT_RATE_CALCULATE then
    let AtRate := if AtRate = 0 then State.BatteryStatus.Rate else AtRate
    if AtRate < 0 then
      ((3600 * State.BatteryStatus.Capacity) % 2 ^ 32) / ((-AtRate) % 2 ^ 32).toNat
    else
      BATTERY_UNKNOWN_TIME
  else
    State.EstimatedTime

/-- A text case of the switch: the field's array is the source, its length is
what `RtlStringCbLengthW` finds plus one terminator, the status is that of
`RtlStringCbLengthW`. -/
def QueryStringSelection (Field : List Nat) : QuerySelection :=
  let r := RtlStringCbLengthW Field (MAX_BATTERY_STRING_SIZE * sizeof_WCHAR)
  { Status := r.1
    ReturnBuffer := some (wcharBytes Field)
    ReturnBufferLength := r.2 + sizeof_WCHAR }

/-- The switch on `Level` of `SimBattQueryInformation`, entered with
`STATUS_INVALID_DEVICE_REQUEST`, no source and length zero. -/
def QueryInformationSwitch (State : SIMBATT_STATE)
    (Level : BATTERY_QUERY_INFORMATION_LEVEL) (AtRate : Int) : QuerySelection :=
  match Level with
  | BatteryInformation =>
    { Status := STATUS_SUCCESS
      ReturnBuffer := some State.BatteryInfo.bytes
      ReturnBufferLength := sizeof_BATTERY_INFORMATION }
  | BatteryEstimatedTime =>
    { Status := STATUS_SUCCESS
      ReturnBuffer := some (le32 (EstimatedTimeResultValue State AtRate))
      ReturnBufferLength := sizeof_ULONG }
  | BatteryUniqueID => QueryStringSelection State.UniqueId
  | BatteryManufactureName => QueryStringSelection State.ManufacturerName
  | BatteryDeviceName => QueryStringSelection State.DeviceName
  | BatterySerialNumber => QueryStringSelection State.SerialNumber
  | BatteryManufactureDate =>
    if State.ManufactureDate.Day ≠ 0 then
      { Status := STATUS_SUCCESS
        ReturnBuffer := some State.ManufactureDate.bytes
        ReturnBufferLength := sizeof_BATTERY_MANUFACTURE_DATE }
    else
      { Status := STATUS_INVALID_DEVICE_REQUEST
        ReturnBuffer := none
        ReturnBufferLength := 0 }
  | BatteryGranularityInformation =>
    if State.GranularityCount > 0 then
      { Status := STATUS_SUCCESS
        ReturnBuffer := some (scaleBytes State.GranularityScale)
        ReturnBufferLength := State.GranularityCount * sizeof_BATTERY_REPORTING_SCALE }
    else
      { Status := STATUS_INVALID_DEVICE_REQUEST
        ReturnBuffer := none
        ReturnBufferLength := 0 }
  | BatteryTemperature =>
    { Status := STATUS_SUCCESS
      ReturnBuffer := some (le32 State.Temperature)
      ReturnBufferLength := sizeof_ULONG }
  | other _ =>
    { Status := STATUS_INVALID_PARAMETER
      ReturnBuffer := none
      ReturnBufferLength := 0 }

/-- The result of `SimBattQueryInformation`: the status, the caller's buffer
(nothing for `NULL`) and the caller's `*ReturnedLength` after the call. -/
structure QueryInformationResult where
  Status : NTSTATUS
  Buffer : Option (List Nat)
  ReturnedLength : Nat
  DevExt : SIMBATT_FDO_DATA
  Events : List Event
  deriving DecidableEq

/-- Routine `SimBattQueryInformation`. `Buffer` and `ReturnedLength` come in with what
the caller's memory held before the call. A stale tag leaves both alone; after
the switch a success stores the natural length (cast to `ULONG`) and copies
only into a buffer that is there and long enough; a failure stores zero. (The
`NT_ASSERT` between the switch and the copy exists in checked builds only and
is left out.) -/
def SimBattQueryInformation (DevExt : SIMBATT_FDO_DATA) (BatteryTag : Nat)
    (Level : BATTERY_QUERY_INFORMATION_LEVEL) (AtRate : Int)
    (Buffer : Option (List Nat)) (BufferLength : Nat) (ReturnedLength : Nat) :
    QueryInformationResult :=
  let Events := [LockAcquire, StateAccess, LockRelease]
  if BatteryTag ≠ DevExt.BatteryTag then
    { Status := STATUS_NO_SUCH_DEVICE, Buffer := Buffer
      ReturnedLength := ReturnedLength, DevExt := DevExt, Events := Events }
  else
    let sel := QueryInformationSwitch DevExt.State Level AtRate
    if NT_SUCCESS sel.Status then
      let ReturnedLength := sel.ReturnBufferLength % 2 ^ 32
      match sel.ReturnBuffer with
      | some ReturnBuffer =>
        match Buffer with
        | none =>
          { Status := STATUS_BUFFER_TOO_SMALL, Buffer := none
            ReturnedLength := ReturnedLength, DevExt := DevExt, Events := Events }
        | some Bytes =>
          if BufferLength < sel.ReturnBufferLength then
            { Status := STATUS_BUFFER_TOO_SMALL, Buffer := some Bytes
              ReturnedLength := ReturnedLength, DevExt := DevExt, Events := Events }
          else
            { Status := sel.Status
              Buffer := some (memcpy Bytes ReturnBuffer sel.ReturnBufferLength)
              ReturnedLength := ReturnedLength, DevExt := DevExt, Events := Events }
      | none =>
        { Status := sel.Status, Buffer := Buffer
          ReturnedLength := ReturnedLength, DevExt := DevExt, Events := Events }
    else
      { Status := sel.Status, Buffer := Buffer
        ReturnedLength := 0, DevExt := DevExt, Events := Events }

/-- The result of `SimBattQueryStatus`. -/
structure QueryStatusResult where
  Status : NTSTATUS
  BatteryStatus : BATTERY_STATUS
  DevExt : SIMBATT_FDO_DATA
  Events : List Event
  deriving DecidableEq

/-- Routine `SimBattQueryStatus`: with the current tag, copy the whole status record
out; with another tag, leave the caller's record alone. -/
def SimBattQueryStatus (DevExt : SIMBATT_FDO_DATA) (BatteryTag : Nat)
    (BatteryStatus : BATTERY_STATUS) : QueryStatusResult :=
  let Events := [LockAcquire, StateAccess, LockRelease]
  if BatteryTag ≠ DevExt.BatteryTag then
    { Status := STATUS_NO_SUCH_DEVICE, BatteryStatus := BatteryStatus
      DevExt := DevExt, Events := Events }
  else
    { Status := STATUS_SUCCESS, BatteryStatus := DevExt.State.BatteryStatus
      DevExt := DevExt, Events := Events }

/-- Routine `SimBattSetStatusNotify`: not supported; the notify record is not
looked at. -/
def SimBattSetStatusNotify (DevExt : SIMBATT_FDO_DATA) (BatteryTag : Nat) : Outcome :=
  let Events := [LockAcquire, StateAccess, LockRelease]
  if BatteryTag ≠ DevExt.BatteryTag then
    { Status := STATUS_NO_SUCH_DEVICE, DevExt := DevExt, Events := Events }
  else
    { Status := STATUS_NOT_SUPPORTED, DevExt := DevExt, Events := Events }

/-- Routine `SimBattDisableStatusNotify`: not supported. -/
def SimBattDisableStatusNotify (DevExt : SIMBATT_FDO_DATA) : Outcome :=
  { Status := STATUS_NOT_SUPPORTED, DevExt := DevExt, Events := [] }

/-- The enumeration `BATTERY_SET_INFORMATION_LEVEL` -/
inductive BATTERY_SET_INFORMATION_LEVEL where
  | BatteryCriticalBias
  | BatteryCharge
  | BatteryDischarge
  | BatteryChargingSource
  | BatteryChargerId
  | BatteryChargerStatus
  deriving DecidableEq

open BATTERY_SET_INFORMATION_LEVEL

/-- Routine `SimBattSetInformation`, the class driver's set-information callback.
`Buffer` is nothing for `NULL`, otherwise what it points at read as a
`BATTERY_CHARGING_SOURCE`. Only the charging source is supported; it sets
`MaxCurrentDraw`. -/
def SimBattSetInformation (DevExt : SIMBATT_FDO_DATA) (BatteryTag : Nat)
    (Level : BATTERY_SET_INFORMATION_LEVEL) (Buffer : Option BATTERY_CHARGING_SOURCE) :
    Outcome :=
  let Events := [LockAcquire, StateAccess, LockRelease]
  if BatteryTag ≠ DevExt.BatteryTag then
    { Status := STATUS_NO_SUCH_DEVICE, DevExt := DevExt, Events := Events }
  else
    match Buffer with
    | none => { Status := STATUS_INVALID_PARAMETER_4, DevExt := DevExt, Events := Events }
    | some ChargingSource =>
      if Level = BatteryChargingSource then
        { Status := STATUS_SUCCESS
          DevExt := { DevExt with
            State := { DevExt.State with MaxCurrentDraw := ChargingSource.MaxCurrent } }
          Events := Events }
      else
        { Status := STATUS_NOT_SUPPORTED, DevExt := DevExt, Events := Events }

/-! ## Battery simulation interface -/

/-- The `~` of C on a `ULONG`: every one of the 32 bits flipped. -/
def ulongNot (x : Nat) : Nat := 0xFFFFFFFF ^^^ x

/-- Routine `SimBattSetBatteryStatus`: reject power-state flags outside the four valid
ones; otherwise copy the four fields and notify the class driver once the lock
is released. -/
def SimBattSetBatteryStatus (DevExt : SIMBATT_FDO_DATA) (BatteryStatus : BATTERY_STATUS) :
    Outcome :=
  let ValidPowerState :=
    BATTERY_CHARGING ||| BATTERY_DISCHARGING ||| BATTERY_CRITICAL ||| BATTERY_POWER_ON_LINE
  if BatteryStatus.PowerState &&& ulongNot ValidPowerState ≠ 0 then
    { Status := STATUS_INVALID_PARAMETER, DevExt := DevExt, Events := [] }
  else
    { Status := STATUS_SUCCESS
      DevExt := { DevExt with
        State := { DevExt.State with
          BatteryStatus := { DevExt.State.BatteryStatus with
            PowerState := BatteryStatus.PowerState
            Capacity := BatteryStatus.Capacity
            Voltage := BatteryStatus.Voltage
            Rate := BatteryStatus.Rate } } }
      Events := [LockAcquire, StateAccess, LockRelease, StatusNotify] }

/-- Routine `SimBattSetBatteryInformation`: reject capability flags outside the three
valid ones and a technology above one; otherwise copy every field except the
reserved bytes, advance the tag, and notify the class driver once the lock is
released. -/
def SimBattSetBatteryInformation (DevExt : SIMBATT_FDO_DATA)
    (BatteryInformation : BATTERY_INFORMATION) : Outcome :=
  let ValidCapabilities :=
    BATTERY_CAPACITY_RELATIVE ||| BATTERY_IS_SHORT_TERM ||| BATTERY_SYSTEM_BATTERY
  if BatteryInformation.Capabilities &&& ulongNot ValidCapabilities ≠ 0 then
    { Status := STATUS_INVALID_PARAMETER, DevExt := DevExt, Events := [] }
  else if BatteryInformation.Technology > 1 then
    { Status := STATUS_INVALID_PARAMETER, DevExt := DevExt, Events := [] }
  else
    let DevExt1 := { DevExt with
      State := { DevExt.State with
        BatteryInfo := { DevExt.State.BatteryInfo with
          Capabilities := BatteryInformation.Capabilities
          Technology := BatteryInformation.Technology
          Chemistry0 := BatteryInformation.Chemistry0
          Chemistry1 := BatteryInformation.Chemistry1
          Chemistry2 := BatteryInformation.Chemistry2
          Chemistry3 := BatteryInformation.Chemistry3
          DesignedCapacity := BatteryInformation.DesignedCapacity
          FullChargedCapacity := BatteryInformation.FullChargedCapacity
          DefaultAlert1 := BatteryInformation.DefaultAlert1
          DefaultAlert2 := BatteryInformation.DefaultAlert2
          CriticalBias := BatteryInformation.CriticalBias
          CycleCount := BatteryInformation.CycleCount } } }
    { Status := STATUS_SUCCESS
      DevExt := SimBattUpdateTag DevExt1
      Events := [LockAcquire, StateAccess, LockRelease, StatusNotify] }

/-- The validation of `SimBattSetBatteryManufactureDate`, true when the date
is turned down: with a zero among year, month and day all three must be zero;
without one, month and day must stay within 12 and 31. -/
def manufactureDateRejected (ManufactureDate : BATTERY_MANUFACTURE_DATE) : Bool :=
  if ManufactureDate.Year = 0 ∨ ManufactureDate.Month = 0 ∨ ManufactureDate.Day = 0 then
    decide (ManufactureDate.Year ≠ 0 ∨ ManufactureDate.Month ≠ 0 ∨ ManufactureDate.Day ≠ 0)
  else
    decide (ManufactureDate.Month > 12 ∨ ManufactureDate.Day > 31)

/-- Routine `SimBattSetBatteryManufactureDate`: a date that passes the validation is
stored and the tag advanced. -/
def SimBattSetBatteryManufactureDate (DevExt : SIMBATT_FDO_DATA)
    (ManufactureDate : BATTERY_MANUFACTURE_DATE) : Outcome :=
  if manufactureDateRejected ManufactureDate then
    { Status := STATUS_INVALID_PARAMETER, DevExt := DevExt, Events := [] }
  else
    let DevExt1 := { DevExt with
      State := { DevExt.State with
        ManufactureDate := { DevExt.State.ManufactureDate with
          Year := ManufactureDate.Year
          Month := ManufactureDate.Month
          Day := ManufactureDate.Day } } }
    { Status := STATUS_SUCCESS
      DevExt := SimBattUpdateTag DevExt1
      Events := [LockAcquire, StateAccess, LockRelease] }

/-- The element `Scale[Index]` of the caller's array (the annotation
`_In_reads_(ScaleCount)` promises the indices below `ScaleCount`). -/
def scaleAt (Scale : List BATTERY_REPORTING_SCALE) (Index : Nat) : BATTERY_REPORTING_SCALE :=
  Scale.getD Index { Granularity := 0, Capacity := 0 }

/-- The first loop of `SimBattSetBatteryGranularityScale`: some index from 1
up to `ScaleCount - 1` has a capacity not above its predecessor's. -/
def scaleOutOfOrder (Scale : List BATTERY_REPORTING_SCALE) (ScaleCount : Nat) : Bool :=
  (List.range' 1 (ScaleCount - 1)).any fun ScaleIndex =>
    decide ((scaleAt Scale ScaleIndex).Capacity ≤ (scaleAt Scale (ScaleIndex - 1)).Capacity)

/-- The second loop of `SimBattSetBatteryGranularityScale`: for the indices
below `ScaleCount`, in order, store granularity and capacity of `Scale[i]` in
entry `i` of the state's table. -/
def scaleCopy (GranularityScale : List BATTERY_REPORTING_SCALE)
    (Scale : List BATTERY_REPORTING_SCALE) (ScaleCount : Nat) : List BATTERY_REPORTING_SCALE :=
  (List.range ScaleCount).foldl
    (fun Table ScaleIndex =>
      Table.set ScaleIndex
        { Granularity := (scaleAt Scale ScaleIndex).Granularity
          Capacity := (scaleAt Scale ScaleIndex).Capacity })
    GranularityScale

/-- Routine `SimBattSetBatteryGranularityScale`: reject more than four entries and
capacities that do not strictly increase; otherwise copy the entries, store
the count and advance the tag. -/
def SimBattSetBatteryGranularityScale (DevExt : SIMBATT_FDO_DATA)
    (Scale : List BATTERY_REPORTING_SCALE) (ScaleCount : Nat) : Outcome :=
  if ScaleCount > 4 then
    { Status := STATUS_INVALID_PARAMETER, DevExt := DevExt, Events := [] }
  else if scaleOutOfOrder Scale ScaleCount then
    { Status := STATUS_INVALID_PARAMETER, DevExt := DevExt, Events := [] }
  else
    let DevExt1 := { DevExt with
      State := { DevExt.State with
        GranularityScale := scaleCopy DevExt.State.GranularityScale Scale ScaleCount
        GranularityCount := ScaleCount } }
    { Status := STATUS_SUCCESS
      DevExt := SimBattUpdateTag DevExt1
      Events := [LockAcquire, StateAccess, LockRelease] }

/-- Routine `SimBattSetBatteryEstimatedTime`: store the value as it is. -/
def SimBattSetBatteryEstimatedTime (DevExt : SIMBATT_FDO_DATA) (EstimatedTime : Nat) :
    Outcome :=
  { Status := STATUS_SUCCESS
    DevExt := { DevExt with State := { DevExt.State with EstimatedTime := EstimatedTime } }
    Events := [LockAcquire, StateAccess, LockRelease] }

/-- The result of `SimBattGetBatteryMaxChargingCurrent`. -/
structure MaxChargingCurrentResult where
  Status : NTSTATUS
  MaxChargingCurrent : Nat
  DevExt : SIMBATT_FDO_DATA
  Events : List Event
  deriving DecidableEq

/-- Routine `SimBattGetBatteryMaxChargingCurrent`: read `MaxCurrentDraw` (the lock is
not taken). -/
def SimBattGetBatteryMaxChargingCurrent (DevExt : SIMBATT_FDO_DATA) :
    MaxChargingCurrentResult :=
  { Status := STATUS_SUCCESS
    MaxChargingCurrent := DevExt.State.MaxCurrentDraw
    DevExt := DevExt
    Events := [StateAccess] }

/-! ## Device instances and request sequences -/

/-- The zero-initialised state record of a new device object. -/
def zeroState : SIMBATT_STATE :=
  { Version := 0
    ManufactureDate := { Day := 0, Month := 0, Year := 0 }
    BatteryInfo :=
      { Capabilities := 0, Technology := 0, Reserved0 := 0, Reserved1 := 0, Reserved2 := 0
        Chemistry0 := 0, Chemistry1 := 0, Chemistry2 := 0, Chemistry3 := 0
        DesignedCapacity := 0, FullChargedCapacity := 0, DefaultAlert1 := 0
        DefaultAlert2 := 0, CriticalBias := 0, CycleCount := 0 }
    BatteryStatus := { PowerState := 0, Capacity := 0, Voltage := 0, Rate := 0 }
    GranularityScale := List.replicate 4 { Granularity := 0, Capacity := 0 }
    GranularityCount := 0
    EstimatedTime := 0
    Temperature := 0
    MaxCurrentDraw := 0
    DeviceName := List.replicate MAX_BATTERY_STRING_SIZE 0
    ManufacturerName := List.replicate MAX_BATTERY_STRING_SIZE 0
    SerialNumber := List.replicate MAX_BATTERY_STRING_SIZE 0
    UniqueId := List.replicate MAX_BATTERY_STRING_SIZE 0 }

/-- The zero-initialised device extension of a new device object. -/
def zeroDevExt : SIMBATT_FDO_DATA := { BatteryTag := 0, State := zeroState }

/-- The device extension right after instance creation. -/
def initialDevExt : SIMBATT_FDO_DATA := (SimBattPrepareHardware zeroDevExt).DevExt

/-- One call of a query or control routine, with its arguments. -/
inductive Request where
  | QueryTag
  | QueryInformation (BatteryTag : Nat) (Level : BATTERY_QUERY_INFORMATION_LEVEL)
      (AtRate : Int) (Buffer : Option (List Nat)) (BufferLength : Nat) (ReturnedLength : Nat)
  | QueryStatus (BatteryTag : Nat) (BatteryStatus : BATTERY_STATUS)
  | SetStatusNotify (BatteryTag : Nat)
  | DisableStatusNotify
  | SetInformation (BatteryTag : Nat) (Level : BATTERY_SET_INFORMATION_LEVEL)
      (Buffer : Option BATTERY_CHARGING_SOURCE)
  | SetBatteryStatus (BatteryStatus : BATTERY_STATUS)
  | SetBatteryInformation (BatteryInformation : BATTERY_INFORMATION)
  | GetBatteryMaxChargingCurrent
  | SetBatteryManufactureDate (ManufactureDate : BATTERY_MANUFACTURE_DATE)
  | SetBatteryGranularityScale (Scale : List BATTERY_REPORTING_SCALE) (ScaleCount : Nat)
  | SetBatteryEstimatedTime (EstimatedTime : Nat)

/-- The device extension a request leaves behind. -/
def Request.apply (DevExt : SIMBATT_FDO_DATA) : Request → SIMBATT_FDO_DATA
  | .QueryTag => (SimBattQueryTag DevExt).DevExt
  | .QueryInformation BatteryTag Level AtRate Buffer BufferLength ReturnedLength =>
    (SimBattQueryInformation DevExt BatteryTag Level AtRate Buffer BufferLength
      ReturnedLength).DevExt
  | .QueryStatus BatteryTag BatteryStatus =>
    (SimBattQueryStatus DevExt BatteryTag BatteryStatus).DevExt
  | .SetStatusNotify BatteryTag => (SimBattSetStatusNotify DevExt BatteryTag).DevExt
  | .DisableStatusNotify => (SimBattDisableStatusNotify DevExt).DevExt
  | .SetInformation BatteryTag Level Buffer =>
    (SimBattSetInformation DevExt BatteryTag Level Buffer).DevExt
  | .SetBatteryStatus BatteryStatus => (SimBattSetBatteryStatus DevExt BatteryStatus).DevExt
  | .SetBatteryInformation Information =>
    (SimBattSetBatteryInformation DevExt Information).DevExt
  | .GetBatteryMaxChargingCurrent => (SimBattGetBatteryMaxChargingCurrent DevExt).DevExt
  | .SetBatteryManufactureDate ManufactureDate =>
    (SimBattSetBatteryManufactureDate DevExt ManufactureDate).DevExt
  | .SetBatteryGranularityScale Scale ScaleCount =>
    (SimBattSetBatteryGranularityScale DevExt Scale ScaleCount).DevExt
  | .SetBatteryEstimatedTime EstimatedTime =>
    (SimBattSetBatteryEstimatedTime DevExt EstimatedTime).DevExt

/-- The device extension after a sequence of requests, first request first. -/
def runRequests (DevExt : SIMBATT_FDO_DATA) (Requests : List Request) : SIMBATT_FDO_DATA :=
  Requests.foldl Request.apply DevExt

/-! ## Sample inputs -/

/-- A battery information record that passes the validation. -/
def sampleInformation : BATTERY_INFORMATION :=
  { Capabilities := 0xC0000000, Technology := 0, Reserved0 := 9, Reserved1 := 9, Reserved2 := 9
    Chemistry0 := 76, Chemistry1 := 105, Chemistry2 := 73, Chemistry3 := 0
    DesignedCapacity := 50000, FullChargedCapacity := 48000, DefaultAlert1 := 500
    DefaultAlert2 := 1000, CriticalBias := 7, CycleCount := 42 }

/-- A known manufacture date. -/
def sampleDate : BATTERY_MANUFACTURE_DATE := { Day := 15, Month := 6, Year := 2024 }

/-- A granularity table of two entries in increasing order. -/
def sampleScale : List BATTERY_REPORTING_SCALE :=
  [{ Granularity := 1, Capacity := 50 }, { Granularity := 5, Capacity := 100 }]

/-- A caller's buffer of forty bytes, each holding 7. -/
def sampleBuffer : List Nat := List.replicate 40 7

/-! ## Reading the byte images back, and the wording of the specification -/

/-- The `ULONG` a consumer reads at byte offset `Offset` of a buffer. -/
def ulongAt (Bytes : List Nat) (Offset : Nat) : Nat :=
  ule32 (Bytes.getD Offset 0) (Bytes.getD (Offset + 1) 0) (Bytes.getD (Offset + 2) 0)
    (Bytes.getD (Offset + 3) 0)

/-- The `BATTERY_INFORMATION` a consumer finds in the 36 bytes it received (the
consumer's record is laid over the buffer): capabilities at offset 0,
technology at 4, the reserved bytes at 5 to 7, the chemistry at 8 to 11, then
the six `ULONG`s from offset 12 on. -/
def BATTERY_INFORMATION.ofBytes (Bytes : List Nat) : Option BATTERY_INFORMATION :=
  if Bytes.length = sizeof_BATTERY_INFORMATION then
    some
      { Capabilities := ulongAt Bytes 0
        Technology := Bytes.getD 4 0
        Reserved0 := Bytes.getD 5 0
        Reserved1 := Bytes.getD 6 0
        Reserved2 := Bytes.getD 7 0
        Chemistry0 := Bytes.getD 8 0
        Chemistry1 := Bytes.getD 9 0
        Chemistry2 := Bytes.getD 10 0
        Chemistry3 := Bytes.getD 11 0
        DesignedCapacity := ulongAt Bytes 12
        FullChargedCapacity := ulongAt Bytes 16
        DefaultAlert1 := ulongAt Bytes 20
        DefaultAlert2 := ulongAt Bytes 24
        CriticalBias := ulongAt Bytes 28
        CycleCount := ulongAt Bytes 32 }
  else none

/-- Every flag set in `Flags` is one of the flags of `Valid`. -/
def flagsWithin (Flags Valid : Nat) : Prop :=
  ∀ i : Nat, Flags.testBit i = true → Valid.testBit i = true

/-- The fields of a `BATTERY_INFORMATION` payload fit their C types: the chemistry
bytes are `UCHAR`s, the capacities, alerts, bias and cycle count `ULONG`s. -/
def BATTERY_INFORMATION.InRange (i : BATTERY_INFORMATION) : Prop :=
  i.Chemistry0 < 256 ∧ i.Chemistry1 < 256 ∧ i.Chemistry2 < 256 ∧ i.Chemistry3 < 256 ∧
    i.DesignedCapacity < 2 ^ 32 ∧ i.FullChargedCapacity < 2 ^ 32 ∧
    i.DefaultAlert1 < 2 ^ 32 ∧ i.DefaultAlert2 < 2 ^ 32 ∧
    i.CriticalBias < 2 ^ 32 ∧ i.CycleCount < 2 ^ 32

/-- A call of `SimBattSetBatteryInformation` followed by a `BatteryInformation` query that
presents the tag the set call left behind. -/
def setThenQueryInformation (DevExt : SIMBATT_FDO_DATA) (Information : BATTERY_INFORMATION)
    (AtRate : Int) (Buffer : Option (List Nat)) (BufferLength ReturnedLength : Nat) :
    QueryInformationResult :=
  let After := (SimBattSetBatteryInformation DevExt Information).DevExt
  SimBattQueryInformation After After.BatteryTag BatteryInformation AtRate Buffer BufferLength
    ReturnedLength

/-- The string a text field stores: its units up to, not including, the first
terminator. -/
def storedString (Field : List Nat) : List Nat := Field.takeWhile fun c => c != 0

/-- The text field a text level of the query reads; nothing for the other
levels. -/
def textField (State : SIMBATT_STATE) : BATTERY_QUERY_INFORMATION_LEVEL → Option (List Nat)
  | BatteryUniqueID => some State.UniqueId
  | BatteryManufactureName => some State.ManufacturerName
  | BatteryDeviceName => some State.DeviceName
  | BatterySerialNumber => some State.SerialNumber
  | _ => none

/-- The rate the estimated-time calculation works with, in the words of the
specification: `AtRate` if it is not zero, otherwise the stored rate. -/
def effectiveRate (State : SIMBATT_STATE) (AtRate : Int) : Int :=
  if AtRate ≠ 0 then AtRate else State.BatteryStatus.Rate

/-- A discharging battery in "calculate" mode: capacity 80, rate -40. -/
def dischargingDevExt : SIMBATT_FDO_DATA :=
  runRequests initialDevExt
    [.SetBatteryEstimatedTime SIMBATT_RATE_CALCULATE,
     .SetBatteryStatus
       { PowerState := BATTERY_DISCHARGING, Capacity := 80
         Voltage := BATTERY_UNKNOWN_VOLTAGE, Rate := -40 }]

/-- A charging battery in "calculate" mode: capacity 80, rate +10. -/
def chargingDevExt : SIMBATT_FDO_DATA :=
  runRequests initialDevExt
    [.SetBatteryEstimatedTime SIMBATT_RATE_CALCULATE,
     .SetBatteryStatus
       { PowerState := BATTERY_CHARGING, Capacity := 80
         Voltage := BATTERY_UNKNOWN_VOLTAGE, Rate := 10 }]

/-- A large discharging battery in "calculate" mode: capacity 2000000,
rate -1000. -/
def largeDevExt : SIMBATT_FDO_DATA :=
  runRequests initialDevExt
    [.SetBatteryEstimatedTime SIMBATT_RATE_CALCULATE,
     .SetBatteryStatus
       { PowerState := BATTERY_DISCHARGING, Capacity := 2000000
         Voltage := BATTERY_UNKNOWN_VOLTAGE, Rate := -1000 }]

/-- The `BATTERY_MANUFACTURE_DATE` a consumer finds in the 4 bytes it received:
day at offset 0, month at 1, the year in the two bytes from offset 2. -/
def BATTERY_MANUFACTURE_DATE.ofBytes (Bytes : List Nat) : Option BATTERY_MANUFACTURE_DATE :=
  if Bytes.length = sizeof_BATTERY_MANUFACTURE_DATE then
    some
      { Day := Bytes.getD 0 0
        Month := Bytes.getD 1 0
        Year := Bytes.getD 2 0 + 256 * Bytes.getD 3 0 }
  else none

/-- A call of `SimBattSetBatteryEstimatedTime` followed by a `BatteryEstimatedTime`
query that presents the tag the set call left behind. -/
def setThenQueryEstimatedTime (DevExt : SIMBATT_FDO_DATA) (EstimatedTime : Nat)
    (AtRate : Int) (Buffer : Option (List Nat)) (BufferLength ReturnedLength : Nat) :
    QueryInformationResult :=
  let After := (SimBattSetBatteryEstimatedTime DevExt EstimatedTime).DevExt
  SimBattQueryInformation After After.BatteryTag BatteryEstimatedTime AtRate Buffer BufferLength
    ReturnedLength

/-- A call of `SimBattSetBatteryManufactureDate` followed by a
`BatteryManufactureDate` query that presents the tag the set call left behind. -/
def setThenQueryManufactureDate (DevExt : SIMBATT_FDO_DATA)
    (ManufactureDate : BATTERY_MANUFACTURE_DATE) (AtRate : Int) (Buffer : Option (List Nat))
    (BufferLength ReturnedLength : Nat) : QueryInformationResult :=
  let After := (SimBattSetBatteryManufactureDate DevExt ManufactureDate).DevExt
  SimBattQueryInformation After After.BatteryTag BatteryManufactureDate AtRate Buffer
    BufferLength ReturnedLength

/-- The first `Count` entries a consumer finds in the bytes it received: each
entry takes 8 bytes, the granularity in the first four, the capacity in the
last four. -/
def scalesOfBytes : Nat → List Nat → List BATTERY_REPORTING_SCALE
  | 0, _ => []
  | Count + 1, Bytes =>
    { Granularity := ulongAt Bytes 0, Capacity := ulongAt Bytes 4 } ::
      scalesOfBytes Count (Bytes.drop 8)

/-- A call of `SimBattSetBatteryGranularityScale` followed by a
`BatteryGranularityInformation` query that presents the tag the set call left
behind. -/
def setThenQueryGranularity (DevExt : SIMBATT_FDO_DATA)
    (Scale : List BATTERY_REPORTING_SCALE) (ScaleCount : Nat) (AtRate : Int)
    (Buffer : Option (List Nat)) (BufferLength ReturnedLength : Nat) : QueryInformationResult :=
  let After := (SimBattSetBatteryGranularityScale DevExt Scale ScaleCount).DevExt
  SimBattQueryInformation After After.BatteryTag BatteryGranularityInformation AtRate Buffer
    BufferLength ReturnedLength

/-- A state that holds a table of three entries, set before anything else. -/
def threeEntryDevExt : SIMBATT_FDO_DATA :=
  runRequests initialDevExt
    [.SetBatteryGranularityScale
      [{ Granularity := 1, Capacity := 10 }, { Granularity := 2, Capacity := 20 },
        { Granularity := 3, Capacity := 30 }] 3]

/-- A status record with valid flags and values at the edge of their types. -/
def sampleStatus : BATTERY_STATUS :=
  { PowerState := BATTERY_DISCHARGING ||| BATTERY_CRITICAL, Capacity := 0xFFFFFFFF
    Voltage := 0, Rate := -2147483648 }

/-- The status, the device extension and the events a request ends with (the
out-parameters of the queries left aside). -/
def Request.outcome (DevExt : SIMBATT_FDO_DATA) : Request → Outcome
  | .QueryTag =>
    { Status := (SimBattQueryTag DevExt).Status
      DevExt := (SimBattQueryTag DevExt).DevExt
      Events := (SimBattQueryTag DevExt).Events }
  | .QueryInformation BatteryTag Level AtRate Buffer BufferLength ReturnedLength =>
    { Status := (SimBattQueryInformation DevExt BatteryTag Level AtRate Buffer BufferLength
        ReturnedLength).Status
      DevExt := (SimBattQueryInformation DevExt BatteryTag Level AtRate Buffer BufferLength
        ReturnedLength).DevExt
      Events := (SimBattQueryInformation DevExt BatteryTag Level AtRate Buffer BufferLength
        ReturnedLength).Events }
  | .QueryStatus BatteryTag BatteryStatus =>
    { Status := (SimBattQueryStatus DevExt BatteryTag BatteryStatus).Status
      DevExt := (SimBattQueryStatus DevExt BatteryTag BatteryStatus).DevExt
      Events := (SimBattQueryStatus DevExt BatteryTag BatteryStatus).Events }
  | .SetStatusNotify BatteryTag => SimBattSetStatusNotify DevExt BatteryTag
  | .DisableStatusNotify => SimBattDisableStatusNotify DevExt
  | .SetInformation BatteryTag Level Buffer => SimBattSetInformation DevExt BatteryTag Level Buffer
  | .SetBatteryStatus BatteryStatus => SimBattSetBatteryStatus DevExt BatteryStatus
  | .SetBatteryInformation Information => SimBattSetBatteryInformation DevExt Information
  | .GetBatteryMaxChargingCurrent =>
    { Status := (SimBattGetBatteryMaxChargingCurrent DevExt).Status
      DevExt := (SimBattGetBatteryMaxChargingCurrent DevExt).DevExt
      Events := (SimBattGetBatteryMaxChargingCurrent DevExt).Events }
  | .SetBatteryManufactureDate ManufactureDate =>
    SimBattSetBatteryManufactureDate DevExt ManufactureDate
  | .SetBatteryGranularityScale Scale ScaleCount =>
    SimBattSetBatteryGranularityScale DevExt Scale ScaleCount
  | .SetBatteryEstimatedTime EstimatedTime => SimBattSetBatteryEstimatedTime DevExt EstimatedTime

/-- The requests the specification lets notify: setting the status and setting
the information. -/
def Request.setsStatusOrInformation : Request → Bool
  | .SetBatteryStatus _ => true
  | .SetBatteryInformation _ => true
  | _ => false

/-- A status record with a flag outside the valid four. -/
def badStatus : BATTERY_STATUS :=
  { PowerState := 0x10, Capacity := 50, Voltage := 12000, Rate := -5 }

/-! ## The control path -/

/-- The control codes `SimBattIoDeviceControl` switches on; `other` stands for
every code outside the six it names. -/
inductive SIMBATT_IOCTL where
  | IOCTL_SIMBATT_SET_STATUS
  | IOCTL_SIMBATT_SET_INFORMATION
  | IOCTL_SIMBATT_GET_MAXCHARGINGCURRENT
  | IOCTL_SIMBATT_SET_MANUFACTURE_DATE
  | IOCTL_SIMBATT_SET_ESTIMATED_TIME
  | IOCTL_SIMBATT_SET_GRANULARITY_INFORMATION
  | other (code : Nat)
  deriving DecidableEq

open SIMBATT_IOCTL

/-- Modelled from the spec: `WdfRequestRetrieveInputBuffer` of the driver
framework (not among the sources), on a request whose input buffer is
`InputBuffer`: `STATUS_BUFFER_TOO_SMALL` when the buffer is empty or shorter
than the minimum asked for, otherwise success together with the length the
buffer really has. -/
def WdfRequestRetrieveInputBuffer (InputBuffer : List Nat) (MinimumRequiredLength : Nat) :
    NTSTATUS × Nat :=
  if InputBuffer.length = 0 ∨ InputBuffer.length < MinimumRequiredLength then
    (STATUS_BUFFER_TOO_SMALL, 0)
  else (STATUS_SUCCESS, InputBuffer.length)

/-- Modelled from the spec: `WdfRequestRetrieveOutputBuffer` of the driver
framework, the same test on the output buffer of the request. -/
def WdfRequestRetrieveOutputBuffer (OutputBuffer : List Nat) (MinimumRequiredSize : Nat) :
    NTSTATUS × Nat :=
  if OutputBuffer.length = 0 ∨ OutputBuffer.length < MinimumRequiredSize then
    (STATUS_BUFFER_TOO_SMALL, 0)
  else (STATUS_SUCCESS, OutputBuffer.length)

/-- The C expression `sizeof(BATTERY_STATUS)` -/
def sizeof_BATTERY_STATUS : Nat := 16

/-- The `LONG` with the bit pattern of a `ULONG` (two's complement). -/
def longOfULong (x : Nat) : Int := if x < 2 ^ 31 then (x : Int) else (x : Int) - 2 ^ 32

/-- The `BATTERY_STATUS` a 16-byte buffer holds: power state, capacity and
voltage at offsets 0, 4 and 8, the signed rate at offset 12. -/
def BATTERY_STATUS.ofBytes (Bytes : List Nat) : Option BATTERY_STATUS :=
  if Bytes.length = sizeof_BATTERY_STATUS then
    some
      { PowerState := ulongAt Bytes 0
        Capacity := ulongAt Bytes 4
        Voltage := ulongAt Bytes 8
        Rate := longOfULong (ulongAt Bytes 12) }
  else none

/-- What `SimBattIoDeviceControl` completes the request with: the status and
byte count given to `WdfRequestCompleteWithInformation`, the output buffer of
the request, the device extension and the events. -/
structure IoControlResult where
  Status : NTSTATUS
  BytesReturned : Nat
  OutputBuffer : List Nat
  DevExt : SIMBATT_FDO_DATA
  Events : List Event
  deriving DecidableEq

/-- The completion of a request no routine was called for: the initial
`STATUS_INVALID_PARAMETER`, no bytes, nothing touched. -/
def IoControlResult.invalid (DevExt : SIMBATT_FDO_DATA) (OutputBuffer : List Nat) :
    IoControlResult :=
  { Status := STATUS_INVALID_PARAMETER, BytesReturned := 0, OutputBuffer := OutputBuffer
    DevExt := DevExt, Events := [] }

/-- The completion of a request with what a set routine ended with. -/
def IoControlResult.ofOutcome (o : Outcome) (OutputBuffer : List Nat) : IoControlResult :=
  { Status := o.Status, BytesReturned := 0, OutputBuffer := OutputBuffer
    DevExt := o.DevExt, Events := o.Events }

/-- Routine `SimBattIoDeviceControl` on a request with input buffer `InputBuffer`
and output buffer `OutputBuffer` (`InputBufferLength` is the length of the
former). `PointerSize` is `sizeof(PBATTERY_REPORTING_SCALE)`, the size of a
pointer on the machine the driver is built for: the granularity case counts
and checks the entries with it. A record is read from a buffer only after the
buffer was found to have exactly the size of the record, so the branches for a
buffer that cannot be read are never taken; entries read behind the end of the
granularity buffer read as zero. -/
def SimBattIoDeviceControl (PointerSize : Nat) (DevExt : SIMBATT_FDO_DATA)
    (InputBuffer OutputBuffer : List Nat) (IoControlCode : SIMBATT_IOCTL) : IoControlResult :=
  match IoControlCode with
  | IOCTL_SIMBATT_SET_STATUS =>
    let r := WdfRequestRetrieveInputBuffer InputBuffer sizeof_BATTERY_STATUS
    if NT_SUCCESS r.1 = true ∧ r.2 = sizeof_BATTERY_STATUS then
      match BATTERY_STATUS.ofBytes InputBuffer with
      | some BatteryStatus =>
        IoControlResult.ofOutcome (SimBattSetBatteryStatus DevExt BatteryStatus) OutputBuffer
      | none => IoControlResult.invalid DevExt OutputBuffer
    else IoControlResult.invalid DevExt OutputBuffer
  | IOCTL_SIMBATT_SET_INFORMATION =>
    let r := WdfRequestRetrieveInputBuffer InputBuffer sizeof_BATTERY_INFORMATION
    if NT_SUCCESS r.1 = true ∧ r.2 = sizeof_BATTERY_INFORMATION then
      match BATTERY_INFORMATION.ofBytes InputBuffer with
      | some Information =>
        IoControlResult.ofOutcome (SimBattSetBatteryInformation DevExt Information)
          OutputBuffer
      | none => IoControlResult.invalid DevExt OutputBuffer
    else IoControlResult.invalid DevExt OutputBuffer
  | IOCTL_SIMBATT_GET_MAXCHARGINGCURRENT =>
    let r := WdfRequestRetrieveOutputBuffer OutputBuffer sizeof_ULONG
    if NT_SUCCESS r.1 = true ∧ r.2 = sizeof_ULONG then
      let g := SimBattGetBatteryMaxChargingCurrent DevExt
      { Status := g.Status
        BytesReturned := if NT_SUCCESS g.Status then sizeof_ULONG else 0
        OutputBuffer := le32 g.MaxChargingCurrent ++ OutputBuffer.drop sizeof_ULONG
        DevExt := g.DevExt
        Events := g.Events }
    else IoControlResult.invalid DevExt OutputBuffer
  | IOCTL_SIMBATT_SET_MANUFACTURE_DATE =>
    let r := WdfRequestRetrieveInputBuffer InputBuffer sizeof_BATTERY_MANUFACTURE_DATE
    if NT_SUCCESS r.1 = true ∧ r.2 = sizeof_BATTERY_MANUFACTURE_DATE then
      match BATTERY_MANUFACTURE_DATE.ofBytes InputBuffer with
      | some ManufactureDate =>
        IoControlResult.ofOutcome (SimBattSetBatteryManufactureDate DevExt ManufactureDate)
          OutputBuffer
      | none => IoControlResult.invalid DevExt OutputBuffer
    else IoControlResult.invalid DevExt OutputBuffer
  | IOCTL_SIMBATT_SET_ESTIMATED_TIME =>
    let r := WdfRequestRetrieveInputBuffer InputBuffer sizeof_ULONG
    if NT_SUCCESS r.1 = true ∧ r.2 = sizeof_ULONG then
      IoControlResult.ofOutcome (SimBattSetBatteryEstimatedTime DevExt (ulongAt InputBuffer 0))
        OutputBuffer
    else IoControlResult.invalid DevExt OutputBuffer
  | IOCTL_SIMBATT_SET_GRANULARITY_INFORMATION =>
    let GranularityEntries := (InputBuffer.length / PointerSize) % 2 ^ 32
    let r := WdfRequestRetrieveInputBuffer InputBuffer (GranularityEntries * PointerSize)
    if NT_SUCCESS r.1 = true ∧ r.2 = GranularityEntries * PointerSize then
      IoControlResult.ofOutcome
        (SimBattSetBatteryGranularityScale DevExt
          (scalesOfBytes GranularityEntries InputBuffer) GranularityEntries)
        OutputBuffer
    else IoControlResult.invalid DevExt OutputBuffer
  | SIMBATT_IOCTL.other _ => IoControlResult.invalid DevExt OutputBuffer

/-- The size of a pointer where pointers take 32 bits. -/
def pointerSize32 : Nat := 4

/-- A granularity payload of four bytes: half of one (granularity, capacity)
entry. -/
def halfEntryPayload : List Nat := [50, 0, 0, 0]

/-! ## Error kinds, static data and the lock discipline -/

/-- The error kinds of the specification's taxonomy. -/
inductive ErrorKind where
  | NoSuchDevice
  | InvalidParameter
  | BufferTooSmall
  | UnsupportedLevel
  | UnsupportedOperation
  deriving DecidableEq

/-- The error kind the specification's taxonomy files a status under: "no such
device" for a stale or invalid tag, "invalid parameter" for a payload turned
down (also the fourth parameter being null), "buffer too small", "unsupported
level" for the status a recognised level without data ends with, "unsupported
operation" for what is not implemented; nothing for a status that is no
failure of the taxonomy. -/
def errorKind : NTSTATUS → Option ErrorKind
  | STATUS_SUCCESS => none
  | STATUS_BUFFER_OVERFLOW => none
  | STATUS_NO_SUCH_DEVICE => some ErrorKind.NoSuchDevice
  | STATUS_INVALID_DEVICE_REQUEST => some ErrorKind.UnsupportedLevel
  | STATUS_INVALID_PARAMETER => some ErrorKind.InvalidParameter
  | STATUS_INVALID_PARAMETER_4 => some ErrorKind.InvalidParameter
  | STATUS_BUFFER_TOO_SMALL => some ErrorKind.BufferTooSmall
  | STATUS_NOT_SUPPORTED => some ErrorKind.UnsupportedOperation

/-- The static data of the specification's glossary: the information record,
the manufacture date, the granularity table and its count. -/
structure StaticData where
  BatteryInfo : BATTERY_INFORMATION
  ManufactureDate : BATTERY_MANUFACTURE_DATE
  GranularityScale : List BATTERY_REPORTING_SCALE
  GranularityCount : Nat
  deriving DecidableEq

/-- The static data a device extension holds. -/
def staticData (DevExt : SIMBATT_FDO_DATA) : StaticData :=
  { BatteryInfo := DevExt.State.BatteryInfo
    ManufactureDate := DevExt.State.ManufactureDate
    GranularityScale := DevExt.State.GranularityScale
    GranularityCount := DevExt.State.GranularityCount }

/-- The requests that set static data: information, manufacture date and
granularity table. -/
def Request.setsStaticData : Request → Bool
  | .SetBatteryInformation _ => true
  | .SetBatteryManufactureDate _ => true
  | .SetBatteryGranularityScale _ _ => true
  | _ => false

/-- A charging source of 1500 mA. -/
def sampleSource : BATTERY_CHARGING_SOURCE := { SourceType := 1, MaxCurrent := 1500 }

/-- Whether a list of events, read from a point where the lock is `Held` or
not, never has a notification while the lock is held. -/
def notifiesUnlocked : Bool → List Event → Bool
  | _, [] => true
  | _, LockAcquire :: Events => notifiesUnlocked true Events
  | _, LockRelease :: Events => notifiesUnlocked false Events
  | Held, StateAccess :: Events => notifiesUnlocked Held Events
  | Held, StatusNotify :: Events => !Held && notifiesUnlocked Held Events

/-- Whether a list of events keeps the locking discipline, read from a point
where the lock is `Held` or not: a field of the state or the tag is touched
only while the lock is held, the lock is taken only while it is free and
released only while it is held, and it is free at the end. -/
def lockDiscipline : Bool → List Event → Bool
  | Held, [] => !Held
  | Held, LockAcquire :: Events => !Held && lockDiscipline true Events
  | Held, LockRelease :: Events => Held && lockDiscipline false Events
  | Held, StateAccess :: Events => Held && lockDiscipline Held Events
  | Held, StatusNotify :: Events => lockDiscipline Held Events

/-- Whether the manufacture date a request carries fits the C types of its
fields: `UCHAR Day`, `UCHAR Month`, `USHORT Year`. Requests without a date
pass. -/
def Request.dateInType : Request → Bool
  | .SetBatteryManufactureDate ManufactureDate =>
    decide (ManufactureDate.Day < 2 ^ 8) && decide (ManufactureDate.Month < 2 ^ 8) &&
      decide (ManufactureDate.Year < 2 ^ 16)
  | _ => true

/-- The literal `SimBattPrepareHardware` stores in the text field a text level
of the query reads; nothing for the other levels. -/
def placeholderString : BATTERY_QUERY_INFORMATION_LEVEL → Option (List Nat)
  | BatteryDeviceName => some DEFAULT_NAME
  | BatteryManufactureName => some DEFAULT_MANUFACTURER
  | BatterySerialNumber => some DEFAULT_SERIALNO
  | BatteryUniqueID => some DEFAULT_UNIQUEID
  | _ => none

/-- The data-model invariant of the specification for a manufacture date:
either all three fields are zero, or all three are non-zero with the month at
most 12 and the day at most 31. -/
def BATTERY_MANUFACTURE_DATE.Valid (d : BATTERY_MANUFACTURE_DATE) : Prop :=
  (d.Year = 0 ∧ d.Month = 0 ∧ d.Day = 0) ∨
    (d.Year ≠ 0 ∧ d.Month ≠ 0 ∧ d.Day ≠ 0 ∧ d.Month ≤ 12 ∧ d.Day ≤ 31)

/-! ## Properties of the tag -/

theorem updateTag_tag (DevExt : SIMBATT_FDO_DATA) :
    (SimBattUpdateTag DevExt).BatteryTag =
      if (DevExt.BatteryTag + 1) % 2 ^ 32 = BATTERY_TAG_INVALID then
        (DevExt.BatteryTag + 2) % 2 ^ 32
      else (DevExt.BatteryTag + 1) % 2 ^ 32 := by
  unfold SimBattUpdateTag BATTERY_TAG_INVALID
  by_cases h : (DevExt.BatteryTag + 1) % 2 ^ 32 = 0
  · simp only [h, if_true]
    omega
  · simp only [h, if_false]

theorem updateTag_state (DevExt : SIMBATT_FDO_DATA) :
    (SimBattUpdateTag DevExt).State = DevExt.State := by
  unfold SimBattUpdateTag
  dsimp only
  split <;> rfl

theorem updateTag_ne_invalid (DevExt : SIMBATT_FDO_DATA) :
    (SimBattUpdateTag DevExt).BatteryTag ≠ BATTERY_TAG_INVALID := by
  rw [updateTag_tag]
  unfold BATTERY_TAG_INVALID
  split <;> omega

theorem updateTag_ne_self (DevExt : SIMBATT_FDO_DATA) :
    (SimBattUpdateTag DevExt).BatteryTag ≠ DevExt.BatteryTag := by
  rw [updateTag_tag]
  unfold BATTERY_TAG_INVALID
  split <;> omega

theorem setBatteryStatus_tag (DevExt : SIMBATT_FDO_DATA) (BatteryStatus : BATTERY_STATUS) :
    (SimBattSetBatteryStatus DevExt BatteryStatus).DevExt.BatteryTag = DevExt.BatteryTag := by
  unfold SimBattSetBatteryStatus
  dsimp only
  split <;> rfl

theorem setBatteryEstimatedTime_tag (DevExt : SIMBATT_FDO_DATA) (EstimatedTime : Nat) :
    (SimBattSetBatteryEstimatedTime DevExt EstimatedTime).DevExt.BatteryTag =
      DevExt.BatteryTag := rfl

theorem setInformation_tag (DevExt : SIMBATT_FDO_DATA) (BatteryTag : Nat)
    (Level : BATTERY_SET_INFORMATION_LEVEL) (Buffer : Option BATTERY_CHARGING_SOURCE) :
    (SimBattSetInformation DevExt BatteryTag Level Buffer).DevExt.BatteryTag =
      DevExt.BatteryTag := by
  unfold SimBattSetInformation
  dsimp only
  split
  · rfl
  · split
    · rfl
    · split <;> rfl

theorem updateTag_tag_congr (DevExt : SIMBATT_FDO_DATA) (State : SIMBATT_STATE) :
    (SimBattUpdateTag { DevExt with State := State }).BatteryTag =
      (SimBattUpdateTag DevExt).BatteryTag := by
  rw [updateTag_tag, updateTag_tag]

theorem setBatteryInformation_tag (DevExt : SIMBATT_FDO_DATA) (Information : BATTERY_INFORMATION) :
    (SimBattSetBatteryInformation DevExt Information).DevExt.BatteryTag =
      if (SimBattSetBatteryInformation DevExt Information).Status = STATUS_SUCCESS then
        (SimBattUpdateTag DevExt).BatteryTag
      else DevExt.BatteryTag := by
  unfold SimBattSetBatteryInformation
  dsimp only
  split
  · simp
  · split
    · simp
    · simp only [if_true]
      exact updateTag_tag_congr DevExt _

theorem setBatteryManufactureDate_tag (DevExt : SIMBATT_FDO_DATA)
    (ManufactureDate : BATTERY_MANUFACTURE_DATE) :
    (SimBattSetBatteryManufactureDate DevExt ManufactureDate).DevExt.BatteryTag =
      if (SimBattSetBatteryManufactureDate DevExt ManufactureDate).Status = STATUS_SUCCESS then
        (SimBattUpdateTag DevExt).BatteryTag
      else DevExt.BatteryTag := by
  unfold SimBattSetBatteryManufactureDate
  dsimp only
  split
  · simp
  · simp only [if_true]
    exact updateTag_tag_congr DevExt _

theorem setBatteryGranularityScale_tag (DevExt : SIMBATT_FDO_DATA)
    (Scale : List BATTERY_REPORTING_SCALE) (ScaleCount : Nat) :
    (SimBattSetBatteryGranularityScale DevExt Scale ScaleCount).DevExt.BatteryTag =
      if (SimBattSetBatteryGranularityScale DevExt Scale ScaleCount).Status = STATUS_SUCCESS then
        (SimBattUpdateTag DevExt).BatteryTag
      else DevExt.BatteryTag := by
  unfold SimBattSetBatteryGranularityScale
  dsimp only
  split
  · simp
  · split
    · simp
    · simp only [if_true]
      exact updateTag_tag_congr DevExt _

theorem request_apply_tag (DevExt : SIMBATT_FDO_DATA) (r : Request) :
    (r.apply DevExt).BatteryTag = DevExt.BatteryTag ∨
      (r.apply DevExt).BatteryTag = (SimBattUpdateTag DevExt).BatteryTag := by
  cases r with
  | QueryTag => exact Or.inl rfl
  | QueryInformation BatteryTag Level AtRate Buffer BufferLength ReturnedLength =>
    refine Or.inl ?_
    show (SimBattQueryInformation DevExt BatteryTag Level AtRate Buffer BufferLength
      ReturnedLength).DevExt.BatteryTag = _
    unfold SimBattQueryInformation
    dsimp only
    split
    · rfl
    · split
      · split
        · split
          · rfl
          · split <;> rfl
        · rfl
      · rfl
  | QueryStatus BatteryTag BatteryStatus =>
    refine Or.inl ?_
    show (SimBattQueryStatus DevExt BatteryTag BatteryStatus).DevExt.BatteryTag = _
    unfold SimBattQueryStatus
    dsimp only
    split <;> rfl
  | SetStatusNotify BatteryTag =>
    refine Or.inl ?_
    show (SimBattSetStatusNotify DevExt BatteryTag).DevExt.BatteryTag = _
    unfold SimBattSetStatusNotify
    dsimp only
    split <;> rfl
  | DisableStatusNotify => exact Or.inl rfl
  | SetInformation BatteryTag Level Buffer =>
    exact Or.inl (setInformation_tag DevExt BatteryTag Level Buffer)
  | SetBatteryStatus BatteryStatus => exact Or.inl (setBatteryStatus_tag DevExt BatteryStatus)
  | SetBatteryInformation Information =>
    have h := setBatteryInformation_tag DevExt Information
    show (SimBattSetBatteryInformation DevExt Information).DevExt.BatteryTag = _ ∨ _
    split at h
    · exact Or.inr h
    · exact Or.inl h
  | GetBatteryMaxChargingCurrent => exact Or.inl rfl
  | SetBatteryManufactureDate ManufactureDate =>
    have h := setBatteryManufactureDate_tag DevExt ManufactureDate
    show (SimBattSetBatteryManufactureDate DevExt ManufactureDate).DevExt.BatteryTag = _ ∨ _
    split at h
    · exact Or.inr h
    · exact Or.inl h
  | SetBatteryGranularityScale Scale ScaleCount =>
    have h := setBatteryGranularityScale_tag DevExt Scale ScaleCount
    show (SimBattSetBatteryGranularityScale DevExt Scale ScaleCount).DevExt.BatteryTag = _ ∨ _
    split at h
    · exact Or.inr h
    · exact Or.inl h
  | SetBatteryEstimatedTime EstimatedTime => exact Or.inl rfl

theorem runRequests_tag_ne_invalid (Requests : List Request) :
    ∀ DevExt : SIMBATT_FDO_DATA, DevExt.BatteryTag ≠ BATTERY_TAG_INVALID →
      (runRequests DevExt Requests).BatteryTag ≠ BATTERY_TAG_INVALID := by
  induction Requests with
  | nil => intro DevExt h; exact h
  | cons r rest ih =>
    intro DevExt h
    show (runRequests (r.apply DevExt) rest).BatteryTag ≠ BATTERY_TAG_INVALID
    apply ih
    rcases request_apply_tag DevExt r with e | e
    · rw [e]; exact h
    · rw [e]; exact updateTag_ne_invalid DevExt

theorem initialDevExt_tag : initialDevExt.BatteryTag = BATTERY_TAG_INVALID + 1 := by decide

theorem updateTag_max (DevExt : SIMBATT_FDO_DATA) :
    (SimBattUpdateTag { DevExt with BatteryTag := 0xFFFFFFFF }).BatteryTag =
      BATTERY_TAG_INVALID + 1 := by
  rw [updateTag_tag]
  show (if (0xFFFFFFFF + 1) % 2 ^ 32 = BATTERY_TAG_INVALID then (0xFFFFFFFF + 2) % 2 ^ 32
    else (0xFFFFFFFF + 1) % 2 ^ 32) = BATTERY_TAG_INVALID + 1
  decide

/-- C1: `SimBattUpdateTag` turns a tag `t` into `t + 1` modulo `2 ^ 32`, unless
that is the reserved invalid tag, and then into `t + 2` modulo `2 ^ 32`. The new
tag is never the invalid tag and never `t`, the state record is left alone, and
the largest tag `0xFFFFFFFF` goes to the first valid tag, skipping the invalid
one. (Holds for every tag value, so in particular for every 32-bit one.) -/
theorem SimBattUpdateTag_advances (DevExt : SIMBATT_FDO_DATA) :
    ((SimBattUpdateTag DevExt).BatteryTag =
        if (DevExt.BatteryTag + 1) % 2 ^ 32 = BATTERY_TAG_INVALID then
          (DevExt.BatteryTag + 2) % 2 ^ 32
        else (DevExt.BatteryTag + 1) % 2 ^ 32) ∧
      (SimBattUpdateTag DevExt).BatteryTag ≠ BATTERY_TAG_INVALID ∧
      (SimBattUpdateTag DevExt).BatteryTag ≠ DevExt.BatteryTag ∧
      (SimBattUpdateTag DevExt).State = DevExt.State ∧
      (SimBattUpdateTag { DevExt with BatteryTag := 0xFFFFFFFF }).BatteryTag =
        BATTERY_TAG_INVALID + 1 :=
  ⟨updateTag_tag DevExt, updateTag_ne_invalid DevExt, updateTag_ne_self DevExt,
    updateTag_state DevExt, updateTag_max DevExt⟩

/-- C2: starting from instance creation (`SimBattPrepareHardware` on the
zero-initialised device record), after every finite sequence of query and
control requests, accepted or rejected, the current tag differs from the
reserved invalid tag. -/
theorem tag_never_invalid (Requests : List Request) :
    (runRequests initialDevExt Requests).BatteryTag ≠ BATTERY_TAG_INVALID := by
  apply runRequests_tag_ne_invalid
  rw [initialDevExt_tag]
  exact Nat.succ_ne_self _

/-- C3: for every state and payload, `SimBattSetBatteryStatus`,
`SimBattSetBatteryEstimatedTime` and the charging-source request of
`SimBattSetInformation` (whatever tag is presented, with or without a payload)
leave the tag as it was, whether they succeed or are rejected. -/
theorem dynamic_updates_keep_tag (DevExt : SIMBATT_FDO_DATA) (BatteryStatus : BATTERY_STATUS)
    (EstimatedTime : Nat) (BatteryTag : Nat) (Buffer : Option BATTERY_CHARGING_SOURCE) :
    (SimBattSetBatteryStatus DevExt BatteryStatus).DevExt.BatteryTag = DevExt.BatteryTag ∧
      (SimBattSetBatteryEstimatedTime DevExt EstimatedTime).DevExt.BatteryTag =
        DevExt.BatteryTag ∧
      (SimBattSetInformation DevExt BatteryTag BatteryChargingSource Buffer).DevExt.BatteryTag =
        DevExt.BatteryTag :=
  ⟨setBatteryStatus_tag DevExt BatteryStatus, setBatteryEstimatedTime_tag DevExt EstimatedTime,
    setInformation_tag DevExt BatteryTag BatteryChargingSource Buffer⟩

theorem queryInformation_stale (DevExt : SIMBATT_FDO_DATA) (BatteryTag : Nat)
    (Level : BATTERY_QUERY_INFORMATION_LEVEL) (AtRate : Int) (Buffer : Option (List Nat))
    (BufferLength ReturnedLength : Nat) (h : BatteryTag ≠ DevExt.BatteryTag) :
    SimBattQueryInformation DevExt BatteryTag Level AtRate Buffer BufferLength ReturnedLength =
      { Status := STATUS_NO_SUCH_DEVICE, Buffer := Buffer, ReturnedLength := ReturnedLength
        DevExt := DevExt, Events := [LockAcquire, StateAccess, LockRelease] } := by
  unfold SimBattQueryInformation
  simp only [h, ne_eq, not_false_eq_true, if_true]

theorem queryStatus_stale (DevExt : SIMBATT_FDO_DATA) (BatteryTag : Nat)
    (BatteryStatus : BATTERY_STATUS) (h : BatteryTag ≠ DevExt.BatteryTag) :
    SimBattQueryStatus DevExt BatteryTag BatteryStatus =
      { Status := STATUS_NO_SUCH_DEVICE, BatteryStatus := BatteryStatus
        DevExt := DevExt, Events := [LockAcquire, StateAccess, LockRelease] } := by
  unfold SimBattQueryStatus
  simp only [h, ne_eq, not_false_eq_true, if_true]

/-- C4: for every state and every payload that `SimBattSetBatteryInformation`,
`SimBattSetBatteryManufactureDate` or `SimBattSetBatteryGranularityScale`
accepts, the tag after the call is `SimBattUpdateTag` of the tag before it,
differs from the tag before it and is not the reserved invalid tag. -/
theorem static_updates_advance_tag (DevExt : SIMBATT_FDO_DATA) :
    (∀ Information : BATTERY_INFORMATION,
      (SimBattSetBatteryInformation DevExt Information).Status = STATUS_SUCCESS →
        (SimBattSetBatteryInformation DevExt Information).DevExt.BatteryTag =
            (SimBattUpdateTag DevExt).BatteryTag ∧
          (SimBattSetBatteryInformation DevExt Information).DevExt.BatteryTag ≠
            DevExt.BatteryTag ∧
          (SimBattSetBatteryInformation DevExt Information).DevExt.BatteryTag ≠
            BATTERY_TAG_INVALID) ∧
    (∀ ManufactureDate : BATTERY_MANUFACTURE_DATE,
      (SimBattSetBatteryManufactureDate DevExt ManufactureDate).Status = STATUS_SUCCESS →
        (SimBattSetBatteryManufactureDate DevExt ManufactureDate).DevExt.BatteryTag =
            (SimBattUpdateTag DevExt).BatteryTag ∧
          (SimBattSetBatteryManufactureDate DevExt ManufactureDate).DevExt.BatteryTag ≠
            DevExt.BatteryTag ∧
          (SimBattSetBatteryManufactureDate DevExt ManufactureDate).DevExt.BatteryTag ≠
            BATTERY_TAG_INVALID) ∧
    (∀ (Scale : List BATTERY_REPORTING_SCALE) (ScaleCount : Nat),
      (SimBattSetBatteryGranularityScale DevExt Scale ScaleCount).Status = STATUS_SUCCESS →
        (SimBattSetBatteryGranularityScale DevExt Scale ScaleCount).DevExt.BatteryTag =
            (SimBattUpdateTag DevExt).BatteryTag ∧
          (SimBattSetBatteryGranularityScale DevExt Scale ScaleCount).DevExt.BatteryTag ≠
            DevExt.BatteryTag ∧
          (SimBattSetBatteryGranularityScale DevExt Scale ScaleCount).DevExt.BatteryTag ≠
            BATTERY_TAG_INVALID) := by
  refine ⟨fun Information h => ?_, fun ManufactureDate h => ?_, fun Scale ScaleCount h => ?_⟩
  · have e := setBatteryInformation_tag DevExt Information
    rw [if_pos h] at e
    rw [e]
    exact ⟨rfl, updateTag_ne_self DevExt, updateTag_ne_invalid DevExt⟩
  · have e := setBatteryManufactureDate_tag DevExt ManufactureDate
    rw [if_pos h] at e
    rw [e]
    exact ⟨rfl, updateTag_ne_self DevExt, updateTag_ne_invalid DevExt⟩
  · have e := setBatteryGranularityScale_tag DevExt Scale ScaleCount
    rw [if_pos h] at e
    rw [e]
    exact ⟨rfl, updateTag_ne_self DevExt, updateTag_ne_invalid DevExt⟩

theorem static_updates_advance_tag_witness :
    (SimBattSetBatteryInformation initialDevExt sampleInformation).DevExt.BatteryTag = 2 ∧
      (SimBattSetBatteryManufactureDate initialDevExt sampleDate).DevExt.BatteryTag = 2 ∧
      (SimBattSetBatteryGranularityScale initialDevExt sampleScale 2).DevExt.BatteryTag = 2 :=
  ⟨((static_updates_advance_tag initialDevExt).1 sampleInformation (by decide)).1.trans
      (by decide),
    ((static_updates_advance_tag initialDevExt).2.1 sampleDate (by decide)).1.trans
      (by decide),
    ((static_updates_advance_tag initialDevExt).2.2 sampleScale 2 (by decide)).1.trans
      (by decide)⟩

/-- C5: a query that presents a tag other than the current one fails with
`STATUS_NO_SUCH_DEVICE`, whatever the level, the rate and the caller's buffer
and capacity (the tag is compared before the level and the buffer size are
looked at); it writes neither the buffer nor the returned length, and leaves
the device extension as it was. The same holds for `SimBattQueryStatus` and the
caller's status record. In particular, after an accepted
`SimBattSetBatteryInformation`, `SimBattSetBatteryManufactureDate` or
`SimBattSetBatteryGranularityScale` a query with the tag from before the call
fails in this way. -/
theorem stale_tag_rejected :
    (∀ (DevExt : SIMBATT_FDO_DATA) (BatteryTag : Nat) (Level : BATTERY_QUERY_INFORMATION_LEVEL)
        (AtRate : Int) (Buffer : Option (List Nat)) (BufferLength ReturnedLength : Nat),
      BatteryTag ≠ DevExt.BatteryTag →
        (SimBattQueryInformation DevExt BatteryTag Level AtRate Buffer BufferLength
            ReturnedLength).Status = STATUS_NO_SUCH_DEVICE ∧
          (SimBattQueryInformation DevExt BatteryTag Level AtRate Buffer BufferLength
            ReturnedLength).Buffer = Buffer ∧
          (SimBattQueryInformation DevExt BatteryTag Level AtRate Buffer BufferLength
            ReturnedLength).ReturnedLength = ReturnedLength ∧
          (SimBattQueryInformation DevExt BatteryTag Level AtRate Buffer BufferLength
            ReturnedLength).DevExt = DevExt) ∧
    (∀ (DevExt : SIMBATT_FDO_DATA) (BatteryTag : Nat) (BatteryStatus : BATTERY_STATUS),
      BatteryTag ≠ DevExt.BatteryTag →
        (SimBattQueryStatus DevExt BatteryTag BatteryStatus).Status = STATUS_NO_SUCH_DEVICE ∧
          (SimBattQueryStatus DevExt BatteryTag BatteryStatus).BatteryStatus = BatteryStatus ∧
          (SimBattQueryStatus DevExt BatteryTag BatteryStatus).DevExt = DevExt) ∧
    (∀ (DevExt : SIMBATT_FDO_DATA) (After : Outcome)
        (Level : BATTERY_QUERY_INFORMATION_LEVEL) (AtRate : Int) (Buffer : Option (List Nat))
        (BufferLength ReturnedLength : Nat),
      After.Status = STATUS_SUCCESS →
      ((∃ Information, After = SimBattSetBatteryInformation DevExt Information) ∨
        (∃ ManufactureDate, After = SimBattSetBatteryManufactureDate DevExt ManufactureDate) ∨
        (∃ Scale ScaleCount,
          After = SimBattSetBatteryGranularityScale DevExt Scale ScaleCount)) →
        (SimBattQueryInformation After.DevExt DevExt.BatteryTag Level AtRate Buffer
            BufferLength ReturnedLength).Status = STATUS_NO_SUCH_DEVICE ∧
          (SimBattQueryInformation After.DevExt DevExt.BatteryTag Level AtRate Buffer
            BufferLength ReturnedLength).Buffer = Buffer ∧
          (SimBattQueryInformation After.DevExt DevExt.BatteryTag Level AtRate Buffer
            BufferLength ReturnedLength).ReturnedLength = ReturnedLength ∧
          (SimBattQueryInformation After.DevExt DevExt.BatteryTag Level AtRate Buffer
            BufferLength ReturnedLength).DevExt = After.DevExt) := by
  have key : ∀ (DevExt : SIMBATT_FDO_DATA) (BatteryTag : Nat)
      (Level : BATTERY_QUERY_INFORMATION_LEVEL) (AtRate : Int) (Buffer : Option (List Nat))
      (BufferLength ReturnedLength : Nat), BatteryTag ≠ DevExt.BatteryTag →
      (SimBattQueryInformation DevExt BatteryTag Level AtRate Buffer BufferLength
          ReturnedLength).Status = STATUS_NO_SUCH_DEVICE ∧
        (SimBattQueryInformation DevExt BatteryTag Level AtRate Buffer BufferLength
          ReturnedLength).Buffer = Buffer ∧
        (SimBattQueryInformation DevExt BatteryTag Level AtRate Buffer BufferLength
          ReturnedLength).ReturnedLength = ReturnedLength ∧
        (SimBattQueryInformation DevExt BatteryTag Level AtRate Buffer BufferLength
          ReturnedLength).DevExt = DevExt := by
    intro DevExt BatteryTag Level AtRate Buffer BufferLength ReturnedLength h
    rw [queryInformation_stale DevExt BatteryTag Level AtRate Buffer BufferLength
      ReturnedLength h]
    exact ⟨rfl, rfl, rfl, rfl⟩
  refine ⟨key, ?_, ?_⟩
  · intro DevExt BatteryTag BatteryStatus h
    rw [queryStatus_stale DevExt BatteryTag BatteryStatus h]
    exact ⟨rfl, rfl, rfl⟩
  · intro DevExt After Level AtRate Buffer BufferLength ReturnedLength hs hm
    apply key
    rcases hm with ⟨Information, rfl⟩ | ⟨ManufactureDate, rfl⟩ | ⟨Scale, ScaleCount, rfl⟩
    · have e := setBatteryInformation_tag DevExt Information
      rw [if_pos hs] at e
      rw [e]
      exact fun h => updateTag_ne_self DevExt h.symm
    · have e := setBatteryManufactureDate_tag DevExt ManufactureDate
      rw [if_pos hs] at e
      rw [e]
      exact fun h => updateTag_ne_self DevExt h.symm
    · have e := setBatteryGranularityScale_tag DevExt Scale ScaleCount
      rw [if_pos hs] at e
      rw [e]
      exact fun h => updateTag_ne_self DevExt h.symm

theorem stale_tag_rejected_witness :
    (SimBattQueryInformation initialDevExt 7 BatteryInformation 0 (some sampleBuffer) 40
        99).Status = STATUS_NO_SUCH_DEVICE ∧
      (SimBattQueryStatus initialDevExt 7 initialDevExt.State.BatteryStatus).Status =
        STATUS_NO_SUCH_DEVICE ∧
      (SimBattQueryInformation (SimBattSetBatteryInformation initialDevExt sampleInformation).DevExt
        initialDevExt.BatteryTag BatteryInformation 0 (some sampleBuffer) 40 99).Status =
        STATUS_NO_SUCH_DEVICE :=
  ⟨(stale_tag_rejected.1 initialDevExt 7 BatteryInformation 0 (some sampleBuffer) 40 99
      (by decide)).1,
    (stale_tag_rejected.2.1 initialDevExt 7 initialDevExt.State.BatteryStatus (by decide)).1,
    (stale_tag_rejected.2.2 initialDevExt
      (SimBattSetBatteryInformation initialDevExt sampleInformation) BatteryInformation 0
      (some sampleBuffer) 40 99 (by decide) (Or.inl ⟨sampleInformation, rfl⟩)).1⟩

/-! ## Flags -/

theorem ulongNot_testBit (x i : Nat) :
    (ulongNot x).testBit i = (decide (i < 32) != x.testBit i) := by
  unfold ulongNot
  rw [Nat.testBit_xor]
  have h : (0xFFFFFFFF : Nat) = 2 ^ 32 - 1 := by norm_num
  rw [h, Nat.testBit_two_pow_sub_one]

theorem testBit_false_of_lt {x i : Nat} (hx : x < 2 ^ 32) (hi : 32 ≤ i) :
    x.testBit i = false :=
  Nat.testBit_lt_two_pow (lt_of_lt_of_le hx (Nat.pow_le_pow_right (by norm_num) hi))

theorem flagsWithin_iff (Flags Valid : Nat) (hv : Valid < 2 ^ 32) :
    flagsWithin Flags Valid ↔ Flags < 2 ^ 32 ∧ Flags &&& ulongNot Valid = 0 := by
  constructor
  · intro h
    have hlt : Flags < 2 ^ 32 := by
      by_contra hge
      obtain ⟨i, hi, hbit⟩ := Nat.ge_two_pow_implies_high_bit_true (Nat.not_lt.mp hge)
      have := h i hbit
      rw [testBit_false_of_lt hv hi] at this
      exact Bool.false_ne_true this
    refine ⟨hlt, Nat.eq_of_testBit_eq fun i => ?_⟩
    rw [Nat.testBit_and, ulongNot_testBit, Nat.zero_testBit]
    by_cases hb : Flags.testBit i = true
    · have hi : i < 32 := by
        by_contra hge
        rw [testBit_false_of_lt hlt (Nat.not_lt.mp hge)] at hb
        exact Bool.false_ne_true hb
      simp [hb, h i hb, hi]
    · simp [hb]
  · rintro ⟨hlt, h0⟩ i hb
    have hi : i < 32 := by
      by_contra hge
      rw [testBit_false_of_lt hlt (Nat.not_lt.mp hge)] at hb
      exact Bool.false_ne_true hb
    have := congrArg (fun n => Nat.testBit n i) h0
    simp only [Nat.testBit_and, ulongNot_testBit, Nat.zero_testBit, hb, hi, decide_True,
      Bool.true_and] at this
    cases hv' : Valid.testBit i
    · rw [hv'] at this; exact absurd this (by decide)
    · rfl

/-! ## Queries with the current tag -/

theorem queryInformation_copy (DevExt : SIMBATT_FDO_DATA)
    (Level : BATTERY_QUERY_INFORMATION_LEVEL) (AtRate : Int) (Bytes : List Nat)
    (BufferLength ReturnedLength : Nat) (Source : List Nat) (n : Nat)
    (hsel : QueryInformationSwitch DevExt.State Level AtRate =
      { Status := STATUS_SUCCESS, ReturnBuffer := some Source, ReturnBufferLength := n })
    (hlen : n ≤ BufferLength) :
    SimBattQueryInformation DevExt DevExt.BatteryTag Level AtRate (some Bytes) BufferLength
        ReturnedLength =
      { Status := STATUS_SUCCESS, Buffer := some (memcpy Bytes Source n)
        ReturnedLength := n % 2 ^ 32, DevExt := DevExt
        Events := [LockAcquire, StateAccess, LockRelease] } := by
  unfold SimBattQueryInformation
  simp only [ne_eq, not_true_eq_false, if_false, hsel, NT_SUCCESS, if_true,
    Nat.not_lt.mpr hlen]

theorem queryInformation_too_small (DevExt : SIMBATT_FDO_DATA)
    (Level : BATTERY_QUERY_INFORMATION_LEVEL) (AtRate : Int) (Bytes : List Nat)
    (BufferLength ReturnedLength : Nat) (Source : List Nat) (n : Nat)
    (hsel : QueryInformationSwitch DevExt.State Level AtRate =
      { Status := STATUS_SUCCESS, ReturnBuffer := some Source, ReturnBufferLength := n })
    (hlen : BufferLength < n) :
    SimBattQueryInformation DevExt DevExt.BatteryTag Level AtRate (some Bytes) BufferLength
        ReturnedLength =
      { Status := STATUS_BUFFER_TOO_SMALL, Buffer := some Bytes
        ReturnedLength := n % 2 ^ 32, DevExt := DevExt
        Events := [LockAcquire, StateAccess, LockRelease] } := by
  unfold SimBattQueryInformation
  simp only [ne_eq, not_true_eq_false, if_false, hsel, NT_SUCCESS, if_true, hlen]

theorem queryInformation_null_buffer (DevExt : SIMBATT_FDO_DATA)
    (Level : BATTERY_QUERY_INFORMATION_LEVEL) (AtRate : Int)
    (BufferLength ReturnedLength : Nat) (Source : List Nat) (n : Nat)
    (hsel : QueryInformationSwitch DevExt.State Level AtRate =
      { Status := STATUS_SUCCESS, ReturnBuffer := some Source, ReturnBufferLength := n }) :
    SimBattQueryInformation DevExt DevExt.BatteryTag Level AtRate none BufferLength
        ReturnedLength =
      { Status := STATUS_BUFFER_TOO_SMALL, Buffer := none
        ReturnedLength := n % 2 ^ 32, DevExt := DevExt
        Events := [LockAcquire, StateAccess, LockRelease] } := by
  unfold SimBattQueryInformation
  simp only [ne_eq, not_true_eq_false, if_false, hsel, NT_SUCCESS, if_true]

theorem memcpy_take (Bytes Source : List Nat) (n : Nat) (h : n ≤ Source.length) :
    (memcpy Bytes Source n).take n = Source.take n := by
  unfold memcpy
  rw [List.take_append_of_le_length (by rw [List.length_take]; omega)]
  rw [List.take_take, Nat.min_self]

theorem memcpy_drop (Bytes Source : List Nat) (n : Nat) (h : n ≤ Source.length) :
    (memcpy Bytes Source n).drop n = Bytes.drop n := by
  unfold memcpy
  have hl : (Source.take n).length = n := by rw [List.length_take]; omega
  rw [List.drop_append_eq_append_drop, hl, Nat.sub_self, List.drop_zero,
    List.drop_eq_nil_of_le (by omega), List.nil_append]

theorem memcpy_length (Bytes Source : List Nat) (n : Nat) (h : n ≤ Source.length)
    (hb : n ≤ Bytes.length) : (memcpy Bytes Source n).length = Bytes.length := by
  unfold memcpy
  rw [List.length_append, List.length_take, List.length_drop]
  omega

/-! ## The information record -/

theorem ule32_le32 (x : Nat) :
    ule32 (x % 256) (x / 256 % 256) (x / 65536 % 256) (x / 16777216 % 256) = x % 2 ^ 32 := by
  unfold ule32
  omega

theorem information_bytes_length (i : BATTERY_INFORMATION) :
    i.bytes.length = sizeof_BATTERY_INFORMATION := rfl

theorem information_ofBytes_bytes (i : BATTERY_INFORMATION) :
    BATTERY_INFORMATION.ofBytes i.bytes =
      some
        { Capabilities := i.Capabilities % 2 ^ 32
          Technology := i.Technology % 256
          Reserved0 := i.Reserved0 % 256
          Reserved1 := i.Reserved1 % 256
          Reserved2 := i.Reserved2 % 256
          Chemistry0 := i.Chemistry0 % 256
          Chemistry1 := i.Chemistry1 % 256
          Chemistry2 := i.Chemistry2 % 256
          Chemistry3 := i.Chemistry3 % 256
          DesignedCapacity := i.DesignedCapacity % 2 ^ 32
          FullChargedCapacity := i.FullChargedCapacity % 2 ^ 32
          DefaultAlert1 := i.DefaultAlert1 % 2 ^ 32
          DefaultAlert2 := i.DefaultAlert2 % 2 ^ 32
          CriticalBias := i.CriticalBias % 2 ^ 32
          CycleCount := i.CycleCount % 2 ^ 32 } := by
  unfold BATTERY_INFORMATION.ofBytes
  rw [if_pos (information_bytes_length i)]
  simp only [BATTERY_INFORMATION.bytes, le32, ulongAt, List.cons_append, List.nil_append,
    List.getD_cons_zero, List.getD_cons_succ, ule32_le32]

theorem setBatteryInformation_accepted (DevExt : SIMBATT_FDO_DATA)
    (Information : BATTERY_INFORMATION)
    (hcaps : flagsWithin Information.Capabilities
      (BATTERY_CAPACITY_RELATIVE ||| BATTERY_IS_SHORT_TERM ||| BATTERY_SYSTEM_BATTERY))
    (htech : Information.Technology ≤ 1) :
    (SimBattSetBatteryInformation DevExt Information).Status = STATUS_SUCCESS ∧
      (SimBattSetBatteryInformation DevExt Information).DevExt.State.BatteryInfo =
        { DevExt.State.BatteryInfo with
          Capabilities := Information.Capabilities
          Technology := Information.Technology
          Chemistry0 := Information.Chemistry0
          Chemistry1 := Information.Chemistry1
          Chemistry2 := Information.Chemistry2
          Chemistry3 := Information.Chemistry3
          DesignedCapacity := Information.DesignedCapacity
          FullChargedCapacity := Information.FullChargedCapacity
          DefaultAlert1 := Information.DefaultAlert1
          DefaultAlert2 := Information.DefaultAlert2
          CriticalBias := Information.CriticalBias
          CycleCount := Information.CycleCount } := by
  have h0 := ((flagsWithin_iff _ _ (by decide)).mp hcaps).2
  unfold SimBattSetBatteryInformation
  simp only [h0, ne_eq, not_true_eq_false, if_false, Nat.not_lt.mpr htech, gt_iff_lt,
    updateTag_state, and_self]

/-- C6: for every state and every information record whose capability flags
lie within the three valid flags and whose technology is at most 1 (its fields
within their C types), `SimBattSetBatteryInformation` succeeds, and a following
`BatteryInformation` query with the new tag, any rate and a buffer of at least
`sizeof(BATTERY_INFORMATION)` bytes succeeds, reports that size and delivers a
record equal to the one set in capabilities, technology, the four chemistry
bytes, designed and full-charge capacity, both alerts, critical bias and cycle
count; the bytes of the buffer behind the record stay as they were. -/
theorem information_round_trip (DevExt : SIMBATT_FDO_DATA) (Information : BATTERY_INFORMATION)
    (AtRate : Int) (Bytes : List Nat) (BufferLength ReturnedLength : Nat)
    (hcaps : flagsWithin Information.Capabilities
      (BATTERY_CAPACITY_RELATIVE ||| BATTERY_IS_SHORT_TERM ||| BATTERY_SYSTEM_BATTERY))
    (htech : Information.Technology ≤ 1)
    (hrange : Information.InRange)
    (hlen : sizeof_BATTERY_INFORMATION ≤ BufferLength) :
    (SimBattSetBatteryInformation DevExt Information).Status = STATUS_SUCCESS ∧
      (setThenQueryInformation DevExt Information AtRate (some Bytes) BufferLength
        ReturnedLength).Status = STATUS_SUCCESS ∧
      (setThenQueryInformation DevExt Information AtRate (some Bytes) BufferLength
        ReturnedLength).ReturnedLength = sizeof_BATTERY_INFORMATION ∧
      ∃ (Out : List Nat) (Payload : BATTERY_INFORMATION),
        (setThenQueryInformation DevExt Information AtRate (some Bytes) BufferLength
          ReturnedLength).Buffer = some Out ∧
        BATTERY_INFORMATION.ofBytes (Out.take sizeof_BATTERY_INFORMATION) = some Payload ∧
        Out.drop sizeof_BATTERY_INFORMATION = Bytes.drop sizeof_BATTERY_INFORMATION ∧
        Payload.Capabilities = Information.Capabilities ∧
        Payload.Technology = Information.Technology ∧
        Payload.Chemistry0 = Information.Chemistry0 ∧
        Payload.Chemistry1 = Information.Chemistry1 ∧
        Payload.Chemistry2 = Information.Chemistry2 ∧
        Payload.Chemistry3 = Information.Chemistry3 ∧
        Payload.DesignedCapacity = Information.DesignedCapacity ∧
        Payload.FullChargedCapacity = Information.FullChargedCapacity ∧
        Payload.DefaultAlert1 = Information.DefaultAlert1 ∧
        Payload.DefaultAlert2 = Information.DefaultAlert2 ∧
        Payload.CriticalBias = Information.CriticalBias ∧
        Payload.CycleCount = Information.CycleCount := by
  obtain ⟨hacc, hinfo⟩ := setBatteryInformation_accepted DevExt Information hcaps htech
  have hcap32 := ((flagsWithin_iff _ _ (by decide)).mp hcaps).1
  obtain ⟨h0, h1, h2, h3, hd, hf, ha1, ha2, hcb, hcc⟩ := hrange
  have hq := queryInformation_copy (SimBattSetBatteryInformation DevExt Information).DevExt
    BatteryInformation AtRate Bytes BufferLength ReturnedLength
    (SimBattSetBatteryInformation DevExt Information).DevExt.State.BatteryInfo.bytes
    sizeof_BATTERY_INFORMATION rfl hlen
  have hsrc := information_bytes_length
    (SimBattSetBatteryInformation DevExt Information).DevExt.State.BatteryInfo
  have hst : (setThenQueryInformation DevExt Information AtRate (some Bytes) BufferLength
      ReturnedLength) = _ := hq
  rw [hst]
  have htake : (memcpy Bytes
      (SimBattSetBatteryInformation DevExt Information).DevExt.State.BatteryInfo.bytes
      sizeof_BATTERY_INFORMATION).take sizeof_BATTERY_INFORMATION =
      (SimBattSetBatteryInformation DevExt Information).DevExt.State.BatteryInfo.bytes := by
    rw [memcpy_take _ _ _ (le_of_eq hsrc.symm)]
    exact List.take_of_length_le (le_of_eq hsrc)
  have hof := information_ofBytes_bytes
    (SimBattSetBatteryInformation DevExt Information).DevExt.State.BatteryInfo
  rw [← htake] at hof
  refine ⟨hacc, rfl, rfl, _, _, rfl, hof, memcpy_drop _ _ _ (le_of_eq hsrc.symm), ?_⟩
  rw [hinfo]
  simp only [Nat.mod_eq_of_lt, hcap32, h0, h1, h2, h3, hd, hf, ha1, ha2, hcb, hcc,
    Nat.mod_eq_of_lt (lt_of_le_of_lt htech (by norm_num : (1 : Nat) < 256)), and_self]

theorem information_round_trip_witness :
    (setThenQueryInformation initialDevExt sampleInformation 0 (some sampleBuffer) 40
        99).Status = STATUS_SUCCESS ∧
      (setThenQueryInformation initialDevExt sampleInformation 0 (some sampleBuffer) 40
        99).ReturnedLength = 36 :=
  have h := information_round_trip initialDevExt sampleInformation 0 sampleBuffer 40 99
    ((flagsWithin_iff _ _ (by decide)).mpr (by decide)) (by decide)
    (by unfold BATTERY_INFORMATION.InRange; decide) (by decide)
  ⟨h.2.1, h.2.2.1⟩

/-! ## Natural sizes -/

theorem worker_some (psz : List Nat) :
    ∀ (cchMax i : Nat), RtlStringLengthWorkerW psz cchMax = some i →
      i < cchMax ∧ i < psz.length ∧ psz.take (i + 1) = psz.take i ++ [0] ∧
        ∀ c ∈ psz.take i, c ≠ 0 := by
  induction psz with
  | nil =>
    intro cchMax i h
    cases cchMax <;> simp [RtlStringLengthWorkerW] at h
  | cons c cs ih =>
    intro cchMax i h
    cases cchMax with
    | zero => simp [RtlStringLengthWorkerW] at h
    | succ m =>
      unfold RtlStringLengthWorkerW at h
      by_cases hc : c = 0
      · rw [if_pos hc] at h
        cases h
        simp [hc]
      · rw [if_neg hc] at h
        cases hw : RtlStringLengthWorkerW cs m with
        | none => rw [hw] at h; cases h
        | some k =>
          rw [hw] at h
          cases h
          obtain ⟨h1, h2, h3, h4⟩ := ih m k hw
          refine ⟨by omega, by simp; omega, ?_, ?_⟩
          · simp only [List.take_succ_cons, List.cons_append, List.cons.injEq, true_and]
            exact h3
          · intro x hx
            simp only [List.take_succ_cons, List.mem_cons] at hx
            rcases hx with rfl | hx
            · exact hc
            · exact h4 x hx

theorem wcharBytes_length (a : List Nat) : (wcharBytes a).length = 2 * a.length := by
  induction a with
  | nil => rfl
  | cons c cs ih =>
    simp only [wcharBytes, List.flatMap_cons, List.length_append, List.length_cons] at ih ⊢
    simp only [le16, List.length_cons, List.length_nil]
    omega

theorem scaleBytes_length (a : List BATTERY_REPORTING_SCALE) :
    (scaleBytes a).length = 8 * a.length := by
  induction a with
  | nil => rfl
  | cons c cs ih =>
    simp only [scaleBytes, List.flatMap_cons, List.length_append, List.length_cons] at ih ⊢
    simp only [BATTERY_REPORTING_SCALE.bytes, le32, List.length_append, List.length_cons,
      List.length_nil]
    omega

theorem queryString_bounds (Field Source : List Nat) (n : Nat)
    (hsel : QueryStringSelection Field =
      { Status := STATUS_SUCCESS, ReturnBuffer := some Source, ReturnBufferLength := n }) :
    0 < n ∧ n ≤ Source.length ∧ n < 2 ^ 32 := by
  unfold QueryStringSelection RtlStringCbLengthW at hsel
  cases hw : RtlStringLengthWorkerW Field (MAX_BATTERY_STRING_SIZE * sizeof_WCHAR / 2) with
  | none => rw [hw] at hsel; simp at hsel
  | some i =>
    rw [hw] at hsel
    obtain ⟨h1, h2, -, -⟩ := worker_some Field _ i hw
    simp only [QuerySelection.mk.injEq, Option.some.injEq, true_and] at hsel
    obtain ⟨rfl, rfl⟩ := hsel
    rw [wcharBytes_length]
    simp only [MAX_BATTERY_STRING_SIZE, sizeof_WCHAR] at h1 ⊢
    omega

theorem switch_bounds (State : SIMBATT_STATE) (Level : BATTERY_QUERY_INFORMATION_LEVEL)
    (AtRate : Int) (Source : List Nat) (n : Nat)
    (hcount : State.GranularityCount ≤ State.GranularityScale.length)
    (harray : State.GranularityScale.length = 4)
    (hsel : QueryInformationSwitch State Level AtRate =
      { Status := STATUS_SUCCESS, ReturnBuffer := some Source, ReturnBufferLength := n }) :
    0 < n ∧ n ≤ Source.length ∧ n < 2 ^ 32 := by
  cases Level with
  | BatteryInformation =>
    simp only [QueryInformationSwitch, QuerySelection.mk.injEq, Option.some.injEq,
      true_and] at hsel
    obtain ⟨rfl, rfl⟩ := hsel
    rw [information_bytes_length]
    decide
  | BatteryEstimatedTime =>
    simp only [QueryInformationSwitch, QuerySelection.mk.injEq, Option.some.injEq,
      true_and] at hsel
    obtain ⟨rfl, rfl⟩ := hsel
    simp [le32, sizeof_ULONG]
  | BatteryTemperature =>
    simp only [QueryInformationSwitch, QuerySelection.mk.injEq, Option.some.injEq,
      true_and] at hsel
    obtain ⟨rfl, rfl⟩ := hsel
    simp [le32, sizeof_ULONG]
  | BatteryUniqueID => exact queryString_bounds _ _ _ hsel
  | BatteryManufactureName => exact queryString_bounds _ _ _ hsel
  | BatteryDeviceName => exact queryString_bounds _ _ _ hsel
  | BatterySerialNumber => exact queryString_bounds _ _ _ hsel
  | BatteryManufactureDate =>
    simp only [QueryInformationSwitch] at hsel
    split at hsel
    · simp only [QuerySelection.mk.injEq, Option.some.injEq, true_and] at hsel
      obtain ⟨rfl, rfl⟩ := hsel
      simp [BATTERY_MANUFACTURE_DATE.bytes, le16, sizeof_BATTERY_MANUFACTURE_DATE]
    · simp at hsel
  | BatteryGranularityInformation =>
    simp only [QueryInformationSwitch] at hsel
    split at hsel
    · rename_i hpos
      simp only [QuerySelection.mk.injEq, Option.some.injEq, true_and] at hsel
      obtain ⟨rfl, rfl⟩ := hsel
      rw [scaleBytes_length]
      simp only [sizeof_BATTERY_REPORTING_SCALE]
      omega
    · simp at hsel
  | other v => simp [QueryInformationSwitch] at hsel

/-- C7: take a state (its granularity table the four-entry array with a count
inside it), the current tag, and a level for which the switch makes data
available: a source and a natural size `n`. Then `n` bytes are there to copy,
and with a caller's buffer `Bytes` of capacity `BufferLength`:
* if `BufferLength < n` the query fails with `STATUS_BUFFER_TOO_SMALL`, reports
  `n` and leaves the buffer untouched, and a following query whose capacity is
  the reported size succeeds with the right data;
* if `n ≤ BufferLength` the query succeeds, reports exactly `n`, the first `n`
  bytes of the buffer are the `n` payload bytes and the bytes behind them are
  untouched.
(A `NULL` buffer, which has no capacity at all, is answered like a too small
one.) -/
theorem sizing_contract (DevExt : SIMBATT_FDO_DATA) (Level : BATTERY_QUERY_INFORMATION_LEVEL)
    (AtRate : Int) (Bytes : List Nat) (BufferLength ReturnedLength : Nat)
    (Source : List Nat) (n : Nat)
    (hcount : DevExt.State.GranularityCount ≤ DevExt.State.GranularityScale.length)
    (harray : DevExt.State.GranularityScale.length = 4)
    (hsel : QueryInformationSwitch DevExt.State Level AtRate =
      { Status := STATUS_SUCCESS, ReturnBuffer := some Source, ReturnBufferLength := n }) :
    (0 < n ∧ n ≤ Source.length) ∧
    (BufferLength < n →
      (SimBattQueryInformation DevExt DevExt.BatteryTag Level AtRate (some Bytes) BufferLength
          ReturnedLength).Status = STATUS_BUFFER_TOO_SMALL ∧
        (SimBattQueryInformation DevExt DevExt.BatteryTag Level AtRate (some Bytes) BufferLength
          ReturnedLength).ReturnedLength = n ∧
        (SimBattQueryInformation DevExt DevExt.BatteryTag Level AtRate (some Bytes) BufferLength
          ReturnedLength).Buffer = some Bytes ∧
        ∀ (Bytes2 : List Nat) (ReturnedLength2 : Nat),
          ∃ Out : List Nat,
            SimBattQueryInformation
                (SimBattQueryInformation DevExt DevExt.BatteryTag Level AtRate (some Bytes)
                  BufferLength ReturnedLength).DevExt
                DevExt.BatteryTag Level AtRate (some Bytes2)
                (SimBattQueryInformation DevExt DevExt.BatteryTag Level AtRate (some Bytes)
                  BufferLength ReturnedLength).ReturnedLength
                ReturnedLength2 =
              { Status := STATUS_SUCCESS, Buffer := some Out, ReturnedLength := n
                DevExt := DevExt, Events := [LockAcquire, StateAccess, LockRelease] } ∧
            Out.take n = Source.take n ∧ Out.drop n = Bytes2.drop n) ∧
    (n ≤ BufferLength →
      ∃ Out : List Nat,
        SimBattQueryInformation DevExt DevExt.BatteryTag Level AtRate (some Bytes) BufferLength
            ReturnedLength =
          { Status := STATUS_SUCCESS, Buffer := some Out, ReturnedLength := n
            DevExt := DevExt, Events := [LockAcquire, StateAccess, LockRelease] } ∧
        Out.take n = Source.take n ∧ Out.drop n = Bytes.drop n) ∧
    (SimBattQueryInformation DevExt DevExt.BatteryTag Level AtRate none BufferLength
        ReturnedLength).Status = STATUS_BUFFER_TOO_SMALL ∧
    (SimBattQueryInformation DevExt DevExt.BatteryTag Level AtRate none BufferLength
        ReturnedLength).ReturnedLength = n := by
  obtain ⟨hpos, hsrc, h32⟩ := switch_bounds DevExt.State Level AtRate Source n hcount harray hsel
  have hmod : n % 2 ^ 32 = n := Nat.mod_eq_of_lt h32
  have hgood : ∀ (B : List Nat) (L R : Nat), n ≤ L →
      ∃ Out : List Nat,
        SimBattQueryInformation DevExt DevExt.BatteryTag Level AtRate (some B) L R =
          { Status := STATUS_SUCCESS, Buffer := some Out, ReturnedLength := n
            DevExt := DevExt, Events := [LockAcquire, StateAccess, LockRelease] } ∧
        Out.take n = Source.take n ∧ Out.drop n = B.drop n := by
    intro B L R hL
    refine ⟨memcpy B Source n, ?_, memcpy_take B Source n hsrc, memcpy_drop B Source n hsrc⟩
    rw [queryInformation_copy DevExt Level AtRate B L R Source n hsel hL, hmod]
  refine ⟨⟨hpos, hsrc⟩, ?_, hgood Bytes BufferLength ReturnedLength, ?_, ?_⟩
  · intro hlt
    rw [queryInformation_too_small DevExt Level AtRate Bytes BufferLength ReturnedLength
      Source n hsel hlt, hmod]
    exact ⟨rfl, rfl, rfl, fun Bytes2 ReturnedLength2 =>
      hgood Bytes2 n ReturnedLength2 (le_refl n)⟩
  · rw [queryInformation_null_buffer DevExt Level AtRate BufferLength ReturnedLength Source n
      hsel]
  · rw [queryInformation_null_buffer DevExt Level AtRate BufferLength ReturnedLength Source n
      hsel]
    exact hmod

theorem sizing_contract_witness :
    (SimBattQueryInformation initialDevExt initialDevExt.BatteryTag BatteryDeviceName 0
        (some sampleBuffer) 33 99).Status = STATUS_BUFFER_TOO_SMALL ∧
      (SimBattQueryInformation initialDevExt initialDevExt.BatteryTag BatteryDeviceName 0
        (some sampleBuffer) 33 99).ReturnedLength = 34 ∧
      (SimBattQueryInformation initialDevExt initialDevExt.BatteryTag BatteryDeviceName 0
        (some sampleBuffer) 33 99).Buffer = some sampleBuffer :=
  have h := (sizing_contract initialDevExt BatteryDeviceName 0 sampleBuffer 33 99
    (wcharBytes initialDevExt.State.DeviceName) 34 (by decide) (by decide) rfl).2.1
    (by decide)
  ⟨h.1, h.2.1, h.2.2.1⟩

/-! ## Text fields -/

theorem worker_storedString (psz : List Nat) (cchMax i : Nat)
    (h : RtlStringLengthWorkerW psz cchMax = some i) :
    storedString psz = psz.take i ∧ psz.take (i + 1) = storedString psz ++ [0] := by
  obtain ⟨-, -, h3, h4⟩ := worker_some psz cchMax i h
  have hs : storedString psz = psz.take i := by
    unfold storedString
    conv_lhs => rw [← List.take_append_drop (i + 1) psz, h3, List.append_assoc]
    rw [List.takeWhile_append_of_pos (fun a ha => by simpa using h4 a ha)]
    simp
  exact ⟨hs, by rw [hs]; exact h3⟩

theorem wcharBytes_take (a : List Nat) : ∀ k : Nat,
    (wcharBytes a).take (2 * k) = wcharBytes (a.take k) := by
  induction a with
  | nil => intro k; simp [wcharBytes]
  | cons c cs ih =>
    intro k
    cases k with
    | zero => simp [wcharBytes]
    | succ k =>
      have e : 2 * (k + 1) = 2 * k + 1 + 1 := by omega
      have ih' := ih k
      simp only [wcharBytes, List.flatMap_cons, List.take_succ_cons, le16, List.cons_append,
        List.nil_append, e, List.cons.injEq, true_and] at ih' ⊢
      exact ih'

theorem queryString_selection (Field : List Nat) (i : Nat)
    (h : RtlStringLengthWorkerW Field MAX_BATTERY_STRING_SIZE = some i) :
    QueryStringSelection Field =
        { Status := STATUS_SUCCESS, ReturnBuffer := some (wcharBytes Field)
          ReturnBufferLength := 2 * (storedString Field).length + 2 } ∧
      (wcharBytes Field).take (2 * (storedString Field).length + 2) =
        wcharBytes (storedString Field ++ [0]) := by
  obtain ⟨h1, h2, -, -⟩ := worker_some Field _ i h
  obtain ⟨hs, ht⟩ := worker_storedString Field _ i h
  have hl : (storedString Field).length = i := by
    rw [hs, List.length_take]; omega
  constructor
  · unfold QueryStringSelection RtlStringCbLengthW
    have e : MAX_BATTERY_STRING_SIZE * sizeof_WCHAR / 2 = MAX_BATTERY_STRING_SIZE := by decide
    rw [e, h, hl]
    simp only [sizeof_WCHAR, QuerySelection.mk.injEq, true_and]
    omega
  · have e : 2 * (storedString Field).length + 2 = 2 * (i + 1) := by omega
    rw [e, wcharBytes_take, ht]

theorem request_apply_strings (DevExt : SIMBATT_FDO_DATA) (r : Request) :
    (r.apply DevExt).State.DeviceName = DevExt.State.DeviceName ∧
      (r.apply DevExt).State.ManufacturerName = DevExt.State.ManufacturerName ∧
      (r.apply DevExt).State.SerialNumber = DevExt.State.SerialNumber ∧
      (r.apply DevExt).State.UniqueId = DevExt.State.UniqueId ∧
      (r.apply DevExt).State.Temperature = DevExt.State.Temperature := by
  cases r with
  | QueryTag => exact ⟨rfl, rfl, rfl, rfl, rfl⟩
  | QueryInformation BatteryTag Level AtRate Buffer BufferLength ReturnedLength =>
    have h : (SimBattQueryInformation DevExt BatteryTag Level AtRate Buffer BufferLength
        ReturnedLength).DevExt = DevExt := by
      unfold SimBattQueryInformation
      dsimp only
      split
      · rfl
      · split
        · split
          · split
            · rfl
            · split <;> rfl
          · rfl
        · rfl
    simp only [Request.apply, h, and_self]
  | QueryStatus BatteryTag BatteryStatus =>
    have h : (SimBattQueryStatus DevExt BatteryTag BatteryStatus).DevExt = DevExt := by
      unfold SimBattQueryStatus
      dsimp only
      split <;> rfl
    simp only [Request.apply, h, and_self]
  | SetStatusNotify BatteryTag =>
    have h : (SimBattSetStatusNotify DevExt BatteryTag).DevExt = DevExt := by
      unfold SimBattSetStatusNotify
      dsimp only
      split <;> rfl
    simp only [Request.apply, h, and_self]
  | DisableStatusNotify => exact ⟨rfl, rfl, rfl, rfl, rfl⟩
  | SetInformation BatteryTag Level Buffer =>
    simp only [Request.apply, SimBattSetInformation]
    split
    · exact ⟨rfl, rfl, rfl, rfl, rfl⟩
    · split
      · exact ⟨rfl, rfl, rfl, rfl, rfl⟩
      · split <;> exact ⟨rfl, rfl, rfl, rfl, rfl⟩
  | SetBatteryStatus BatteryStatus =>
    simp only [Request.apply, SimBattSetBatteryStatus]
    split <;> exact ⟨rfl, rfl, rfl, rfl, rfl⟩
  | SetBatteryInformation Information =>
    simp only [Request.apply, SimBattSetBatteryInformation]
    split
    · exact ⟨rfl, rfl, rfl, rfl, rfl⟩
    · split
      · exact ⟨rfl, rfl, rfl, rfl, rfl⟩
      · simp only [updateTag_state, and_self]
  | GetBatteryMaxChargingCurrent => exact ⟨rfl, rfl, rfl, rfl, rfl⟩
  | SetBatteryManufactureDate ManufactureDate =>
    simp only [Request.apply, SimBattSetBatteryManufactureDate]
    split
    · exact ⟨rfl, rfl, rfl, rfl, rfl⟩
    · simp only [updateTag_state, and_self]
  | SetBatteryGranularityScale Scale ScaleCount =>
    simp only [Request.apply, SimBattSetBatteryGranularityScale]
    split
    · exact ⟨rfl, rfl, rfl, rfl, rfl⟩
    · split
      · exact ⟨rfl, rfl, rfl, rfl, rfl⟩
      · simp only [updateTag_state, and_self]
  | SetBatteryEstimatedTime EstimatedTime => exact ⟨rfl, rfl, rfl, rfl, rfl⟩

theorem runRequests_strings (Requests : List Request) :
    ∀ DevExt : SIMBATT_FDO_DATA,
      (runRequests DevExt Requests).State.DeviceName = DevExt.State.DeviceName ∧
        (runRequests DevExt Requests).State.ManufacturerName = DevExt.State.ManufacturerName ∧
        (runRequests DevExt Requests).State.SerialNumber = DevExt.State.SerialNumber ∧
        (runRequests DevExt Requests).State.UniqueId = DevExt.State.UniqueId ∧
        (runRequests DevExt Requests).State.Temperature = DevExt.State.Temperature := by
  induction Requests with
  | nil => intro DevExt; exact ⟨rfl, rfl, rfl, rfl, rfl⟩
  | cons r rest ih =>
    intro DevExt
    obtain ⟨a1, a2, a3, a4, a5⟩ := ih (r.apply DevExt)
    obtain ⟨b1, b2, b3, b4, b5⟩ := request_apply_strings DevExt r
    exact ⟨a1.trans b1, a2.trans b2, a3.trans b3, a4.trans b4, a5.trans b5⟩

theorem initial_workers :
    RtlStringLengthWorkerW initialDevExt.State.DeviceName MAX_BATTERY_STRING_SIZE = some 16 ∧
      RtlStringLengthWorkerW initialDevExt.State.ManufacturerName MAX_BATTERY_STRING_SIZE =
        some 14 ∧
      RtlStringLengthWorkerW initialDevExt.State.SerialNumber MAX_BATTERY_STRING_SIZE =
        some 4 ∧
      RtlStringLengthWorkerW initialDevExt.State.UniqueId MAX_BATTERY_STRING_SIZE = some 20 := by
  decide

theorem initial_storedStrings :
    storedString initialDevExt.State.DeviceName = DEFAULT_NAME ∧
      storedString initialDevExt.State.ManufacturerName = DEFAULT_MANUFACTURER ∧
      storedString initialDevExt.State.SerialNumber = DEFAULT_SERIALNO ∧
      storedString initialDevExt.State.UniqueId = DEFAULT_UNIQUEID := by
  decide

/-- C8: in every state reached from instance creation, with the current tag, a
query for `BatteryUniqueID`, `BatteryManufactureName`, `BatteryDeviceName` or
`BatterySerialNumber` has as natural size the byte length of the stored string
(two bytes for each UTF-16 unit before the first terminator) plus one two-byte
terminator; a buffer below that size gets `STATUS_BUFFER_TOO_SMALL` with that
size reported, and on success the payload is the units of the string followed
by the terminator. The stored strings are the four placeholder strings; for the
device name `SimulatedBattery` the natural size is 34 bytes. -/
theorem text_levels (Requests : List Request) (Level : BATTERY_QUERY_INFORMATION_LEVEL)
    (Field : List Nat) (AtRate : Int) (Bytes : List Nat) (BufferLength ReturnedLength : Nat)
    (hfield : textField (runRequests initialDevExt Requests).State Level = some Field) :
    QueryInformationSwitch (runRequests initialDevExt Requests).State Level AtRate =
        { Status := STATUS_SUCCESS, ReturnBuffer := some (wcharBytes Field)
          ReturnBufferLength := 2 * (storedString Field).length + 2 } ∧
      (BufferLength < 2 * (storedString Field).length + 2 →
        (SimBattQueryInformation (runRequests initialDevExt Requests)
            (runRequests initialDevExt Requests).BatteryTag Level AtRate (some Bytes)
            BufferLength ReturnedLength).Status = STATUS_BUFFER_TOO_SMALL ∧
          (SimBattQueryInformation (runRequests initialDevExt Requests)
            (runRequests initialDevExt Requests).BatteryTag Level AtRate (some Bytes)
            BufferLength ReturnedLength).ReturnedLength =
            2 * (storedString Field).length + 2) ∧
      (2 * (storedString Field).length + 2 ≤ BufferLength →
        ∃ Out : List Nat,
          SimBattQueryInformation (runRequests initialDevExt Requests)
              (runRequests initialDevExt Requests).BatteryTag Level AtRate (some Bytes)
              BufferLength ReturnedLength =
            { Status := STATUS_SUCCESS, Buffer := some Out
              ReturnedLength := 2 * (storedString Field).length + 2
              DevExt := runRequests initialDevExt Requests
              Events := [LockAcquire, StateAccess, LockRelease] } ∧
          Out.take (2 * (storedString Field).length + 2) =
            wcharBytes (storedString Field ++ [0]) ∧
          Out.drop (2 * (storedString Field).length + 2) =
            Bytes.drop (2 * (storedString Field).length + 2)) ∧
      storedString (runRequests initialDevExt Requests).State.DeviceName = DEFAULT_NAME ∧
      storedString (runRequests initialDevExt Requests).State.ManufacturerName =
        DEFAULT_MANUFACTURER ∧
      storedString (runRequests initialDevExt Requests).State.SerialNumber = DEFAULT_SERIALNO ∧
      storedString (runRequests initialDevExt Requests).State.UniqueId = DEFAULT_UNIQUEID ∧
      (Level = BatteryDeviceName → 2 * (storedString Field).length + 2 = 34) := by
  obtain ⟨e1, e2, e3, e4, -⟩ := runRequests_strings Requests initialDevExt
  obtain ⟨w1, w2, w3, w4⟩ := initial_workers
  obtain ⟨s1, s2, s3, s4⟩ := initial_storedStrings
  have hw : ∃ i, RtlStringLengthWorkerW Field MAX_BATTERY_STRING_SIZE = some i ∧
      QueryInformationSwitch (runRequests initialDevExt Requests).State Level AtRate =
        QueryStringSelection Field ∧
      (Level = BatteryDeviceName → storedString Field = DEFAULT_NAME) := by
    cases Level <;> simp only [textField, Option.some.injEq, reduceCtorEq] at hfield
    · subst hfield; rw [e1]
      exact ⟨_, w1, by simp only [QueryInformationSwitch, e1], fun _ => s1⟩
    · subst hfield; rw [e2]
      exact ⟨_, w2, by simp only [QueryInformationSwitch, e2], fun h => by cases h⟩
    · subst hfield; rw [e4]
      exact ⟨_, w4, by simp only [QueryInformationSwitch, e4], fun h => by cases h⟩
    · subst hfield; rw [e3]
      exact ⟨_, w3, by simp only [QueryInformationSwitch, e3], fun h => by cases h⟩
  obtain ⟨i, hi, hswitch, hname⟩ := hw
  obtain ⟨hsel, hpayload⟩ := queryString_selection Field i hi
  have hsel' := hswitch.trans hsel
  have hn32 : 2 * (storedString Field).length + 2 < 2 ^ 32 := by
    obtain ⟨h1, -, -, -⟩ := worker_some Field _ i hi
    obtain ⟨hs, -⟩ := worker_storedString Field _ i hi
    have : (storedString Field).length ≤ i := by rw [hs, List.length_take]; omega
    simp only [MAX_BATTERY_STRING_SIZE] at h1
    omega
  have hsrc : 2 * (storedString Field).length + 2 ≤ (wcharBytes Field).length := by
    have := congrArg List.length hpayload
    rw [List.length_take, wcharBytes_length, wcharBytes_length, List.length_append] at this
    rw [wcharBytes_length]
    simp only [List.length_cons, List.length_nil] at this
    omega
  refine ⟨hsel', ?_, ?_, by rw [e1]; exact s1, by rw [e2]; exact s2, by rw [e3]; exact s3,
    by rw [e4]; exact s4, ?_⟩
  · intro hlt
    rw [queryInformation_too_small _ Level AtRate Bytes BufferLength ReturnedLength _ _ hsel' hlt,
      Nat.mod_eq_of_lt hn32]
    exact ⟨rfl, rfl⟩
  · intro hle
    refine ⟨memcpy Bytes (wcharBytes Field) (2 * (storedString Field).length + 2), ?_, ?_,
      memcpy_drop _ _ _ hsrc⟩
    · rw [queryInformation_copy _ Level AtRate Bytes BufferLength ReturnedLength _ _ hsel' hle,
        Nat.mod_eq_of_lt hn32]
    · rw [memcpy_take _ _ _ hsrc, hpayload]
  · intro hl
    rw [hname hl]
    decide

theorem text_levels_witness :
    QueryInformationSwitch (runRequests initialDevExt []).State BatteryDeviceName 0 =
      { Status := STATUS_SUCCESS
        ReturnBuffer := some (wcharBytes initialDevExt.State.DeviceName)
        ReturnBufferLength := 2 * (storedString initialDevExt.State.DeviceName).length + 2 } :=
  (text_levels [] BatteryDeviceName initialDevExt.State.DeviceName 0 sampleBuffer 40 99 rfl).1

/-! ## Estimated time -/

theorem le32_length (x : Nat) : (le32 x).length = 4 := rfl

theorem memcpy_le32 (Bytes : List Nat) (x : Nat) :
    memcpy Bytes (le32 x) sizeof_ULONG = le32 x ++ Bytes.drop 4 := rfl

theorem ulongAt_le32 (x : Nat) (Rest : List Nat) :
    ulongAt (le32 x ++ Rest) 0 = x % 2 ^ 32 := by
  simp only [ulongAt, le32, List.cons_append, List.nil_append, List.getD_cons_zero,
    List.getD_cons_succ, ule32_le32]

theorem queryEstimatedTime (DevExt : SIMBATT_FDO_DATA) (AtRate : Int) (Bytes : List Nat)
    (BufferLength ReturnedLength : Nat) (hlen : 4 ≤ BufferLength) :
    SimBattQueryInformation DevExt DevExt.BatteryTag BatteryEstimatedTime AtRate (some Bytes)
        BufferLength ReturnedLength =
      { Status := STATUS_SUCCESS
        Buffer := some (le32 (EstimatedTimeResultValue DevExt.State AtRate) ++ Bytes.drop 4)
        ReturnedLength := 4, DevExt := DevExt
        Events := [LockAcquire, StateAccess, LockRelease] } := by
  rw [queryInformation_copy DevExt BatteryEstimatedTime AtRate Bytes BufferLength ReturnedLength
    (le32 (EstimatedTimeResultValue DevExt.State AtRate)) sizeof_ULONG rfl hlen]
  rfl

theorem estimatedTime_calculate (State : SIMBATT_STATE) (AtRate : Int)
    (hcalc : State.EstimatedTime = SIMBATT_RATE_CALCULATE) :
    EstimatedTimeResultValue State AtRate =
      if effectiveRate State AtRate < 0 then
        ((3600 * State.BatteryStatus.Capacity) % 2 ^ 32) /
          ((-effectiveRate State AtRate) % 2 ^ 32).toNat
      else BATTERY_UNKNOWN_TIME := by
  unfold EstimatedTimeResultValue effectiveRate
  rw [if_pos hcalc]
  by_cases h : AtRate = 0
  · simp only [h, if_true, ne_eq, not_true_eq_false, if_false]
  · simp only [h, if_false, ne_eq, not_false_eq_true, if_true]

theorem long_magnitude (r : Int) (hneg : r < 0) (hlong : -2 ^ 31 ≤ r) :
    ((-r) % 2 ^ 32).toNat = r.natAbs := by
  omega

/-- C9, as stated, fails: with the stored estimated time in "calculate" mode,
capacity 2000000 and stored rate -1000, a query with `AtRate = 0` and a
40-byte buffer succeeds, but the value it delivers is 2905032, not the quotient
`3600 * 2000000 / 1000 = 7200000` of the exact product (the product does not
fit a `ULONG` and wraps). -/
theorem estimated_time_exact_quotient_fails :
    largeDevExt.State.EstimatedTime = SIMBATT_RATE_CALCULATE ∧
      largeDevExt.State.BatteryStatus.Capacity = 2000000 ∧
      effectiveRate largeDevExt.State 0 = -1000 ∧
      SimBattQueryInformation largeDevExt largeDevExt.BatteryTag BatteryEstimatedTime 0
          (some sampleBuffer) 40 99 =
        { Status := STATUS_SUCCESS, Buffer := some (le32 2905032 ++ sampleBuffer.drop 4)
          ReturnedLength := 4, DevExt := largeDevExt
          Events := [LockAcquire, StateAccess, LockRelease] } ∧
      ulongAt (le32 2905032 ++ sampleBuffer.drop 4) 0 ≠ 3600 * 2000000 / 1000 := by
  refine ⟨by decide, by decide, by decide, ?_, by decide⟩
  rw [queryEstimatedTime largeDevExt 0 sampleBuffer 40 99 (by decide)]
  have h : EstimatedTimeResultValue largeDevExt.State 0 = 2905032 := by decide
  rw [h]

/-- C9, amended: whenever the stored estimated time is the "calculate" sentinel
and the effective rate (`AtRate` if not zero, otherwise the stored rate; a
`LONG`) is negative, a `BatteryEstimatedTime` query with a buffer of at least 4
bytes succeeds and delivers the four bytes of
`((3600 * capacity) mod 2 ^ 32) / |rate|`; for every capacity with
`3600 * capacity < 2 ^ 32` and every negative rate this is the quotient
`3600 * capacity / |rate|` of the exact product. -/
theorem estimated_time_derivation (DevExt : SIMBATT_FDO_DATA) (AtRate : Int)
    (Bytes : List Nat) (BufferLength ReturnedLength : Nat)
    (hcalc : DevExt.State.EstimatedTime = SIMBATT_RATE_CALCULATE)
    (hneg : effectiveRate DevExt.State AtRate < 0)
    (hlong : -2 ^ 31 ≤ effectiveRate DevExt.State AtRate)
    (hlen : 4 ≤ BufferLength) :
    SimBattQueryInformation DevExt DevExt.BatteryTag BatteryEstimatedTime AtRate (some Bytes)
        BufferLength ReturnedLength =
      { Status := STATUS_SUCCESS
        Buffer := some
          (le32 (((3600 * DevExt.State.BatteryStatus.Capacity) % 2 ^ 32) /
            (effectiveRate DevExt.State AtRate).natAbs) ++ Bytes.drop 4)
        ReturnedLength := 4, DevExt := DevExt
        Events := [LockAcquire, StateAccess, LockRelease] } ∧
      ulongAt
          (le32 (((3600 * DevExt.State.BatteryStatus.Capacity) % 2 ^ 32) /
            (effectiveRate DevExt.State AtRate).natAbs) ++ Bytes.drop 4) 0 =
        ((3600 * DevExt.State.BatteryStatus.Capacity) % 2 ^ 32) /
          (effectiveRate DevExt.State AtRate).natAbs ∧
      (3600 * DevExt.State.BatteryStatus.Capacity < 2 ^ 32 →
        ((3600 * DevExt.State.BatteryStatus.Capacity) % 2 ^ 32) /
            (effectiveRate DevExt.State AtRate).natAbs =
          3600 * DevExt.State.BatteryStatus.Capacity /
            (effectiveRate DevExt.State AtRate).natAbs) := by
  refine ⟨?_, ?_, fun hcap => by rw [Nat.mod_eq_of_lt hcap]⟩
  · rw [queryEstimatedTime DevExt AtRate Bytes BufferLength ReturnedLength hlen,
      estimatedTime_calculate DevExt.State AtRate hcalc, if_pos hneg,
      long_magnitude _ hneg hlong]
  · rw [ulongAt_le32]
    apply Nat.mod_eq_of_lt
    exact lt_of_le_of_lt (Nat.div_le_self _ _) (Nat.mod_lt _ (by norm_num))

theorem estimated_time_derivation_witness :
    (SimBattQueryInformation dischargingDevExt dischargingDevExt.BatteryTag
        BatteryEstimatedTime 0 (some sampleBuffer) 40 99).Buffer =
      some (le32 7200 ++ sampleBuffer.drop 4) :=
  (congrArg QueryInformationResult.Buffer
    (estimated_time_derivation dischargingDevExt 0 sampleBuffer 40 99 (by decide) (by decide)
      (by decide) (by decide)).1).trans (by decide)

/-- C10: with the stored estimated time the "calculate" sentinel, the value the
query works out depends on the rates only through the effective rate, which is
`AtRate` if `AtRate` is not zero (the stored rate then plays no part) and the
stored rate if `AtRate` is zero; and whenever the effective rate is not
negative (stored rate 0 or +10 with `AtRate = 0` included) the query, with a
buffer of at least 4 bytes, succeeds with `BATTERY_UNKNOWN_TIME`, whatever the
capacity. -/
theorem estimated_time_rate_selection (DevExt : SIMBATT_FDO_DATA) (AtRate : Int)
    (Bytes : List Nat) (BufferLength ReturnedLength : Nat)
    (hcalc : DevExt.State.EstimatedTime = SIMBATT_RATE_CALCULATE)
    (hlen : 4 ≤ BufferLength) :
    (EstimatedTimeResultValue DevExt.State AtRate =
      if effectiveRate DevExt.State AtRate < 0 then
        ((3600 * DevExt.State.BatteryStatus.Capacity) % 2 ^ 32) /
          ((-effectiveRate DevExt.State AtRate) % 2 ^ 32).toNat
      else BATTERY_UNKNOWN_TIME) ∧
    (AtRate ≠ 0 → effectiveRate DevExt.State AtRate = AtRate ∧
      ∀ Rate : Int,
        EstimatedTimeResultValue
            { DevExt.State with
              BatteryStatus := { DevExt.State.BatteryStatus with Rate := Rate } } AtRate =
          EstimatedTimeResultValue DevExt.State AtRate) ∧
    (AtRate = 0 → effectiveRate DevExt.State AtRate = DevExt.State.BatteryStatus.Rate) ∧
    (0 ≤ effectiveRate DevExt.State AtRate →
      SimBattQueryInformation DevExt DevExt.BatteryTag BatteryEstimatedTime AtRate (some Bytes)
          BufferLength ReturnedLength =
        { Status := STATUS_SUCCESS
          Buffer := some (le32 BATTERY_UNKNOWN_TIME ++ Bytes.drop 4)
          ReturnedLength := 4, DevExt := DevExt
          Events := [LockAcquire, StateAccess, LockRelease] } ∧
        ulongAt (le32 BATTERY_UNKNOWN_TIME ++ Bytes.drop 4) 0 = BATTERY_UNKNOWN_TIME) := by
  refine ⟨estimatedTime_calculate DevExt.State AtRate hcalc, ?_, ?_, ?_⟩
  · intro h
    refine ⟨by unfold effectiveRate; rw [if_pos h], fun Rate => ?_⟩
    unfold EstimatedTimeResultValue
    simp only [h, if_false]
  · intro h
    unfold effectiveRate
    simp only [h, ne_eq, not_true_eq_false, if_false]
  · intro h
    rw [queryEstimatedTime DevExt AtRate Bytes BufferLength ReturnedLength hlen,
      estimatedTime_calculate DevExt.State AtRate hcalc, if_neg (not_lt.mpr h)]
    exact ⟨rfl, by rw [ulongAt_le32]; rfl⟩

theorem estimated_time_rate_selection_witness :
    (SimBattQueryInformation chargingDevExt chargingDevExt.BatteryTag BatteryEstimatedTime 0
        (some sampleBuffer) 40 99).Buffer =
      some (le32 BATTERY_UNKNOWN_TIME ++ sampleBuffer.drop 4) :=
  congrArg QueryInformationResult.Buffer
    ((estimated_time_rate_selection chargingDevExt 0 sampleBuffer 40 99 (by decide)
      (by decide)).2.2.2 (by decide)).1

/-! ## Explicit estimated time -/

theorem estimatedTime_explicit (State : SIMBATT_STATE) (AtRate : Int)
    (h : State.EstimatedTime ≠ SIMBATT_RATE_CALCULATE) :
    EstimatedTimeResultValue State AtRate = State.EstimatedTime := by
  unfold EstimatedTimeResultValue
  rw [if_neg h]

/-- C11: `SimBattSetBatteryEstimatedTime` succeeds for every 32-bit value and
every state, stores the value as given (the "calculate" sentinel too) and
changes nothing else; if the value is not the sentinel, a following
`BatteryEstimatedTime` query with a buffer of at least 4 bytes delivers exactly
that value, whatever `AtRate`, the stored rate and the stored capacity are. -/
theorem estimated_time_round_trip (DevExt : SIMBATT_FDO_DATA) (EstimatedTime : Nat)
    (AtRate : Int) (Bytes : List Nat) (BufferLength ReturnedLength : Nat)
    (hv : EstimatedTime < 2 ^ 32) (hlen : 4 ≤ BufferLength) :
    (SimBattSetBatteryEstimatedTime DevExt EstimatedTime).Status = STATUS_SUCCESS ∧
      (SimBattSetBatteryEstimatedTime DevExt EstimatedTime).DevExt =
        { DevExt with State := { DevExt.State with EstimatedTime := EstimatedTime } } ∧
      (EstimatedTime ≠ SIMBATT_RATE_CALCULATE →
        setThenQueryEstimatedTime DevExt EstimatedTime AtRate (some Bytes) BufferLength
            ReturnedLength =
          { Status := STATUS_SUCCESS
            Buffer := some (le32 EstimatedTime ++ Bytes.drop 4)
            ReturnedLength := 4
            DevExt := (SimBattSetBatteryEstimatedTime DevExt EstimatedTime).DevExt
            Events := [LockAcquire, StateAccess, LockRelease] } ∧
          ulongAt (le32 EstimatedTime ++ Bytes.drop 4) 0 = EstimatedTime) := by
  refine ⟨rfl, rfl, fun hne => ⟨?_, ?_⟩⟩
  · unfold setThenQueryEstimatedTime
    rw [queryEstimatedTime _ AtRate Bytes BufferLength ReturnedLength hlen,
      estimatedTime_explicit _ AtRate (by exact hne)]
    rfl
  · rw [ulongAt_le32, Nat.mod_eq_of_lt hv]

theorem estimated_time_round_trip_witness :
    (setThenQueryEstimatedTime initialDevExt 5400 (-40) (some sampleBuffer) 40 99).Buffer =
      some (le32 5400 ++ sampleBuffer.drop 4) :=
  congrArg QueryInformationResult.Buffer
    ((estimated_time_round_trip initialDevExt 5400 (-40) sampleBuffer 40 99 (by decide)
      (by decide)).2.2 (by decide)).1

/-! ## Manufacture date -/

theorem manufactureDateRejected_iff (d : BATTERY_MANUFACTURE_DATE) :
    manufactureDateRejected d = false ↔
      (d.Year = 0 ∧ d.Month = 0 ∧ d.Day = 0) ∨
        (d.Year ≠ 0 ∧ d.Month ≠ 0 ∧ d.Day ≠ 0 ∧ d.Month ≤ 12 ∧ d.Day ≤ 31) := by
  unfold manufactureDateRejected
  split
  · rw [decide_eq_false_iff_not]
    constructor
    · intro h
      left
      by_contra hc
      apply h
      by_cases hy : d.Year = 0
      · by_cases hm : d.Month = 0
        · right; right; intro hd; exact hc ⟨hy, hm, hd⟩
        · right; left; exact hm
      · left; exact hy
    · rintro (⟨hy, hm, hd⟩ | ⟨hy, hm, hd, -, -⟩)
      · rintro (h | h | h)
        · exact h hy
        · exact h hm
        · exact h hd
      · rename_i hz
        rcases hz with h | h | h
        · exact absurd h hy
        · exact absurd h hm
        · exact absurd h hd
  · rename_i hz
    rw [decide_eq_false_iff_not]
    constructor
    · intro h
      right
      refine ⟨fun e => hz (Or.inl e), fun e => hz (Or.inr (Or.inl e)),
        fun e => hz (Or.inr (Or.inr e)), ?_, ?_⟩
      · by_contra hc; exact h (Or.inl (by omega))
      · by_contra hc; exact h (Or.inr (by omega))
    · rintro (⟨hy, -, -⟩ | ⟨-, -, -, hm, hd⟩)
      · exact absurd (Or.inl hy) hz
      · rintro (h | h) <;> omega

theorem setBatteryManufactureDate_eq (DevExt : SIMBATT_FDO_DATA)
    (d : BATTERY_MANUFACTURE_DATE) :
    (manufactureDateRejected d = true ∧
        SimBattSetBatteryManufactureDate DevExt d =
          { Status := STATUS_INVALID_PARAMETER, DevExt := DevExt, Events := [] }) ∨
      (manufactureDateRejected d = false ∧
        (SimBattSetBatteryManufactureDate DevExt d).Status = STATUS_SUCCESS ∧
        (SimBattSetBatteryManufactureDate DevExt d).Events =
          [LockAcquire, StateAccess, LockRelease] ∧
        (SimBattSetBatteryManufactureDate DevExt d).DevExt.State =
          { DevExt.State with ManufactureDate := d }) := by
  unfold SimBattSetBatteryManufactureDate
  cases h : manufactureDateRejected d
  · right
    simp only [Bool.false_eq_true, if_false, updateTag_state, and_self]
  · left
    simp only [if_true, and_self]

/-- C12: `SimBattSetBatteryManufactureDate` succeeds if and only if either year,
month and day are all zero, or all three are non-zero with the month at most 12
and the day at most 31; in every other case it fails with
`STATUS_INVALID_PARAMETER`. So (0, 0, 0) succeeds, and (2024, 0, 15) and
(2024, 13, 1) fail with `STATUS_INVALID_PARAMETER`. -/
theorem manufacture_date_validation (DevExt : SIMBATT_FDO_DATA)
    (d : BATTERY_MANUFACTURE_DATE) :
    ((SimBattSetBatteryManufactureDate DevExt d).Status = STATUS_SUCCESS ↔
      (d.Year = 0 ∧ d.Month = 0 ∧ d.Day = 0) ∨
        (d.Year ≠ 0 ∧ d.Month ≠ 0 ∧ d.Day ≠ 0 ∧ d.Month ≤ 12 ∧ d.Day ≤ 31)) ∧
    ((SimBattSetBatteryManufactureDate DevExt d).Status ≠ STATUS_SUCCESS →
      (SimBattSetBatteryManufactureDate DevExt d).Status = STATUS_INVALID_PARAMETER) ∧
    (SimBattSetBatteryManufactureDate DevExt { Day := 0, Month := 0, Year := 0 }).Status =
      STATUS_SUCCESS ∧
    (SimBattSetBatteryManufactureDate DevExt { Day := 15, Month := 0, Year := 2024 }).Status =
      STATUS_INVALID_PARAMETER ∧
    (SimBattSetBatteryManufactureDate DevExt { Day := 1, Month := 13, Year := 2024 }).Status =
      STATUS_INVALID_PARAMETER := by
  have key : ∀ d' : BATTERY_MANUFACTURE_DATE,
      (SimBattSetBatteryManufactureDate DevExt d').Status =
        if manufactureDateRejected d' then STATUS_INVALID_PARAMETER else STATUS_SUCCESS := by
    intro d'
    rcases setBatteryManufactureDate_eq DevExt d' with ⟨h, e⟩ | ⟨h, e, -, -⟩
    · rw [e, h]; rfl
    · rw [e, h]; rfl
  refine ⟨?_, ?_, ?_, ?_, ?_⟩
  · rw [← manufactureDateRejected_iff, key]
    cases manufactureDateRejected d <;> simp
  · rw [key]
    cases manufactureDateRejected d <;> simp
  · rw [key]; rfl
  · rw [key]; rfl
  · rw [key]; rfl

theorem queryInformation_unavailable (DevExt : SIMBATT_FDO_DATA)
    (Level : BATTERY_QUERY_INFORMATION_LEVEL) (AtRate : Int) (Buffer : Option (List Nat))
    (BufferLength ReturnedLength : Nat) (Status : NTSTATUS)
    (hsel : QueryInformationSwitch DevExt.State Level AtRate =
      { Status := Status, ReturnBuffer := none, ReturnBufferLength := 0 })
    (hst : NT_SUCCESS Status = false) :
    SimBattQueryInformation DevExt DevExt.BatteryTag Level AtRate Buffer BufferLength
        ReturnedLength =
      { Status := Status, Buffer := Buffer, ReturnedLength := 0, DevExt := DevExt
        Events := [LockAcquire, StateAccess, LockRelease] } := by
  unfold SimBattQueryInformation
  simp only [ne_eq, not_true_eq_false, if_false, hsel, hst, Bool.false_eq_true]

theorem manufactureDate_ofBytes_bytes (d : BATTERY_MANUFACTURE_DATE) (Rest : List Nat)
    (hd : d.Day < 256) (hm : d.Month < 256) (hy : d.Year < 2 ^ 16) :
    BATTERY_MANUFACTURE_DATE.ofBytes ((d.bytes ++ Rest).take 4) = some d := by
  have e : (d.bytes ++ Rest).take 4 = d.bytes := rfl
  rw [e]
  unfold BATTERY_MANUFACTURE_DATE.ofBytes
  rw [if_pos (show d.bytes.length = sizeof_BATTERY_MANUFACTURE_DATE from rfl)]
  simp only [BATTERY_MANUFACTURE_DATE.bytes, le16, List.cons_append, List.nil_append,
    List.getD_cons_zero, List.getD_cons_succ, Nat.mod_eq_of_lt hd, Nat.mod_eq_of_lt hm]
  have : d.Year % 256 + 256 * (d.Year / 256 % 256) = d.Year := by omega
  rw [this]

/-- C13: after an accepted `SimBattSetBatteryManufactureDate` of a date `d` (its
year a `USHORT`), a `BatteryManufactureDate` query with the new tag and a buffer
of at least `sizeof(BATTERY_MANUFACTURE_DATE)` bytes delivers exactly `d` when
year, month and day are all non-zero, and fails with
`STATUS_INVALID_DEVICE_REQUEST`, reporting 0 bytes and writing nothing, when
`d` is the all-zero date; on a freshly created instance the query fails in the
same way. -/
theorem manufacture_date_query (DevExt : SIMBATT_FDO_DATA) (d : BATTERY_MANUFACTURE_DATE)
    (AtRate : Int) (Bytes : List Nat) (BufferLength ReturnedLength : Nat)
    (hacc : (SimBattSetBatteryManufactureDate DevExt d).Status = STATUS_SUCCESS)
    (hyear : d.Year < 2 ^ 16)
    (hlen : sizeof_BATTERY_MANUFACTURE_DATE ≤ BufferLength) :
    (d.Year ≠ 0 ∧ d.Month ≠ 0 ∧ d.Day ≠ 0 →
      setThenQueryManufactureDate DevExt d AtRate (some Bytes) BufferLength ReturnedLength =
          { Status := STATUS_SUCCESS
            Buffer := some (d.bytes ++ Bytes.drop 4)
            ReturnedLength := sizeof_BATTERY_MANUFACTURE_DATE
            DevExt := (SimBattSetBatteryManufactureDate DevExt d).DevExt
            Events := [LockAcquire, StateAccess, LockRelease] } ∧
        BATTERY_MANUFACTURE_DATE.ofBytes ((d.bytes ++ Bytes.drop 4).take 4) = some d) ∧
    (d.Year = 0 ∧ d.Month = 0 ∧ d.Day = 0 →
      setThenQueryManufactureDate DevExt d AtRate (some Bytes) BufferLength ReturnedLength =
        { Status := STATUS_INVALID_DEVICE_REQUEST
          Buffer := some Bytes
          ReturnedLength := 0
          DevExt := (SimBattSetBatteryManufactureDate DevExt d).DevExt
          Events := [LockAcquire, StateAccess, LockRelease] }) ∧
    SimBattQueryInformation initialDevExt initialDevExt.BatteryTag BatteryManufactureDate AtRate
        (some Bytes) BufferLength ReturnedLength =
      { Status := STATUS_INVALID_DEVICE_REQUEST
        Buffer := some Bytes
        ReturnedLength := 0
        DevExt := initialDevExt
        Events := [LockAcquire, StateAccess, LockRelease] } := by
  have hstate : (SimBattSetBatteryManufactureDate DevExt d).DevExt.State =
      { DevExt.State with ManufactureDate := d } := by
    rcases setBatteryManufactureDate_eq DevExt d with ⟨-, e⟩ | ⟨-, -, -, e⟩
    · rw [e] at hacc; cases hacc
    · exact e
  have hvalid := (manufactureDateRejected_iff d).mp (by
    rcases setBatteryManufactureDate_eq DevExt d with ⟨-, e⟩ | ⟨h, -⟩
    · rw [e] at hacc; cases hacc
    · exact h)
  refine ⟨?_, ?_, ?_⟩
  · rintro ⟨hy, hm, hd⟩
    have hsel : QueryInformationSwitch (SimBattSetBatteryManufactureDate DevExt d).DevExt.State
        BatteryManufactureDate AtRate =
        { Status := STATUS_SUCCESS, ReturnBuffer := some d.bytes
          ReturnBufferLength := sizeof_BATTERY_MANUFACTURE_DATE } := by
      rw [hstate]
      simp only [QueryInformationSwitch, ne_eq, hd, not_false_eq_true, if_true]
    have hrange : d.Month ≤ 12 ∧ d.Day ≤ 31 := by
      rcases hvalid with ⟨h, -, -⟩ | ⟨-, -, -, h1, h2⟩
      · exact absurd h hy
      · exact ⟨h1, h2⟩
    refine ⟨?_, manufactureDate_ofBytes_bytes d _ (by omega) (by omega) hyear⟩
    unfold setThenQueryManufactureDate
    rw [queryInformation_copy _ BatteryManufactureDate AtRate Bytes BufferLength ReturnedLength
      d.bytes sizeof_BATTERY_MANUFACTURE_DATE hsel hlen]
    rfl
  · rintro ⟨-, -, hd⟩
    have hsel : QueryInformationSwitch (SimBattSetBatteryManufactureDate DevExt d).DevExt.State
        BatteryManufactureDate AtRate =
        { Status := STATUS_INVALID_DEVICE_REQUEST, ReturnBuffer := none
          ReturnBufferLength := 0 } := by
      rw [hstate]
      simp only [QueryInformationSwitch, ne_eq, hd, not_true_eq_false, if_false]
    unfold setThenQueryManufactureDate
    rw [queryInformation_unavailable _ BatteryManufactureDate AtRate (some Bytes) BufferLength
      ReturnedLength STATUS_INVALID_DEVICE_REQUEST hsel rfl]
  · exact queryInformation_unavailable initialDevExt BatteryManufactureDate AtRate (some Bytes)
      BufferLength ReturnedLength STATUS_INVALID_DEVICE_REQUEST rfl rfl

theorem manufacture_date_query_witness :
    (setThenQueryManufactureDate initialDevExt sampleDate 0 (some sampleBuffer) 40 99).Buffer =
      some (sampleDate.bytes ++ sampleBuffer.drop 4) :=
  congrArg QueryInformationResult.Buffer
    ((manufacture_date_query initialDevExt sampleDate 0 sampleBuffer 40 99 (by decide)
      (by decide) (by decide)).1 (by decide)).1

/-! ## Granularity table -/

theorem scaleOutOfOrder_iff (Scale : List BATTERY_REPORTING_SCALE) (ScaleCount : Nat) :
    scaleOutOfOrder Scale ScaleCount = false ↔
      ∀ i : Nat, 1 ≤ i → i < ScaleCount →
        (scaleAt Scale (i - 1)).Capacity < (scaleAt Scale i).Capacity := by
  unfold scaleOutOfOrder
  rw [List.any_eq_false]
  constructor
  · intro h i h1 h2
    have := h i (List.mem_range'_1.mpr ⟨h1, by omega⟩)
    simpa using this
  · intro h i hi
    obtain ⟨h1, h2⟩ := List.mem_range'_1.mp hi
    have := h i h1 (by omega)
    simpa using this

theorem setBatteryGranularityScale_eq (DevExt : SIMBATT_FDO_DATA)
    (Scale : List BATTERY_REPORTING_SCALE) (ScaleCount : Nat) :
    ((4 < ScaleCount ∨ scaleOutOfOrder Scale ScaleCount = true) ∧
        SimBattSetBatteryGranularityScale DevExt Scale ScaleCount =
          { Status := STATUS_INVALID_PARAMETER, DevExt := DevExt, Events := [] }) ∨
      ((ScaleCount ≤ 4 ∧ scaleOutOfOrder Scale ScaleCount = false) ∧
        (SimBattSetBatteryGranularityScale DevExt Scale ScaleCount).Status = STATUS_SUCCESS ∧
        (SimBattSetBatteryGranularityScale DevExt Scale ScaleCount).Events =
          [LockAcquire, StateAccess, LockRelease] ∧
        (SimBattSetBatteryGranularityScale DevExt Scale ScaleCount).DevExt.State =
          { DevExt.State with
            GranularityScale := scaleCopy DevExt.State.GranularityScale Scale ScaleCount
            GranularityCount := ScaleCount }) := by
  unfold SimBattSetBatteryGranularityScale
  by_cases h4 : ScaleCount > 4
  · left
    rw [if_pos h4]
    exact ⟨Or.inl h4, rfl⟩
  · rw [if_neg h4]
    cases ho : scaleOutOfOrder Scale ScaleCount
    · right
      refine ⟨⟨by omega, rfl⟩, ?_⟩
      simp only [Bool.false_eq_true, if_false, updateTag_state, and_self]
    · left
      exact ⟨Or.inr rfl, by simp only [if_true]⟩

/-- C14: `SimBattSetBatteryGranularityScale` succeeds if and only if the count is
at most 4 and the capacities increase strictly by index (entry `i` above entry
`i - 1` for every `1 ≤ i < count`); otherwise it fails with
`STATUS_INVALID_PARAMETER` and leaves the device extension, so the stored table
and its count, as they were. The table `[(50, x), (50, y)]` is rejected and the
stored table unchanged. -/
theorem granularity_validation (DevExt : SIMBATT_FDO_DATA)
    (Scale : List BATTERY_REPORTING_SCALE) (ScaleCount : Nat) :
    ((SimBattSetBatteryGranularityScale DevExt Scale ScaleCount).Status = STATUS_SUCCESS ↔
      ScaleCount ≤ 4 ∧
        ∀ i : Nat, 1 ≤ i → i < ScaleCount →
          (scaleAt Scale (i - 1)).Capacity < (scaleAt Scale i).Capacity) ∧
    ((SimBattSetBatteryGranularityScale DevExt Scale ScaleCount).Status ≠ STATUS_SUCCESS →
      SimBattSetBatteryGranularityScale DevExt Scale ScaleCount =
        { Status := STATUS_INVALID_PARAMETER, DevExt := DevExt, Events := [] }) ∧
    (∀ x y : Nat,
      SimBattSetBatteryGranularityScale DevExt
          [{ Granularity := x, Capacity := 50 }, { Granularity := y, Capacity := 50 }] 2 =
        { Status := STATUS_INVALID_PARAMETER, DevExt := DevExt, Events := [] }) := by
  refine ⟨?_, ?_, ?_⟩
  · rw [← scaleOutOfOrder_iff]
    rcases setBatteryGranularityScale_eq DevExt Scale ScaleCount with ⟨h, e⟩ | ⟨h, e, -, -⟩
    · rw [e]
      constructor
      · intro hs; cases hs
      · rintro ⟨h1, h2⟩
        rcases h with h | h
        · omega
        · rw [h2] at h; cases h
    · rw [e]
      exact ⟨fun _ => h, fun _ => rfl⟩
  · intro hne
    rcases setBatteryGranularityScale_eq DevExt Scale ScaleCount with ⟨-, e⟩ | ⟨-, e, -, -⟩
    · exact e
    · exact absurd e hne
  · intro x y
    rcases setBatteryGranularityScale_eq DevExt
      [{ Granularity := x, Capacity := 50 }, { Granularity := y, Capacity := 50 }] 2
      with ⟨-, e⟩ | ⟨⟨-, h⟩, -⟩
    · exact e
    · have := (scaleOutOfOrder_iff _ _).mp h 1 (le_refl 1) (by decide)
      simp [scaleAt] at this

theorem take_set_self (l : List BATTERY_REPORTING_SCALE) :
    ∀ (k : Nat) (x : BATTERY_REPORTING_SCALE), (l.set k x).take k = l.take k := by
  induction l with
  | nil => intro k x; simp
  | cons a as ih =>
    intro k x
    cases k with
    | zero => simp
    | succ k => simp only [List.set_cons_succ, List.take_succ_cons, ih]

theorem take_succ_set (l : List BATTERY_REPORTING_SCALE) :
    ∀ (k : Nat) (x : BATTERY_REPORTING_SCALE), k < l.length →
      (l.set k x).take (k + 1) = l.take k ++ [x] := by
  induction l with
  | nil => intro k x h; simp at h
  | cons a as ih =>
    intro k x h
    cases k with
    | zero => simp
    | succ k =>
      simp only [List.length_cons, Nat.add_lt_add_iff_right] at h
      simp only [List.set_cons_succ, List.take_succ_cons, ih k x h, List.cons_append]

theorem take_succ_scaleAt (Scale : List BATTERY_REPORTING_SCALE) :
    ∀ k : Nat, k < Scale.length → Scale.take (k + 1) = Scale.take k ++ [scaleAt Scale k] := by
  induction Scale with
  | nil => intro k h; simp at h
  | cons a as ih =>
    intro k h
    cases k with
    | zero => simp [scaleAt]
    | succ k =>
      simp only [List.length_cons, Nat.add_lt_add_iff_right] at h
      have := ih k h
      simp only [scaleAt, List.getD_cons_succ, List.take_succ_cons, List.cons_append,
        List.cons.injEq, true_and] at this ⊢
      exact this

theorem scaleCopy_succ (Table Scale : List BATTERY_REPORTING_SCALE) (k : Nat) :
    scaleCopy Table Scale (k + 1) = (scaleCopy Table Scale k).set k (scaleAt Scale k) := by
  unfold scaleCopy
  rw [List.range_succ, List.foldl_append]
  rfl

theorem scaleCopy_length (Table Scale : List BATTERY_REPORTING_SCALE) :
    ∀ k : Nat, (scaleCopy Table Scale k).length = Table.length := by
  intro k
  induction k with
  | zero => rfl
  | succ k ih => rw [scaleCopy_succ, List.length_set, ih]

theorem scaleCopy_take (Table Scale : List BATTERY_REPORTING_SCALE) :
    ∀ k : Nat, k ≤ Table.length → k ≤ Scale.length →
      (scaleCopy Table Scale k).take k = Scale.take k := by
  intro k
  induction k with
  | zero => intro _ _; simp
  | succ k ih =>
    intro h1 h2
    rw [scaleCopy_succ, take_succ_set _ k _ (by rw [scaleCopy_length]; omega),
      ih (by omega) (by omega), take_succ_scaleAt Scale k (by omega)]

theorem scaleBytes_take (a : List BATTERY_REPORTING_SCALE) : ∀ k : Nat,
    (scaleBytes a).take (8 * k) = scaleBytes (a.take k) := by
  induction a with
  | nil => intro k; simp [scaleBytes]
  | cons c cs ih =>
    intro k
    cases k with
    | zero => simp [scaleBytes]
    | succ k =>
      have e : 8 * (k + 1) = 8 * k + 1 + 1 + 1 + 1 + 1 + 1 + 1 + 1 := by omega
      have ih' := ih k
      simp only [scaleBytes, List.flatMap_cons, List.take_succ_cons,
        BATTERY_REPORTING_SCALE.bytes, le32, List.cons_append, List.nil_append, e,
        List.cons.injEq, true_and] at ih' ⊢
      exact ih'

theorem scalesOfBytes_scaleBytes (l : List BATTERY_REPORTING_SCALE) (Rest : List Nat)
    (hrange : ∀ e ∈ l, e.Granularity < 2 ^ 32 ∧ e.Capacity < 2 ^ 32) :
    scalesOfBytes l.length (scaleBytes l ++ Rest) = l := by
  induction l with
  | nil => rfl
  | cons c cs ih =>
    obtain ⟨hg, hc⟩ := hrange c (List.mem_cons_self c cs)
    have ih' := ih fun e he => hrange e (List.mem_cons_of_mem c he)
    simp only [List.length_cons, scalesOfBytes, scaleBytes, List.flatMap_cons,
      BATTERY_REPORTING_SCALE.bytes, le32, List.cons_append, List.nil_append, ulongAt,
      List.getD_cons_zero, List.getD_cons_succ, ule32_le32, List.drop_succ_cons, List.drop_zero,
      Nat.mod_eq_of_lt hg, Nat.mod_eq_of_lt hc, List.append_assoc] at ih' ⊢
    rw [ih']

/-- C15: after an accepted `SimBattSetBatteryGranularityScale` of `ScaleCount ≥ 1`
entries (the state's table the four-entry array, the caller's array holding the
entries it announces, their fields `ULONG`s), a `BatteryGranularityInformation`
query with the new tag and a buffer of at least `ScaleCount * 8` bytes succeeds,
reports exactly `ScaleCount * sizeof(BATTERY_REPORTING_SCALE)` bytes and delivers
exactly the given `ScaleCount` entries in order, and nothing of an earlier
table. When the stored count is 0 (after setting an empty table, on a fresh
instance, or in any other state) the query fails with
`STATUS_INVALID_DEVICE_REQUEST`, reports 0 bytes and writes nothing. -/
theorem granularity_query (DevExt : SIMBATT_FDO_DATA) (Scale : List BATTERY_REPORTING_SCALE)
    (ScaleCount : Nat) (AtRate : Int) (Bytes : List Nat) (BufferLength ReturnedLength : Nat)
    (harray : DevExt.State.GranularityScale.length = 4)
    (hacc : (SimBattSetBatteryGranularityScale DevExt Scale ScaleCount).Status = STATUS_SUCCESS)
    (hin : ScaleCount ≤ Scale.length)
    (hrange : ∀ e ∈ Scale.take ScaleCount, e.Granularity < 2 ^ 32 ∧ e.Capacity < 2 ^ 32) :
    (1 ≤ ScaleCount → ScaleCount * sizeof_BATTERY_REPORTING_SCALE ≤ BufferLength →
      setThenQueryGranularity DevExt Scale ScaleCount AtRate (some Bytes) BufferLength
          ReturnedLength =
        { Status := STATUS_SUCCESS
          Buffer := some (scaleBytes (Scale.take ScaleCount) ++
            Bytes.drop (ScaleCount * sizeof_BATTERY_REPORTING_SCALE))
          ReturnedLength := ScaleCount * sizeof_BATTERY_REPORTING_SCALE
          DevExt := (SimBattSetBatteryGranularityScale DevExt Scale ScaleCount).DevExt
          Events := [LockAcquire, StateAccess, LockRelease] } ∧
      scalesOfBytes ScaleCount (scaleBytes (Scale.take ScaleCount) ++
          Bytes.drop (ScaleCount * sizeof_BATTERY_REPORTING_SCALE)) =
        Scale.take ScaleCount) ∧
    (ScaleCount = 0 →
      setThenQueryGranularity DevExt Scale ScaleCount AtRate (some Bytes) BufferLength
          ReturnedLength =
        { Status := STATUS_INVALID_DEVICE_REQUEST
          Buffer := some Bytes
          ReturnedLength := 0
          DevExt := (SimBattSetBatteryGranularityScale DevExt Scale ScaleCount).DevExt
          Events := [LockAcquire, StateAccess, LockRelease] }) ∧
    (∀ Other : SIMBATT_FDO_DATA, Other.State.GranularityCount = 0 →
      SimBattQueryInformation Other Other.BatteryTag BatteryGranularityInformation AtRate
          (some Bytes) BufferLength ReturnedLength =
        { Status := STATUS_INVALID_DEVICE_REQUEST
          Buffer := some Bytes
          ReturnedLength := 0
          DevExt := Other
          Events := [LockAcquire, StateAccess, LockRelease] }) ∧
    initialDevExt.State.GranularityCount = 0 := by
  have hempty : ∀ Other : SIMBATT_FDO_DATA, Other.State.GranularityCount = 0 →
      SimBattQueryInformation Other Other.BatteryTag BatteryGranularityInformation AtRate
          (some Bytes) BufferLength ReturnedLength =
        { Status := STATUS_INVALID_DEVICE_REQUEST
          Buffer := some Bytes
          ReturnedLength := 0
          DevExt := Other
          Events := [LockAcquire, StateAccess, LockRelease] } := by
    intro Other h0
    apply queryInformation_unavailable Other BatteryGranularityInformation AtRate (some Bytes)
      BufferLength ReturnedLength STATUS_INVALID_DEVICE_REQUEST _ rfl
    simp only [QueryInformationSwitch, h0, gt_iff_lt, Nat.lt_irrefl, if_false]
  have hstate : (SimBattSetBatteryGranularityScale DevExt Scale ScaleCount).DevExt.State =
      { DevExt.State with
        GranularityScale := scaleCopy DevExt.State.GranularityScale Scale ScaleCount
        GranularityCount := ScaleCount } ∧ ScaleCount ≤ 4 := by
    rcases setBatteryGranularityScale_eq DevExt Scale ScaleCount with ⟨-, e⟩ | ⟨⟨h4, -⟩, -, -, e⟩
    · rw [e] at hacc; cases hacc
    · exact ⟨e, h4⟩
  obtain ⟨hstate, h4⟩ := hstate
  refine ⟨?_, ?_, hempty, rfl⟩
  · intro hpos hlen
    have hlen8 : scaleBytes (Scale.take ScaleCount) =
        (scaleBytes (scaleCopy DevExt.State.GranularityScale Scale ScaleCount)).take
          (ScaleCount * sizeof_BATTERY_REPORTING_SCALE) := by
      have e : ScaleCount * sizeof_BATTERY_REPORTING_SCALE = 8 * ScaleCount := by
        simp only [sizeof_BATTERY_REPORTING_SCALE]; omega
      rw [e, scaleBytes_take, scaleCopy_take _ _ _ (by omega) hin]
    have hsel : QueryInformationSwitch
        (SimBattSetBatteryGranularityScale DevExt Scale ScaleCount).DevExt.State
        BatteryGranularityInformation AtRate =
        { Status := STATUS_SUCCESS
          ReturnBuffer := some
            (scaleBytes (scaleCopy DevExt.State.GranularityScale Scale ScaleCount))
          ReturnBufferLength := ScaleCount * sizeof_BATTERY_REPORTING_SCALE } := by
      rw [hstate]
      simp only [QueryInformationSwitch, gt_iff_lt, Nat.lt_of_lt_of_le Nat.zero_lt_one hpos,
        if_true]
    have hmod : ScaleCount * sizeof_BATTERY_REPORTING_SCALE % 2 ^ 32 =
        ScaleCount * sizeof_BATTERY_REPORTING_SCALE := by
      apply Nat.mod_eq_of_lt
      simp only [sizeof_BATTERY_REPORTING_SCALE]; omega
    constructor
    · unfold setThenQueryGranularity
      rw [queryInformation_copy _ BatteryGranularityInformation AtRate Bytes BufferLength
        ReturnedLength _ _ hsel hlen, hmod, hlen8]
      rfl
    · have hl : (Scale.take ScaleCount).length = ScaleCount := by
        rw [List.length_take]; omega
      have := scalesOfBytes_scaleBytes (Scale.take ScaleCount)
        (Bytes.drop (ScaleCount * sizeof_BATTERY_REPORTING_SCALE)) hrange
      rw [hl] at this
      exact this
  · intro h0
    unfold setThenQueryGranularity
    apply hempty
    rw [hstate]
    exact h0

theorem granularity_query_witness :
    (setThenQueryGranularity threeEntryDevExt sampleScale 2 0 (some sampleBuffer) 40
        99).Buffer =
      some (scaleBytes sampleScale ++ sampleBuffer.drop 16) :=
  congrArg QueryInformationResult.Buffer
    ((granularity_query threeEntryDevExt sampleScale 2 0 sampleBuffer 40 99 (by decide)
      (by decide) (by decide) (by decide)).1 (by decide) (by decide)).1

/-! ## Status and information validation -/

theorem setBatteryStatus_eq (DevExt : SIMBATT_FDO_DATA) (s : BATTERY_STATUS) :
    (s.PowerState &&& ulongNot
          (BATTERY_CHARGING ||| BATTERY_DISCHARGING ||| BATTERY_CRITICAL |||
            BATTERY_POWER_ON_LINE) ≠ 0 ∧
        SimBattSetBatteryStatus DevExt s =
          { Status := STATUS_INVALID_PARAMETER, DevExt := DevExt, Events := [] }) ∨
      (s.PowerState &&& ulongNot
          (BATTERY_CHARGING ||| BATTERY_DISCHARGING ||| BATTERY_CRITICAL |||
            BATTERY_POWER_ON_LINE) = 0 ∧
        SimBattSetBatteryStatus DevExt s =
          { Status := STATUS_SUCCESS
            DevExt := { DevExt with State := { DevExt.State with BatteryStatus := s } }
            Events := [LockAcquire, StateAccess, LockRelease, StatusNotify] }) := by
  unfold SimBattSetBatteryStatus
  by_cases h : s.PowerState &&& ulongNot
      (BATTERY_CHARGING ||| BATTERY_DISCHARGING ||| BATTERY_CRITICAL |||
        BATTERY_POWER_ON_LINE) = 0
  · right
    exact ⟨h, by simp only [h, ne_eq, not_true_eq_false, if_false]⟩
  · left
    exact ⟨h, by simp only [h, ne_eq, not_false_eq_true, if_true]⟩

theorem setBatteryInformation_eq (DevExt : SIMBATT_FDO_DATA) (I : BATTERY_INFORMATION) :
    (¬(I.Capabilities &&& ulongNot
            (BATTERY_CAPACITY_RELATIVE ||| BATTERY_IS_SHORT_TERM ||| BATTERY_SYSTEM_BATTERY) = 0 ∧
          I.Technology ≤ 1) ∧
        SimBattSetBatteryInformation DevExt I =
          { Status := STATUS_INVALID_PARAMETER, DevExt := DevExt, Events := [] }) ∨
      ((I.Capabilities &&& ulongNot
            (BATTERY_CAPACITY_RELATIVE ||| BATTERY_IS_SHORT_TERM ||| BATTERY_SYSTEM_BATTERY) = 0 ∧
          I.Technology ≤ 1) ∧
        (SimBattSetBatteryInformation DevExt I).Status = STATUS_SUCCESS ∧
        (SimBattSetBatteryInformation DevExt I).Events =
          [LockAcquire, StateAccess, LockRelease, StatusNotify]) := by
  unfold SimBattSetBatteryInformation
  by_cases h : I.Capabilities &&& ulongNot
      (BATTERY_CAPACITY_RELATIVE ||| BATTERY_IS_SHORT_TERM ||| BATTERY_SYSTEM_BATTERY) = 0
  · by_cases ht : I.Technology > 1
    · left
      refine ⟨fun hc => by omega, ?_⟩
      simp only [h, ne_eq, not_true_eq_false, if_false, ht, if_true]
    · right
      refine ⟨⟨h, by omega⟩, ?_⟩
      simp only [h, ne_eq, not_true_eq_false, if_false, ht, and_self]
  · left
    refine ⟨fun hc => h hc.1, ?_⟩
    simp only [h, ne_eq, not_false_eq_true, if_true]

/-- C16: `SimBattSetBatteryStatus` succeeds if and only if the power-state flags
of the record lie within charging, discharging, critical and on-line, and fails
with `STATUS_INVALID_PARAMETER` otherwise; capacity, voltage and rate play no
part in that. After a success `SimBattQueryStatus` with the current tag delivers
a status record equal to the one set, all four fields as given. -/
theorem status_round_trip (DevExt : SIMBATT_FDO_DATA) (s Prior : BATTERY_STATUS)
    (hps : s.PowerState < 2 ^ 32) :
    ((SimBattSetBatteryStatus DevExt s).Status = STATUS_SUCCESS ↔
      flagsWithin s.PowerState
        (BATTERY_CHARGING ||| BATTERY_DISCHARGING ||| BATTERY_CRITICAL |||
          BATTERY_POWER_ON_LINE)) ∧
    ((SimBattSetBatteryStatus DevExt s).Status ≠ STATUS_SUCCESS →
      (SimBattSetBatteryStatus DevExt s).Status = STATUS_INVALID_PARAMETER) ∧
    ((SimBattSetBatteryStatus DevExt s).Status = STATUS_SUCCESS →
      SimBattQueryStatus (SimBattSetBatteryStatus DevExt s).DevExt
          (SimBattSetBatteryStatus DevExt s).DevExt.BatteryTag Prior =
        { Status := STATUS_SUCCESS
          BatteryStatus := s
          DevExt := (SimBattSetBatteryStatus DevExt s).DevExt
          Events := [LockAcquire, StateAccess, LockRelease] }) := by
  have hiff := flagsWithin_iff s.PowerState
    (BATTERY_CHARGING ||| BATTERY_DISCHARGING ||| BATTERY_CRITICAL ||| BATTERY_POWER_ON_LINE)
    (by decide)
  rcases setBatteryStatus_eq DevExt s with ⟨h, e⟩ | ⟨h, e⟩
  · rw [e]
    refine ⟨⟨fun hs => (by cases hs), fun hf => absurd (hiff.mp hf).2 h⟩, fun _ => rfl,
      fun hs => (by cases hs)⟩
  · rw [e]
    refine ⟨⟨fun _ => hiff.mpr ⟨hps, h⟩, fun _ => rfl⟩, fun hne => absurd rfl hne, fun _ => ?_⟩
    unfold SimBattQueryStatus
    simp only [ne_eq, not_true_eq_false, if_false]

theorem status_round_trip_witness :
    (SimBattQueryStatus (SimBattSetBatteryStatus initialDevExt sampleStatus).DevExt
        (SimBattSetBatteryStatus initialDevExt sampleStatus).DevExt.BatteryTag
        initialDevExt.State.BatteryStatus).BatteryStatus = sampleStatus :=
  congrArg QueryStatusResult.BatteryStatus
    ((status_round_trip initialDevExt sampleStatus initialDevExt.State.BatteryStatus
      (by decide)).2.2 (by decide))

/-- C17: `SimBattSetBatteryInformation` succeeds if and only if the capability
flags of the record lie within relative-capacity, short-term and system-battery
and its technology is at most 1, and fails with `STATUS_INVALID_PARAMETER`
otherwise. No other field is looked at: two records with the same capabilities
and technology get the same status. -/
theorem information_validation (DevExt : SIMBATT_FDO_DATA) (I : BATTERY_INFORMATION)
    (hcaps : I.Capabilities < 2 ^ 32) :
    ((SimBattSetBatteryInformation DevExt I).Status = STATUS_SUCCESS ↔
      flagsWithin I.Capabilities
          (BATTERY_CAPACITY_RELATIVE ||| BATTERY_IS_SHORT_TERM ||| BATTERY_SYSTEM_BATTERY) ∧
        I.Technology ≤ 1) ∧
    ((SimBattSetBatteryInformation DevExt I).Status ≠ STATUS_SUCCESS →
      (SimBattSetBatteryInformation DevExt I).Status = STATUS_INVALID_PARAMETER) ∧
    (∀ J : BATTERY_INFORMATION, J.Capabilities = I.Capabilities →
      J.Technology = I.Technology →
        (SimBattSetBatteryInformation DevExt J).Status =
          (SimBattSetBatteryInformation DevExt I).Status) := by
  have hiff := flagsWithin_iff I.Capabilities
    (BATTERY_CAPACITY_RELATIVE ||| BATTERY_IS_SHORT_TERM ||| BATTERY_SYSTEM_BATTERY) (by decide)
  have hsame : ∀ J : BATTERY_INFORMATION, J.Capabilities = I.Capabilities →
      J.Technology = I.Technology →
        (SimBattSetBatteryInformation DevExt J).Status =
          (SimBattSetBatteryInformation DevExt I).Status := by
    intro J hc ht
    rcases setBatteryInformation_eq DevExt I with ⟨h, e⟩ | ⟨h, e, -⟩ <;>
      rcases setBatteryInformation_eq DevExt J with ⟨h', e'⟩ | ⟨h', e', -⟩
    · rw [e, e']
    · rw [hc, ht] at h'; exact absurd h' h
    · rw [hc, ht] at h'; exact absurd h h'
    · rw [e, e']
  refine ⟨?_, ?_, hsame⟩
  · rcases setBatteryInformation_eq DevExt I with ⟨h, e⟩ | ⟨h, e, -⟩
    · rw [e]
      exact ⟨fun hs => (by cases hs), fun hf => absurd ⟨(hiff.mp hf.1).2, hf.2⟩ h⟩
    · rw [e]
      exact ⟨fun _ => ⟨hiff.mpr ⟨hcaps, h.1⟩, h.2⟩, fun _ => rfl⟩
  · rcases setBatteryInformation_eq DevExt I with ⟨-, e⟩ | ⟨-, e, -⟩
    · rw [e]; exact fun _ => rfl
    · rw [e]; exact fun hne => absurd rfl hne

theorem information_validation_witness :
    (SimBattSetBatteryInformation initialDevExt sampleInformation).Status = STATUS_SUCCESS :=
  (information_validation initialDevExt sampleInformation (by decide)).1.mpr
    ⟨(flagsWithin_iff _ _ (by decide)).mpr (by decide), by decide⟩

/-! ## Outcomes of requests -/

theorem queryInformation_frame (DevExt : SIMBATT_FDO_DATA) (BatteryTag : Nat)
    (Level : BATTERY_QUERY_INFORMATION_LEVEL) (AtRate : Int) (Buffer : Option (List Nat))
    (BufferLength ReturnedLength : Nat) :
    (SimBattQueryInformation DevExt BatteryTag Level AtRate Buffer BufferLength
        ReturnedLength).DevExt = DevExt ∧
      (SimBattQueryInformation DevExt BatteryTag Level AtRate Buffer BufferLength
        ReturnedLength).Events = [LockAcquire, StateAccess, LockRelease] := by
  unfold SimBattQueryInformation
  dsimp only
  split
  · exact ⟨rfl, rfl⟩
  · split
    · split
      · split
        · exact ⟨rfl, rfl⟩
        · split <;> exact ⟨rfl, rfl⟩
      · exact ⟨rfl, rfl⟩
    · exact ⟨rfl, rfl⟩

theorem queryStatus_frame (DevExt : SIMBATT_FDO_DATA) (BatteryTag : Nat)
    (BatteryStatus : BATTERY_STATUS) :
    (SimBattQueryStatus DevExt BatteryTag BatteryStatus).DevExt = DevExt ∧
      (SimBattQueryStatus DevExt BatteryTag BatteryStatus).Events =
        [LockAcquire, StateAccess, LockRelease] := by
  unfold SimBattQueryStatus
  dsimp only
  split <;> exact ⟨rfl, rfl⟩

theorem setStatusNotify_frame (DevExt : SIMBATT_FDO_DATA) (BatteryTag : Nat) :
    (SimBattSetStatusNotify DevExt BatteryTag).DevExt = DevExt ∧
      (SimBattSetStatusNotify DevExt BatteryTag).Events =
        [LockAcquire, StateAccess, LockRelease] ∧
      (SimBattSetStatusNotify DevExt BatteryTag).Status ≠ STATUS_INVALID_PARAMETER := by
  unfold SimBattSetStatusNotify
  dsimp only
  split <;> exact ⟨rfl, rfl, fun h => (by cases h)⟩

theorem setInformation_frame (DevExt : SIMBATT_FDO_DATA) (BatteryTag : Nat)
    (Level : BATTERY_SET_INFORMATION_LEVEL) (Buffer : Option BATTERY_CHARGING_SOURCE) :
    (SimBattSetInformation DevExt BatteryTag Level Buffer).Events =
        [LockAcquire, StateAccess, LockRelease] ∧
      (SimBattSetInformation DevExt BatteryTag Level Buffer).Status ≠
        STATUS_INVALID_PARAMETER := by
  unfold SimBattSetInformation
  dsimp only
  split
  · exact ⟨rfl, fun h => (by cases h)⟩
  · split
    · exact ⟨rfl, fun h => (by cases h)⟩
    · split <;> exact ⟨rfl, fun h => (by cases h)⟩

theorem notify_not_in_lock_events : StatusNotify ∉ [LockAcquire, StateAccess, LockRelease] := by
  decide

theorem notify_not_in_access : StatusNotify ∉ [StateAccess] := by decide

theorem notify_not_in_nil : StatusNotify ∉ ([] : List Event) := by decide

theorem request_outcome_devExt (DevExt : SIMBATT_FDO_DATA) (r : Request) :
    (r.outcome DevExt).DevExt = r.apply DevExt := by
  cases r <;> rfl

/-- C18: a request that ends with `STATUS_INVALID_PARAMETER`, in particular a
`SimBattSetBatteryStatus` with bad flags, a `SimBattSetBatteryInformation` with
bad capabilities or technology, a `SimBattSetBatteryManufactureDate` with a
malformed date and a `SimBattSetBatteryGranularityScale` with more than four
entries or capacities out of order, leaves the whole device extension, tag
included, exactly as it was, and raises no notification. -/
theorem rejected_requests_change_nothing (DevExt : SIMBATT_FDO_DATA) (r : Request)
    (hrej : (r.outcome DevExt).Status = STATUS_INVALID_PARAMETER) :
    (r.outcome DevExt).DevExt = DevExt ∧ StatusNotify ∉ (r.outcome DevExt).Events := by
  cases r with
  | QueryTag => exact ⟨rfl, notify_not_in_lock_events⟩
  | QueryInformation BatteryTag Level AtRate Buffer BufferLength ReturnedLength =>
    obtain ⟨h1, h2⟩ := queryInformation_frame DevExt BatteryTag Level AtRate Buffer
      BufferLength ReturnedLength
    simp only [Request.outcome, h1, h2]
    exact ⟨trivial, notify_not_in_lock_events⟩
  | QueryStatus BatteryTag BatteryStatus =>
    obtain ⟨h1, h2⟩ := queryStatus_frame DevExt BatteryTag BatteryStatus
    simp only [Request.outcome, h1, h2]
    exact ⟨trivial, notify_not_in_lock_events⟩
  | SetStatusNotify BatteryTag =>
    exact absurd hrej (setStatusNotify_frame DevExt BatteryTag).2.2
  | DisableStatusNotify => exact ⟨rfl, notify_not_in_nil⟩
  | SetInformation BatteryTag Level Buffer =>
    exact absurd hrej (setInformation_frame DevExt BatteryTag Level Buffer).2
  | SetBatteryStatus BatteryStatus =>
    simp only [Request.outcome] at hrej ⊢
    rcases setBatteryStatus_eq DevExt BatteryStatus with ⟨-, e⟩ | ⟨-, e⟩
    · rw [e]; exact ⟨rfl, notify_not_in_nil⟩
    · rw [e] at hrej; cases hrej
  | SetBatteryInformation Information =>
    simp only [Request.outcome] at hrej ⊢
    rcases setBatteryInformation_eq DevExt Information with ⟨-, e⟩ | ⟨-, e, -⟩
    · rw [e]; exact ⟨rfl, notify_not_in_nil⟩
    · rw [e] at hrej; cases hrej
  | GetBatteryMaxChargingCurrent => exact ⟨rfl, notify_not_in_access⟩
  | SetBatteryManufactureDate ManufactureDate =>
    simp only [Request.outcome] at hrej ⊢
    rcases setBatteryManufactureDate_eq DevExt ManufactureDate with ⟨-, e⟩ | ⟨-, e, -, -⟩
    · rw [e]; exact ⟨rfl, notify_not_in_nil⟩
    · rw [e] at hrej; cases hrej
  | SetBatteryGranularityScale Scale ScaleCount =>
    simp only [Request.outcome] at hrej ⊢
    rcases setBatteryGranularityScale_eq DevExt Scale ScaleCount with ⟨-, e⟩ | ⟨-, e, -, -⟩
    · rw [e]; exact ⟨rfl, notify_not_in_nil⟩
    · rw [e] at hrej; cases hrej
  | SetBatteryEstimatedTime EstimatedTime => cases hrej

theorem rejected_requests_change_nothing_witness :
    ((Request.SetBatteryStatus badStatus).outcome initialDevExt).DevExt = initialDevExt ∧
      StatusNotify ∉ ((Request.SetBatteryStatus badStatus).outcome initialDevExt).Events :=
  rejected_requests_change_nothing initialDevExt (.SetBatteryStatus badStatus) (by decide)

/-- C19: `BatteryClassStatusNotify` is called exactly once by every successful
`SimBattSetBatteryStatus` and every successful `SimBattSetBatteryInformation`,
and not at all by any other request (manufacture date, granularity table,
estimated time, charging source, maximum charging current, the queries, the
notification settings) nor by any request that does not succeed. -/
theorem notification_exactly_once (DevExt : SIMBATT_FDO_DATA) (r : Request) :
    List.count StatusNotify (r.outcome DevExt).Events =
      if r.setsStatusOrInformation = true ∧ (r.outcome DevExt).Status = STATUS_SUCCESS then 1
      else 0 := by
  cases r with
  | QueryTag => rfl
  | QueryInformation BatteryTag Level AtRate Buffer BufferLength ReturnedLength =>
    simp only [Request.outcome, Request.setsStatusOrInformation,
      (queryInformation_frame DevExt BatteryTag Level AtRate Buffer BufferLength
        ReturnedLength).2]
    rfl
  | QueryStatus BatteryTag BatteryStatus =>
    simp only [Request.outcome, Request.setsStatusOrInformation,
      (queryStatus_frame DevExt BatteryTag BatteryStatus).2]
    rfl
  | SetStatusNotify BatteryTag =>
    simp only [Request.outcome, Request.setsStatusOrInformation,
      (setStatusNotify_frame DevExt BatteryTag).2.1]
    rfl
  | DisableStatusNotify => rfl
  | SetInformation BatteryTag Level Buffer =>
    simp only [Request.outcome, Request.setsStatusOrInformation,
      (setInformation_frame DevExt BatteryTag Level Buffer).1]
    rfl
  | SetBatteryStatus BatteryStatus =>
    simp only [Request.outcome, Request.setsStatusOrInformation, true_and]
    rcases setBatteryStatus_eq DevExt BatteryStatus with ⟨-, e⟩ | ⟨-, e⟩ <;> rw [e] <;> rfl
  | SetBatteryInformation Information =>
    simp only [Request.outcome, Request.setsStatusOrInformation, true_and]
    rcases setBatteryInformation_eq DevExt Information with ⟨-, e⟩ | ⟨-, e, e2⟩
    · rw [e]; rfl
    · rw [e, e2]; rfl
  | GetBatteryMaxChargingCurrent => rfl
  | SetBatteryManufactureDate ManufactureDate =>
    simp only [Request.outcome, Request.setsStatusOrInformation]
    rw [if_neg (fun h => Bool.false_ne_true h.1)]
    rcases setBatteryManufactureDate_eq DevExt ManufactureDate with ⟨-, e⟩ | ⟨-, -, e, -⟩ <;>
      rw [e] <;> rfl
  | SetBatteryGranularityScale Scale ScaleCount =>
    simp only [Request.outcome, Request.setsStatusOrInformation]
    rw [if_neg (fun h => Bool.false_ne_true h.1)]
    rcases setBatteryGranularityScale_eq DevExt Scale ScaleCount with ⟨-, e⟩ | ⟨-, -, e, -⟩ <;>
      rw [e] <;> rfl
  | SetBatteryEstimatedTime EstimatedTime => rfl

/-! ## Control requests -/

theorem retrieveInputBuffer_exact (InputBuffer : List Nat) (n : Nat)
    (h : NT_SUCCESS (WdfRequestRetrieveInputBuffer InputBuffer n).1 = true ∧
      (WdfRequestRetrieveInputBuffer InputBuffer n).2 = n) : InputBuffer.length = n := by
  unfold WdfRequestRetrieveInputBuffer at h
  split at h
  · exact absurd h.1 (by decide)
  · exact h.2

theorem retrieveOutputBuffer_exact (OutputBuffer : List Nat) (n : Nat)
    (h : NT_SUCCESS (WdfRequestRetrieveOutputBuffer OutputBuffer n).1 = true ∧
      (WdfRequestRetrieveOutputBuffer OutputBuffer n).2 = n) : OutputBuffer.length = n := by
  unfold WdfRequestRetrieveOutputBuffer at h
  split at h
  · exact absurd h.1 (by decide)
  · exact h.2

/-- A control request whose payload has not exactly the size its operation
declares completes with `STATUS_INVALID_PARAMETER`, no routine called and
nothing changed; so does a request with an unknown code. For the granularity
table the test is on multiples of `PointerSize`. -/
theorem ioDeviceControl_size_mismatch (PointerSize : Nat) (DevExt : SIMBATT_FDO_DATA)
    (InputBuffer OutputBuffer : List Nat) :
    (InputBuffer.length ≠ sizeof_BATTERY_STATUS →
      SimBattIoDeviceControl PointerSize DevExt InputBuffer OutputBuffer
        IOCTL_SIMBATT_SET_STATUS = IoControlResult.invalid DevExt OutputBuffer) ∧
    (InputBuffer.length ≠ sizeof_BATTERY_INFORMATION →
      SimBattIoDeviceControl PointerSize DevExt InputBuffer OutputBuffer
        IOCTL_SIMBATT_SET_INFORMATION = IoControlResult.invalid DevExt OutputBuffer) ∧
    (OutputBuffer.length ≠ sizeof_ULONG →
      SimBattIoDeviceControl PointerSize DevExt InputBuffer OutputBuffer
        IOCTL_SIMBATT_GET_MAXCHARGINGCURRENT = IoControlResult.invalid DevExt OutputBuffer) ∧
    (InputBuffer.length ≠ sizeof_BATTERY_MANUFACTURE_DATE →
      SimBattIoDeviceControl PointerSize DevExt InputBuffer OutputBuffer
        IOCTL_SIMBATT_SET_MANUFACTURE_DATE = IoControlResult.invalid DevExt OutputBuffer) ∧
    (InputBuffer.length ≠ sizeof_ULONG →
      SimBattIoDeviceControl PointerSize DevExt InputBuffer OutputBuffer
        IOCTL_SIMBATT_SET_ESTIMATED_TIME = IoControlResult.invalid DevExt OutputBuffer) ∧
    (¬ PointerSize ∣ InputBuffer.length →
      SimBattIoDeviceControl PointerSize DevExt InputBuffer OutputBuffer
        IOCTL_SIMBATT_SET_GRANULARITY_INFORMATION =
          IoControlResult.invalid DevExt OutputBuffer) ∧
    (∀ code : Nat,
      SimBattIoDeviceControl PointerSize DevExt InputBuffer OutputBuffer
        (SIMBATT_IOCTL.other code) = IoControlResult.invalid DevExt OutputBuffer) := by
  refine ⟨?_, ?_, ?_, ?_, ?_, ?_, fun _ => rfl⟩
  · intro h
    simp only [SimBattIoDeviceControl]
    rw [if_neg (fun hc => h (retrieveInputBuffer_exact _ _ hc))]
  · intro h
    simp only [SimBattIoDeviceControl]
    rw [if_neg (fun hc => h (retrieveInputBuffer_exact _ _ hc))]
  · intro h
    simp only [SimBattIoDeviceControl]
    rw [if_neg (fun hc => h (retrieveOutputBuffer_exact _ _ hc))]
  · intro h
    simp only [SimBattIoDeviceControl]
    rw [if_neg (fun hc => h (retrieveInputBuffer_exact _ _ hc))]
  · intro h
    simp only [SimBattIoDeviceControl]
    rw [if_neg (fun hc => h (retrieveInputBuffer_exact _ _ hc))]
  · intro h
    simp only [SimBattIoDeviceControl]
    rw [if_neg (fun hc => h ⟨_, ((retrieveInputBuffer_exact _ _ hc).trans (Nat.mul_comm _ _))⟩)]

/-- Where a pointer takes as many bytes as one (granularity, capacity) entry,
a granularity payload that is not a whole number of entries is turned down
with nothing changed. -/
theorem ioDeviceControl_granularity_entries (DevExt : SIMBATT_FDO_DATA)
    (InputBuffer OutputBuffer : List Nat)
    (hlen : ∀ count : Nat, InputBuffer.length ≠ count * sizeof_BATTERY_REPORTING_SCALE) :
    SimBattIoDeviceControl sizeof_BATTERY_REPORTING_SCALE DevExt InputBuffer OutputBuffer
      IOCTL_SIMBATT_SET_GRANULARITY_INFORMATION = IoControlResult.invalid DevExt OutputBuffer :=
  (ioDeviceControl_size_mismatch sizeof_BATTERY_REPORTING_SCALE DevExt InputBuffer
    OutputBuffer).2.2.2.2.2.1
    (fun ⟨k, hk⟩ => hlen k (hk.trans (Nat.mul_comm _ _)))

/-- With a single entry `SimBattSetBatteryGranularityScale` has no pair of
capacities to compare: it succeeds whatever the entry holds. -/
theorem setBatteryGranularityScale_single (DevExt : SIMBATT_FDO_DATA)
    (Scale : List BATTERY_REPORTING_SCALE) :
    (SimBattSetBatteryGranularityScale DevExt Scale 1).Status = STATUS_SUCCESS ∧
      (SimBattSetBatteryGranularityScale DevExt Scale 1).DevExt.State.GranularityCount = 1 ∧
      (SimBattSetBatteryGranularityScale DevExt Scale 1).DevExt.BatteryTag =
        (SimBattUpdateTag DevExt).BatteryTag := by
  refine ⟨rfl, ?_, ?_⟩
  · show (SimBattUpdateTag _).State.GranularityCount = 1
    rw [updateTag_state]
  · show (SimBattUpdateTag _).BatteryTag = _
    exact updateTag_tag_congr _ _

/-- C20: the size check of `SimBattIoDeviceControl` for the granularity table
counts and checks the payload in units of `sizeof(PBATTERY_REPORTING_SCALE)`,
the size of a pointer, not of an entry. Built with 4-byte pointers, a payload
of 4 bytes (no whole number of 8-byte entries) passes the check as one entry:
`SimBattSetBatteryGranularityScale` runs with a count of one, the request
completes with `STATUS_SUCCESS`, the stored count becomes 1 where it was 0 and
the tag moves from 1 to 2; and this is so whatever the routine finds in the
four bytes it reads behind the payload. -/
theorem granularity_size_check_counts_pointers :
    (∀ count : Nat, halfEntryPayload.length ≠ count * sizeof_BATTERY_REPORTING_SCALE) ∧
    (SimBattIoDeviceControl pointerSize32 initialDevExt halfEntryPayload []
      IOCTL_SIMBATT_SET_GRANULARITY_INFORMATION).Status = STATUS_SUCCESS ∧
    initialDevExt.State.GranularityCount = 0 ∧
    (SimBattIoDeviceControl pointerSize32 initialDevExt halfEntryPayload []
      IOCTL_SIMBATT_SET_GRANULARITY_INFORMATION).DevExt.State.GranularityCount = 1 ∧
    initialDevExt.BatteryTag = 1 ∧
    (SimBattIoDeviceControl pointerSize32 initialDevExt halfEntryPayload []
      IOCTL_SIMBATT_SET_GRANULARITY_INFORMATION).DevExt.BatteryTag = 2 ∧
    (∀ Scale : List BATTERY_REPORTING_SCALE,
      (SimBattSetBatteryGranularityScale initialDevExt Scale 1).Status = STATUS_SUCCESS ∧
      (SimBattSetBatteryGranularityScale initialDevExt Scale 1).DevExt.State.GranularityCount
        = 1 ∧
      (SimBattSetBatteryGranularityScale initialDevExt Scale 1).DevExt.BatteryTag = 2) := by
  refine ⟨?_, rfl, rfl, rfl, rfl, rfl, fun Scale => ?_⟩
  · intro count h
    have h4 : (4 : Nat) = count * 8 := h
    omega
  · obtain ⟨h1, h2, h3⟩ := setBatteryGranularityScale_single initialDevExt Scale
    exact ⟨h1, h2, h3.trans rfl⟩

/-! ## Tag query and charging current -/

theorem initialDevExt_tag_ne_invalid : initialDevExt.BatteryTag ≠ BATTERY_TAG_INVALID := by
  decide

/-- C21: `SimBattQueryTag` hands out the stored tag and leaves the device
extension as it was; it ends with `STATUS_NO_SUCH_DEVICE` exactly when the
stored tag is `BATTERY_TAG_INVALID` (as on the zeroed record before instance
creation) and with `STATUS_SUCCESS` otherwise; so it succeeds, with the current
tag, in every state reached from instance creation by any sequence of
requests. -/
theorem query_tag_contract (DevExt : SIMBATT_FDO_DATA) (Requests : List Request) :
    (SimBattQueryTag DevExt).BatteryTag = DevExt.BatteryTag ∧
    (SimBattQueryTag DevExt).DevExt = DevExt ∧
    ((SimBattQueryTag DevExt).Status = STATUS_NO_SUCH_DEVICE ↔
      DevExt.BatteryTag = BATTERY_TAG_INVALID) ∧
    ((SimBattQueryTag DevExt).Status = STATUS_SUCCESS ↔
      DevExt.BatteryTag ≠ BATTERY_TAG_INVALID) ∧
    (SimBattQueryTag zeroDevExt).Status = STATUS_NO_SUCH_DEVICE ∧
    (SimBattQueryTag (runRequests initialDevExt Requests)).Status = STATUS_SUCCESS ∧
    (SimBattQueryTag (runRequests initialDevExt Requests)).BatteryTag =
      (runRequests initialDevExt Requests).BatteryTag ∧
    (SimBattQueryTag (runRequests initialDevExt Requests)).DevExt =
      runRequests initialDevExt Requests := by
  have key : ∀ D : SIMBATT_FDO_DATA,
      ((SimBattQueryTag D).Status = STATUS_NO_SUCH_DEVICE ↔
        D.BatteryTag = BATTERY_TAG_INVALID) ∧
      ((SimBattQueryTag D).Status = STATUS_SUCCESS ↔ D.BatteryTag ≠ BATTERY_TAG_INVALID) := by
    intro D
    unfold SimBattQueryTag
    by_cases h : D.BatteryTag = BATTERY_TAG_INVALID
    · simp only [h, if_true, ne_eq, not_true_eq_false, iff_false, true_iff, reduceCtorEq,
        not_false_eq_true, and_self]
    · simp only [h, if_false, ne_eq, not_false_eq_true, iff_true, iff_false, reduceCtorEq,
        and_self]
  refine ⟨rfl, rfl, (key DevExt).1, (key DevExt).2, by decide, ?_, rfl, rfl⟩
  exact (key _).2.mpr (runRequests_tag_ne_invalid Requests initialDevExt
    initialDevExt_tag_ne_invalid)

/-! ## Tag and static data -/

theorem request_tag_and_static (DevExt : SIMBATT_FDO_DATA) (r : Request) :
    ((r.setsStaticData = true ∧ (r.outcome DevExt).Status = STATUS_SUCCESS) ∧
        (r.apply DevExt).BatteryTag = (SimBattUpdateTag DevExt).BatteryTag) ∨
      (¬(r.setsStaticData = true ∧ (r.outcome DevExt).Status = STATUS_SUCCESS) ∧
        (r.apply DevExt).BatteryTag = DevExt.BatteryTag ∧
        staticData (r.apply DevExt) = staticData DevExt) := by
  have hno : ∀ P : Prop, ¬((false = true) ∧ P) := fun _ h => Bool.false_ne_true h.1
  cases r with
  | QueryTag => exact Or.inr ⟨hno _, rfl, rfl⟩
  | QueryInformation BatteryTag Level AtRate Buffer BufferLength ReturnedLength =>
    refine Or.inr ⟨hno _, ?_, ?_⟩
    · show (SimBattQueryInformation _ _ _ _ _ _ _).DevExt.BatteryTag = _
      rw [(queryInformation_frame _ _ _ _ _ _ _).1]
    · show staticData (SimBattQueryInformation _ _ _ _ _ _ _).DevExt = _
      rw [(queryInformation_frame _ _ _ _ _ _ _).1]
  | QueryStatus BatteryTag BatteryStatus =>
    refine Or.inr ⟨hno _, ?_, ?_⟩
    · show (SimBattQueryStatus _ _ _).DevExt.BatteryTag = _
      rw [(queryStatus_frame _ _ _).1]
    · show staticData (SimBattQueryStatus _ _ _).DevExt = _
      rw [(queryStatus_frame _ _ _).1]
  | SetStatusNotify BatteryTag =>
    refine Or.inr ⟨hno _, ?_, ?_⟩
    · show (SimBattSetStatusNotify _ _).DevExt.BatteryTag = _
      rw [(setStatusNotify_frame _ _).1]
    · show staticData (SimBattSetStatusNotify _ _).DevExt = _
      rw [(setStatusNotify_frame _ _).1]
  | DisableStatusNotify => exact Or.inr ⟨hno _, rfl, rfl⟩
  | SetInformation BatteryTag Level Buffer =>
    refine Or.inr ⟨hno _, setInformation_tag _ _ _ _, ?_⟩
    show staticData (SimBattSetInformation _ _ _ _).DevExt = _
    unfold SimBattSetInformation
    split
    · rfl
    · split
      · rfl
      · split <;> rfl
  | SetBatteryStatus BatteryStatus =>
    refine Or.inr ⟨hno _, setBatteryStatus_tag _ _, ?_⟩
    show staticData (SimBattSetBatteryStatus _ _).DevExt = _
    rcases setBatteryStatus_eq DevExt BatteryStatus with ⟨_, e⟩ | ⟨_, e⟩
    · rw [e]
    · rw [e]
      rfl
  | SetBatteryInformation Information =>
    show ((true = true ∧ (SimBattSetBatteryInformation DevExt Information).Status =
        STATUS_SUCCESS) ∧ (SimBattSetBatteryInformation DevExt Information).DevExt.BatteryTag
          = _) ∨ (¬(true = true ∧ (SimBattSetBatteryInformation DevExt Information).Status =
        STATUS_SUCCESS) ∧ (SimBattSetBatteryInformation DevExt Information).DevExt.BatteryTag
          = _ ∧ staticData (SimBattSetBatteryInformation DevExt Information).DevExt = _)
    have ht := setBatteryInformation_tag DevExt Information
    rcases setBatteryInformation_eq DevExt Information with ⟨_, e⟩ | ⟨_, hs, _⟩
    · right
      rw [e]
      exact ⟨fun h => (by cases h.2), rfl, rfl⟩
    · left
      rw [if_pos hs] at ht
      exact ⟨⟨rfl, hs⟩, ht⟩
  | GetBatteryMaxChargingCurrent => exact Or.inr ⟨hno _, rfl, rfl⟩
  | SetBatteryManufactureDate ManufactureDate =>
    show ((true = true ∧ (SimBattSetBatteryManufactureDate DevExt ManufactureDate).Status =
        STATUS_SUCCESS) ∧
        (SimBattSetBatteryManufactureDate DevExt ManufactureDate).DevExt.BatteryTag = _) ∨
      (¬(true = true ∧ (SimBattSetBatteryManufactureDate DevExt ManufactureDate).Status =
        STATUS_SUCCESS) ∧
        (SimBattSetBatteryManufactureDate DevExt ManufactureDate).DevExt.BatteryTag = _ ∧
        staticData (SimBattSetBatteryManufactureDate DevExt ManufactureDate).DevExt = _)
    have ht := setBatteryManufactureDate_tag DevExt ManufactureDate
    rcases setBatteryManufactureDate_eq DevExt ManufactureDate with ⟨_, e⟩ | ⟨_, hs, _⟩
    · right
      rw [e]
      exact ⟨fun h => (by cases h.2), rfl, rfl⟩
    · left
      rw [if_pos hs] at ht
      exact ⟨⟨rfl, hs⟩, ht⟩
  | SetBatteryGranularityScale Scale ScaleCount =>
    show ((true = true ∧ (SimBattSetBatteryGranularityScale DevExt Scale ScaleCount).Status =
        STATUS_SUCCESS) ∧
        (SimBattSetBatteryGranularityScale DevExt Scale ScaleCount).DevExt.BatteryTag = _) ∨
      (¬(true = true ∧ (SimBattSetBatteryGranularityScale DevExt Scale ScaleCount).Status =
        STATUS_SUCCESS) ∧
        (SimBattSetBatteryGranularityScale DevExt Scale ScaleCount).DevExt.BatteryTag = _ ∧
        staticData (SimBattSetBatteryGranularityScale DevExt Scale ScaleCount).DevExt = _)
    have ht := setBatteryGranularityScale_tag DevExt Scale ScaleCount
    rcases setBatteryGranularityScale_eq DevExt Scale ScaleCount with ⟨_, e⟩ | ⟨_, hs, _⟩
    · right
      rw [e]
      exact ⟨fun h => (by cases h.2), rfl, rfl⟩
    · left
      rw [if_pos hs] at ht
      exact ⟨⟨rfl, hs⟩, ht⟩
  | SetBatteryEstimatedTime EstimatedTime => exact Or.inr ⟨hno _, rfl, rfl⟩

/-- C22, as stated, fails: on a freshly created instance, setting the
information record to the very record the state holds is accepted and moves
the tag from 1 to 2, while the static data, and the whole state, stay as they
were. A changed tag does not tell that static data changed. -/
theorem tag_changes_without_static_change :
    (Request.outcome initialDevExt
      (.SetBatteryInformation initialDevExt.State.BatteryInfo)).Status = STATUS_SUCCESS ∧
    initialDevExt.BatteryTag = 1 ∧
    (Request.apply initialDevExt
      (.SetBatteryInformation initialDevExt.State.BatteryInfo)).BatteryTag = 2 ∧
    staticData (Request.apply initialDevExt
      (.SetBatteryInformation initialDevExt.State.BatteryInfo)) = staticData initialDevExt ∧
    (Request.apply initialDevExt
      (.SetBatteryInformation initialDevExt.State.BatteryInfo)).State = initialDevExt.State ∧
    ¬((Request.apply initialDevExt
        (.SetBatteryInformation initialDevExt.State.BatteryInfo)).BatteryTag ≠
          initialDevExt.BatteryTag ↔
      staticData (Request.apply initialDevExt
        (.SetBatteryInformation initialDevExt.State.BatteryInfo)) ≠
          staticData initialDevExt) := by
  have h1 : (Request.apply initialDevExt
      (.SetBatteryInformation initialDevExt.State.BatteryInfo)).BatteryTag = 2 := rfl
  have h2 : staticData (Request.apply initialDevExt
      (.SetBatteryInformation initialDevExt.State.BatteryInfo)) = staticData initialDevExt :=
    rfl
  have h0 : initialDevExt.BatteryTag = 1 := rfl
  refine ⟨rfl, h0, h1, h2, rfl, ?_⟩
  rw [h1, h0, h2]
  intro h
  exact h.mp (by decide) rfl

/-- C22, amended: for every state and every request, static data (information
record, manufacture date, granularity table and count) that differs after the
request comes with a tag that differs; and the tag differs after the request
exactly when the request is an accepted `SimBattSetBatteryInformation`,
`SimBattSetBatteryManufactureDate` or `SimBattSetBatteryGranularityScale`,
whether or not the accepted payload differs from what was stored. -/
theorem tag_follows_static_updates (DevExt : SIMBATT_FDO_DATA) (r : Request) :
    (staticData (r.apply DevExt) ≠ staticData DevExt →
      (r.apply DevExt).BatteryTag ≠ DevExt.BatteryTag) ∧
    ((r.apply DevExt).BatteryTag ≠ DevExt.BatteryTag ↔
      (r.setsStaticData = true ∧ (r.outcome DevExt).Status = STATUS_SUCCESS)) := by
  rcases request_tag_and_static DevExt r with ⟨hacc, ht⟩ | ⟨hrej, ht, hs⟩
  · rw [ht]
    exact ⟨fun _ => updateTag_ne_self DevExt, fun _ => hacc, fun _ => updateTag_ne_self DevExt⟩
  · rw [ht]
    exact ⟨fun h => absurd hs h, fun h => absurd rfl h, fun h => absurd h hrej⟩

/-! ## Charging source and charging current -/

/-- C23, as stated, fails: on a freshly created instance (tag 1) the
charging-source request that presents tag 7 ends with `STATUS_NO_SUCH_DEVICE`
and leaves `MaxCurrentDraw` at `UNKNOWN_CURRENT`, not at the 1500 of the
payload: `SimBattSetInformation` compares the tag before it looks at the
level. -/
theorem charging_source_stale_tag_fails :
    initialDevExt.BatteryTag = 1 ∧
    SimBattSetInformation initialDevExt 7 BatteryChargingSource (some sampleSource) =
      { Status := STATUS_NO_SUCH_DEVICE, DevExt := initialDevExt
        Events := [LockAcquire, StateAccess, LockRelease] } ∧
    (SimBattSetInformation initialDevExt 7 BatteryChargingSource
      (some sampleSource)).DevExt.State.MaxCurrentDraw = UNKNOWN_CURRENT ∧
    sampleSource.MaxCurrent = 1500 ∧
    UNKNOWN_CURRENT ≠ sampleSource.MaxCurrent := by
  refine ⟨rfl, rfl, rfl, rfl, by decide⟩

/-- C23, amended: for every state and every charging-source payload, the
charging-source request of `SimBattSetInformation` that presents the current
tag succeeds, sets `MaxCurrentDraw` to the payload's `MaxCurrent`, changes
nothing else (the tag included) and does not notify; the same request with
any other tag ends with `STATUS_NO_SUCH_DEVICE` and changes nothing. -/
theorem charging_source_sets_max_current (DevExt : SIMBATT_FDO_DATA) (BatteryTag : Nat)
    (ChargingSource : BATTERY_CHARGING_SOURCE) :
    SimBattSetInformation DevExt DevExt.BatteryTag BatteryChargingSource
        (some ChargingSource) =
      { Status := STATUS_SUCCESS
        DevExt := { DevExt with
          State := { DevExt.State with MaxCurrentDraw := ChargingSource.MaxCurrent } }
        Events := [LockAcquire, StateAccess, LockRelease] } ∧
    (SimBattSetInformation DevExt DevExt.BatteryTag BatteryChargingSource
      (some ChargingSource)).DevExt.State.MaxCurrentDraw = ChargingSource.MaxCurrent ∧
    (SimBattSetInformation DevExt DevExt.BatteryTag BatteryChargingSource
      (some ChargingSource)).DevExt.BatteryTag = DevExt.BatteryTag ∧
    (BatteryTag ≠ DevExt.BatteryTag →
      SimBattSetInformation DevExt BatteryTag BatteryChargingSource (some ChargingSource) =
        { Status := STATUS_NO_SUCH_DEVICE, DevExt := DevExt
          Events := [LockAcquire, StateAccess, LockRelease] }) := by
  have h : SimBattSetInformation DevExt DevExt.BatteryTag BatteryChargingSource
        (some ChargingSource) =
      { Status := STATUS_SUCCESS
        DevExt := { DevExt with
          State := { DevExt.State with MaxCurrentDraw := ChargingSource.MaxCurrent } }
        Events := [LockAcquire, StateAccess, LockRelease] } := by
    unfold SimBattSetInformation
    rw [if_neg (fun hne => hne rfl)]
    rfl
  refine ⟨h, by rw [h], by rw [h], fun hne => ?_⟩
  unfold SimBattSetInformation
  rw [if_pos hne]

theorem setInformation_success (DevExt : SIMBATT_FDO_DATA) (BatteryTag : Nat)
    (Level : BATTERY_SET_INFORMATION_LEVEL) (Buffer : Option BATTERY_CHARGING_SOURCE)
    (h : (SimBattSetInformation DevExt BatteryTag Level Buffer).Status = STATUS_SUCCESS) :
    ∃ ChargingSource : BATTERY_CHARGING_SOURCE,
      Buffer = some ChargingSource ∧ Level = BatteryChargingSource ∧
        BatteryTag = DevExt.BatteryTag ∧
        (SimBattSetInformation DevExt BatteryTag Level Buffer).DevExt.State.MaxCurrentDraw =
          ChargingSource.MaxCurrent := by
  unfold SimBattSetInformation at h ⊢
  by_cases ht : BatteryTag ≠ DevExt.BatteryTag
  · rw [if_pos ht] at h
    cases h
  · rw [if_neg ht] at h ⊢
    cases Buffer with
    | none => cases h
    | some ChargingSource =>
      by_cases hl : Level = BatteryChargingSource
      · exact ⟨ChargingSource, rfl, hl, not_not.mp ht, by simp only [hl, if_true]⟩
      · simp only [hl, if_false] at h
        cases h

/-- C24: `SimBattGetBatteryMaxChargingCurrent` succeeds in every state, hands out
the stored `MaxCurrentDraw` and leaves the device extension as it was; after a
charging-source request of `SimBattSetInformation` that succeeded it hands out
the `MaxCurrent` of that request's payload; on a freshly created instance it
hands out `UNKNOWN_CURRENT`. -/
theorem max_charging_current_passthrough (DevExt : SIMBATT_FDO_DATA) (BatteryTag : Nat)
    (ChargingSource : BATTERY_CHARGING_SOURCE)
    (hset : (SimBattSetInformation DevExt BatteryTag BatteryChargingSource
      (some ChargingSource)).Status = STATUS_SUCCESS) :
    SimBattGetBatteryMaxChargingCurrent DevExt =
      { Status := STATUS_SUCCESS, MaxChargingCurrent := DevExt.State.MaxCurrentDraw
        DevExt := DevExt, Events := [StateAccess] } ∧
    (SimBattGetBatteryMaxChargingCurrent
      (SimBattSetInformation DevExt BatteryTag BatteryChargingSource
        (some ChargingSource)).DevExt).Status = STATUS_SUCCESS ∧
    (SimBattGetBatteryMaxChargingCurrent
      (SimBattSetInformation DevExt BatteryTag BatteryChargingSource
        (some ChargingSource)).DevExt).MaxChargingCurrent = ChargingSource.MaxCurrent ∧
    (SimBattGetBatteryMaxChargingCurrent initialDevExt).Status = STATUS_SUCCESS ∧
    (SimBattGetBatteryMaxChargingCurrent initialDevExt).MaxChargingCurrent =
      UNKNOWN_CURRENT := by
  refine ⟨rfl, rfl, ?_, rfl, rfl⟩
  obtain ⟨c, hc, _, _, hm⟩ := setInformation_success DevExt BatteryTag BatteryChargingSource
    (some ChargingSource) hset
  cases hc
  exact hm

theorem max_charging_current_passthrough_witness :
    (SimBattSetInformation initialDevExt 1 BatteryChargingSource
        (some sampleSource)).Status = STATUS_SUCCESS ∧
      (SimBattGetBatteryMaxChargingCurrent
        (SimBattSetInformation initialDevExt 1 BatteryChargingSource
          (some sampleSource)).DevExt).MaxChargingCurrent = 1500 :=
  ⟨rfl, (max_charging_current_passthrough initialDevExt 1 sampleSource rfl).2.2.1⟩

/-! ## Instance creation -/

/-- C25: `SimBattPrepareHardware` on the zero-initialised record leaves capacity
100, power state `BATTERY_POWER_ON_LINE` and nothing else, voltage
`BATTERY_UNKNOWN_VOLTAGE`, rate 0, capabilities `BATTERY_SYSTEM_BATTERY` and
nothing else, technology 1, chemistry 'F', 'a', 'k', 'e', designed and full
charged capacity 100, both alerts 0, critical bias 0, cycle count 100,
`MaxCurrentDraw` `UNKNOWN_CURRENT`, temperature 2931, the four placeholder
strings ("SimulatedBattery", "Microsoft Corp", "0000",
"SimulatedBattery0000", each followed by a terminator) and the tag
`BATTERY_TAG_INVALID + 1`. -/
theorem initial_defaults :
    initialDevExt = (SimBattPrepareHardware zeroDevExt).DevExt ∧
    initialDevExt.State.BatteryStatus =
      { PowerState := BATTERY_POWER_ON_LINE, Capacity := 100
        Voltage := BATTERY_UNKNOWN_VOLTAGE, Rate := 0 } ∧
    initialDevExt.State.BatteryInfo =
      { Capabilities := BATTERY_SYSTEM_BATTERY, Technology := 1
        Reserved0 := 0, Reserved1 := 0, Reserved2 := 0
        Chemistry0 := 'F'.toNat, Chemistry1 := 'a'.toNat, Chemistry2 := 'k'.toNat
        Chemistry3 := 'e'.toNat
        DesignedCapacity := 100, FullChargedCapacity := 100, DefaultAlert1 := 0
        DefaultAlert2 := 0, CriticalBias := 0, CycleCount := 100 } ∧
    initialDevExt.State.MaxCurrentDraw = UNKNOWN_CURRENT ∧
    initialDevExt.State.Temperature = 2931 ∧
    storedString initialDevExt.State.DeviceName = wideLiteral "SimulatedBattery" ∧
    storedString initialDevExt.State.ManufacturerName = wideLiteral "Microsoft Corp" ∧
    storedString initialDevExt.State.SerialNumber = wideLiteral "0000" ∧
    storedString initialDevExt.State.UniqueId = wideLiteral "SimulatedBattery0000" ∧
    initialDevExt.State.DeviceName =
      DEFAULT_NAME ++ List.replicate (MAX_BATTERY_STRING_SIZE - DEFAULT_NAME.length) 0 ∧
    initialDevExt.State.ManufacturerName =
      DEFAULT_MANUFACTURER ++
        List.replicate (MAX_BATTERY_STRING_SIZE - DEFAULT_MANUFACTURER.length) 0 ∧
    initialDevExt.State.SerialNumber =
      DEFAULT_SERIALNO ++ List.replicate (MAX_BATTERY_STRING_SIZE - DEFAULT_SERIALNO.length) 0 ∧
    initialDevExt.State.UniqueId =
      DEFAULT_UNIQUEID ++ List.replicate (MAX_BATTERY_STRING_SIZE - DEFAULT_UNIQUEID.length) 0 ∧
    initialDevExt.BatteryTag = BATTERY_TAG_INVALID + 1 := by
  refine ⟨rfl, rfl, rfl, rfl, rfl, ?_, ?_, ?_, ?_, ?_, ?_, ?_, ?_, rfl⟩ <;> decide

/-! ## Operations that are not supported -/

/-- C26: for every state, `SimBattDisableStatusNotify` ends with
`STATUS_NOT_SUPPORTED`; `SimBattSetStatusNotify` (which never looks at the
notify record) ends with `STATUS_NOT_SUPPORTED` when the presented tag is the
current one and with `STATUS_NO_SUCH_DEVICE` when it is not;
`SimBattSetInformation` with the current tag ends with `STATUS_NOT_SUPPORTED`
for every level other than `BatteryChargingSource` that comes with a payload,
and with `STATUS_INVALID_PARAMETER_4` (an "invalid parameter" status) for a
null payload at any level. None of these calls changes the device extension
or notifies. -/
theorem unsupported_operations (DevExt : SIMBATT_FDO_DATA) (BatteryTag : Nat)
    (Level : BATTERY_SET_INFORMATION_LEVEL) (ChargingSource : BATTERY_CHARGING_SOURCE) :
    SimBattDisableStatusNotify DevExt =
      { Status := STATUS_NOT_SUPPORTED, DevExt := DevExt, Events := [] } ∧
    SimBattSetStatusNotify DevExt DevExt.BatteryTag =
      { Status := STATUS_NOT_SUPPORTED, DevExt := DevExt
        Events := [LockAcquire, StateAccess, LockRelease] } ∧
    (BatteryTag ≠ DevExt.BatteryTag →
      SimBattSetStatusNotify DevExt BatteryTag =
        { Status := STATUS_NO_SUCH_DEVICE, DevExt := DevExt
          Events := [LockAcquire, StateAccess, LockRelease] }) ∧
    (Level ≠ BatteryChargingSource →
      SimBattSetInformation DevExt DevExt.BatteryTag Level (some ChargingSource) =
        { Status := STATUS_NOT_SUPPORTED, DevExt := DevExt
          Events := [LockAcquire, StateAccess, LockRelease] }) ∧
    SimBattSetInformation DevExt DevExt.BatteryTag Level none =
      { Status := STATUS_INVALID_PARAMETER_4, DevExt := DevExt
        Events := [LockAcquire, StateAccess, LockRelease] } ∧
    errorKind STATUS_NOT_SUPPORTED = some ErrorKind.UnsupportedOperation ∧
    errorKind STATUS_NO_SUCH_DEVICE = some ErrorKind.NoSuchDevice ∧
    errorKind STATUS_INVALID_PARAMETER_4 = some ErrorKind.InvalidParameter := by
  refine ⟨rfl, ?_, fun hne => ?_, fun hne => ?_, ?_, rfl, rfl, rfl⟩
  · unfold SimBattSetStatusNotify
    rw [if_neg (fun h => h rfl)]
  · unfold SimBattSetStatusNotify
    rw [if_pos hne]
  · unfold SimBattSetInformation
    rw [if_neg (fun h => h rfl)]
    simp only [hne, if_false]
  · unfold SimBattSetInformation
    rw [if_neg (fun h => h rfl)]

/-! ## Levels outside the switch -/

/-- C27, as stated, fails: on a freshly created instance, with the current
tag, a query at a level the switch does not name ends with
`STATUS_INVALID_PARAMETER`, whereas the query for the manufacture date, a
recognised level without data, ends with `STATUS_INVALID_DEVICE_REQUEST`: two
statuses, and two error kinds, "invalid parameter" and "unsupported level". -/
theorem unknown_level_status_differs :
    (SimBattQueryInformation initialDevExt initialDevExt.BatteryTag
      (BATTERY_QUERY_INFORMATION_LEVEL.other 99) 0 (some sampleBuffer) 40 99).Status =
        STATUS_INVALID_PARAMETER ∧
    (SimBattQueryInformation initialDevExt initialDevExt.BatteryTag
      BatteryManufactureDate 0 (some sampleBuffer) 40 99).Status =
        STATUS_INVALID_DEVICE_REQUEST ∧
    errorKind (SimBattQueryInformation initialDevExt initialDevExt.BatteryTag
      (BATTERY_QUERY_INFORMATION_LEVEL.other 99) 0 (some sampleBuffer) 40 99).Status =
        some ErrorKind.InvalidParameter ∧
    errorKind (SimBattQueryInformation initialDevExt initialDevExt.BatteryTag
      BatteryManufactureDate 0 (some sampleBuffer) 40 99).Status =
        some ErrorKind.UnsupportedLevel ∧
    (SimBattQueryInformation initialDevExt initialDevExt.BatteryTag
      (BATTERY_QUERY_INFORMATION_LEVEL.other 99) 0 (some sampleBuffer) 40 99).Status ≠
    (SimBattQueryInformation initialDevExt initialDevExt.BatteryTag
      BatteryManufactureDate 0 (some sampleBuffer) 40 99).Status := by
  have h1 : (SimBattQueryInformation initialDevExt initialDevExt.BatteryTag
      (BATTERY_QUERY_INFORMATION_LEVEL.other 99) 0 (some sampleBuffer) 40 99).Status =
        STATUS_INVALID_PARAMETER := rfl
  have h2 : (SimBattQueryInformation initialDevExt initialDevExt.BatteryTag
      BatteryManufactureDate 0 (some sampleBuffer) 40 99).Status =
        STATUS_INVALID_DEVICE_REQUEST := rfl
  refine ⟨h1, h2, ?_, ?_, ?_⟩
  · rw [h1]
    rfl
  · rw [h2]
    rfl
  · rw [h1, h2]
    decide

/-- C27, amended: for every state, with the current tag, a query at a level
the switch does not name ends with `STATUS_INVALID_PARAMETER` (the "invalid
parameter" kind, not the status of a recognised level without data), sets
the returned length to 0 and leaves the caller's buffer and the device
extension as they were, for every buffer and every capacity. -/
theorem unknown_level_rejected (DevExt : SIMBATT_FDO_DATA) (value : Nat) (AtRate : Int)
    (Buffer : Option (List Nat)) (BufferLength ReturnedLength : Nat) :
    SimBattQueryInformation DevExt DevExt.BatteryTag
        (BATTERY_QUERY_INFORMATION_LEVEL.other value) AtRate Buffer BufferLength
        ReturnedLength =
      { Status := STATUS_INVALID_PARAMETER, Buffer := Buffer, ReturnedLength := 0
        DevExt := DevExt, Events := [LockAcquire, StateAccess, LockRelease] } ∧
    errorKind STATUS_INVALID_PARAMETER = some ErrorKind.InvalidParameter := by
  refine ⟨?_, rfl⟩
  unfold SimBattQueryInformation
  rw [if_neg (fun h => h rfl)]
  rfl

/-! ## Queries are pure reads -/

/-- C28: for every state and every argument combination, `SimBattQueryInformation`,
`SimBattQueryStatus` and `SimBattQueryTag` leave the device extension (state
and tag) as it was, whatever status they end with; and the same query asked
again on the state the first one left gives the same result. -/
theorem queries_are_pure_reads (DevExt : SIMBATT_FDO_DATA) (BatteryTag : Nat)
    (Level : BATTERY_QUERY_INFORMATION_LEVEL) (AtRate : Int) (Buffer : Option (List Nat))
    (BufferLength ReturnedLength : Nat) (BatteryStatus : BATTERY_STATUS) :
    (SimBattQueryInformation DevExt BatteryTag Level AtRate Buffer BufferLength
      ReturnedLength).DevExt = DevExt ∧
    (SimBattQueryStatus DevExt BatteryTag BatteryStatus).DevExt = DevExt ∧
    (SimBattQueryTag DevExt).DevExt = DevExt ∧
    SimBattQueryInformation
        (SimBattQueryInformation DevExt BatteryTag Level AtRate Buffer BufferLength
          ReturnedLength).DevExt
        BatteryTag Level AtRate Buffer BufferLength ReturnedLength =
      SimBattQueryInformation DevExt BatteryTag Level AtRate Buffer BufferLength
        ReturnedLength ∧
    SimBattQueryStatus (SimBattQueryStatus DevExt BatteryTag BatteryStatus).DevExt BatteryTag
        BatteryStatus =
      SimBattQueryStatus DevExt BatteryTag BatteryStatus ∧
    SimBattQueryTag (SimBattQueryTag DevExt).DevExt = SimBattQueryTag DevExt := by
  have hq := (queryInformation_frame DevExt BatteryTag Level AtRate Buffer BufferLength
    ReturnedLength).1
  have hs := (queryStatus_frame DevExt BatteryTag BatteryStatus).1
  refine ⟨hq, hs, rfl, ?_, ?_, rfl⟩
  · rw [hq]
  · rw [hs]

/-! ## The stored granularity table -/

theorem setBatteryInformation_granularity (DevExt : SIMBATT_FDO_DATA)
    (Information : BATTERY_INFORMATION) :
    (SimBattSetBatteryInformation DevExt Information).DevExt.State.GranularityScale =
        DevExt.State.GranularityScale ∧
      (SimBattSetBatteryInformation DevExt Information).DevExt.State.GranularityCount =
        DevExt.State.GranularityCount := by
  unfold SimBattSetBatteryInformation
  dsimp only
  split
  · exact ⟨rfl, rfl⟩
  · split
    · exact ⟨rfl, rfl⟩
    · simp only [updateTag_state, and_self]

theorem setBatteryManufactureDate_granularity (DevExt : SIMBATT_FDO_DATA)
    (ManufactureDate : BATTERY_MANUFACTURE_DATE) :
    (SimBattSetBatteryManufactureDate DevExt ManufactureDate).DevExt.State.GranularityScale =
        DevExt.State.GranularityScale ∧
      (SimBattSetBatteryManufactureDate DevExt ManufactureDate).DevExt.State.GranularityCount =
        DevExt.State.GranularityCount := by
  rcases setBatteryManufactureDate_eq DevExt ManufactureDate with ⟨_, e⟩ | ⟨_, _, _, e⟩
  · rw [e]
    exact ⟨rfl, rfl⟩
  · rw [e]
    exact ⟨rfl, rfl⟩

theorem scaleAt_set (Table : List BATTERY_REPORTING_SCALE) (k i : Nat)
    (Entry : BATTERY_REPORTING_SCALE) (hk : k < Table.length) :
    scaleAt (Table.set k Entry) i = if i = k then Entry else scaleAt Table i := by
  unfold scaleAt
  by_cases h : i = k
  · subst h
    simp only [if_true, List.getD_eq_getElem?_getD, List.getElem?_set_self hk, Option.getD_some]
  · simp only [h, if_false, List.getD_eq_getElem?_getD, ne_eq, Ne.symm h, not_false_eq_true,
      List.getElem?_set_ne]

theorem scaleAt_scaleCopy (Table Scale : List BATTERY_REPORTING_SCALE) :
    ∀ k : Nat, k ≤ Table.length → ∀ i : Nat, i < k →
      scaleAt (scaleCopy Table Scale k) i = scaleAt Scale i := by
  intro k
  induction k with
  | zero => intro _ i hi; omega
  | succ k ih =>
    intro hk i hi
    rw [scaleCopy_succ, scaleAt_set _ _ _ _ (by rw [scaleCopy_length]; omega)]
    by_cases h : i = k
    · rw [if_pos h, h]
    · rw [if_neg h]
      exact ih (by omega) i (by omega)

theorem scaleOutOfOrder_scaleCopy (Table Scale : List BATTERY_REPORTING_SCALE) (k : Nat)
    (hk : k ≤ Table.length) (h : scaleOutOfOrder Scale k = false) :
    scaleOutOfOrder (scaleCopy Table Scale k) k = false := by
  rw [scaleOutOfOrder_iff] at h ⊢
  intro i h1 h2
  rw [scaleAt_scaleCopy Table Scale k hk (i - 1) (by omega),
    scaleAt_scaleCopy Table Scale k hk i h2]
  exact h i h1 h2

theorem request_apply_table (DevExt : SIMBATT_FDO_DATA) (r : Request)
    (hlen : DevExt.State.GranularityScale.length = 4)
    (hcount : DevExt.State.GranularityCount ≤ 4)
    (hord : scaleOutOfOrder DevExt.State.GranularityScale DevExt.State.GranularityCount = false) :
    (r.apply DevExt).State.GranularityScale.length = 4 ∧
      (r.apply DevExt).State.GranularityCount ≤ 4 ∧
      scaleOutOfOrder (r.apply DevExt).State.GranularityScale
        (r.apply DevExt).State.GranularityCount = false := by
  have same : ∀ D : SIMBATT_FDO_DATA,
      D.State.GranularityScale = DevExt.State.GranularityScale →
      D.State.GranularityCount = DevExt.State.GranularityCount →
      D.State.GranularityScale.length = 4 ∧ D.State.GranularityCount ≤ 4 ∧
        scaleOutOfOrder D.State.GranularityScale D.State.GranularityCount = false := by
    intro D h1 h2
    rw [h1, h2]
    exact ⟨hlen, hcount, hord⟩
  rcases request_tag_and_static DevExt r with ⟨⟨hs, hst⟩, _⟩ | ⟨_, _, hsd⟩
  · cases r with
    | SetBatteryInformation Information =>
      exact same _ (setBatteryInformation_granularity DevExt Information).1
        (setBatteryInformation_granularity DevExt Information).2
    | SetBatteryManufactureDate ManufactureDate =>
      exact same _ (setBatteryManufactureDate_granularity DevExt ManufactureDate).1
        (setBatteryManufactureDate_granularity DevExt ManufactureDate).2
    | SetBatteryGranularityScale Scale ScaleCount =>
      rcases setBatteryGranularityScale_eq DevExt Scale ScaleCount with
        ⟨_, e⟩ | ⟨⟨h4, ho⟩, _, _, e⟩
      · rw [show Request.outcome DevExt (.SetBatteryGranularityScale Scale ScaleCount) =
          SimBattSetBatteryGranularityScale DevExt Scale ScaleCount from rfl, e] at hst
        cases hst
      · show (SimBattSetBatteryGranularityScale _ _ _).DevExt.State.GranularityScale.length = 4 ∧
          (SimBattSetBatteryGranularityScale _ _ _).DevExt.State.GranularityCount ≤ 4 ∧
          scaleOutOfOrder (SimBattSetBatteryGranularityScale _ _ _).DevExt.State.GranularityScale
            (SimBattSetBatteryGranularityScale _ _ _).DevExt.State.GranularityCount = false
        rw [e]
        refine ⟨?_, h4, ?_⟩
        · show (scaleCopy _ _ _).length = 4
          rw [scaleCopy_length, hlen]
        · exact scaleOutOfOrder_scaleCopy _ _ _ (by rw [hlen]; exact h4) ho
    | QueryTag => cases hs
    | QueryInformation _ _ _ _ _ _ => cases hs
    | QueryStatus _ _ => cases hs
    | SetStatusNotify _ => cases hs
    | DisableStatusNotify => cases hs
    | SetInformation _ _ _ => cases hs
    | SetBatteryStatus _ => cases hs
    | GetBatteryMaxChargingCurrent => cases hs
    | SetBatteryEstimatedTime _ => cases hs
  · exact same _ (congrArg StaticData.GranularityScale hsd)
      (congrArg StaticData.GranularityCount hsd)

theorem runRequests_table (Requests : List Request) :
    ∀ DevExt : SIMBATT_FDO_DATA,
      DevExt.State.GranularityScale.length = 4 →
      DevExt.State.GranularityCount ≤ 4 →
      scaleOutOfOrder DevExt.State.GranularityScale DevExt.State.GranularityCount = false →
      (runRequests DevExt Requests).State.GranularityScale.length = 4 ∧
        (runRequests DevExt Requests).State.GranularityCount ≤ 4 ∧
        scaleOutOfOrder (runRequests DevExt Requests).State.GranularityScale
          (runRequests DevExt Requests).State.GranularityCount = false := by
  induction Requests with
  | nil => exact fun _ h1 h2 h3 => ⟨h1, h2, h3⟩
  | cons r rs ih =>
    intro DevExt h1 h2 h3
    obtain ⟨g1, g2, g3⟩ := request_apply_table DevExt r h1 h2 h3
    exact ih (r.apply DevExt) g1 g2 g3

/-- C29: in every state reached from instance creation by any sequence of
requests, the stored granularity table has its four entries, the stored count
is at most 4, and among the first `count` stored entries the capacity of entry
`i` is above the capacity of entry `i - 1` for every `1 ≤ i < count`. The
state of `threeEntryDevExt` holds three such entries. -/
theorem granularity_table_invariant (Requests : List Request) :
    (runRequests initialDevExt Requests).State.GranularityScale.length = 4 ∧
    (runRequests initialDevExt Requests).State.GranularityCount ≤ 4 ∧
    (∀ i : Nat, 1 ≤ i → i < (runRequests initialDevExt Requests).State.GranularityCount →
      ((runRequests initialDevExt Requests).State.GranularityScale.getD (i - 1)
          { Granularity := 0, Capacity := 0 }).Capacity <
        ((runRequests initialDevExt Requests).State.GranularityScale.getD i
          { Granularity := 0, Capacity := 0 }).Capacity) ∧
    threeEntryDevExt.State.GranularityCount = 3 ∧
    (threeEntryDevExt.State.GranularityScale.map fun Entry => Entry.Capacity) =
      [10, 20, 30, 0] := by
  obtain ⟨h1, h2, h3⟩ := runRequests_table Requests initialDevExt rfl (by decide) (by decide)
  exact ⟨h1, h2, (scaleOutOfOrder_iff _ _).mp h3, rfl, rfl⟩

/-! ## Lock discipline -/

theorem request_outcome_events (DevExt : SIMBATT_FDO_DATA) (r : Request) :
    (r.outcome DevExt).Events = [] ∨
      (r.outcome DevExt).Events = [StateAccess] ∨
      (r.outcome DevExt).Events = [LockAcquire, StateAccess, LockRelease] ∨
      (r.outcome DevExt).Events = [LockAcquire, StateAccess, LockRelease, StatusNotify] := by
  cases r with
  | QueryTag => exact Or.inr (Or.inr (Or.inl rfl))
  | QueryInformation BatteryTag Level AtRate Buffer BufferLength ReturnedLength =>
    exact Or.inr (Or.inr (Or.inl (queryInformation_frame _ _ _ _ _ _ _).2))
  | QueryStatus BatteryTag BatteryStatus =>
    exact Or.inr (Or.inr (Or.inl (queryStatus_frame _ _ _).2))
  | SetStatusNotify BatteryTag =>
    exact Or.inr (Or.inr (Or.inl (setStatusNotify_frame _ _).2.1))
  | DisableStatusNotify => exact Or.inl rfl
  | SetInformation BatteryTag Level Buffer =>
    exact Or.inr (Or.inr (Or.inl (setInformation_frame _ _ _ _).1))
  | SetBatteryStatus BatteryStatus =>
    show (SimBattSetBatteryStatus DevExt BatteryStatus).Events = _ ∨
      (SimBattSetBatteryStatus DevExt BatteryStatus).Events = _ ∨
      (SimBattSetBatteryStatus DevExt BatteryStatus).Events = _ ∨
      (SimBattSetBatteryStatus DevExt BatteryStatus).Events = _
    rcases setBatteryStatus_eq DevExt BatteryStatus with ⟨_, e⟩ | ⟨_, e⟩
    · rw [e]
      exact Or.inl rfl
    · rw [e]
      exact Or.inr (Or.inr (Or.inr rfl))
  | SetBatteryInformation Information =>
    show (SimBattSetBatteryInformation DevExt Information).Events = _ ∨
      (SimBattSetBatteryInformation DevExt Information).Events = _ ∨
      (SimBattSetBatteryInformation DevExt Information).Events = _ ∨
      (SimBattSetBatteryInformation DevExt Information).Events = _
    rcases setBatteryInformation_eq DevExt Information with ⟨_, e⟩ | ⟨_, _, e⟩
    · rw [e]
      exact Or.inl rfl
    · exact Or.inr (Or.inr (Or.inr e))
  | GetBatteryMaxChargingCurrent => exact Or.inr (Or.inl rfl)
  | SetBatteryManufactureDate ManufactureDate =>
    show (SimBattSetBatteryManufactureDate DevExt ManufactureDate).Events = _ ∨
      (SimBattSetBatteryManufactureDate DevExt ManufactureDate).Events = _ ∨
      (SimBattSetBatteryManufactureDate DevExt ManufactureDate).Events = _ ∨
      (SimBattSetBatteryManufactureDate DevExt ManufactureDate).Events = _
    rcases setBatteryManufactureDate_eq DevExt ManufactureDate with ⟨_, e⟩ | ⟨_, _, e, _⟩
    · rw [e]
      exact Or.inl rfl
    · exact Or.inr (Or.inr (Or.inl e))
  | SetBatteryGranularityScale Scale ScaleCount =>
    show (SimBattSetBatteryGranularityScale DevExt Scale ScaleCount).Events = _ ∨
      (SimBattSetBatteryGranularityScale DevExt Scale ScaleCount).Events = _ ∨
      (SimBattSetBatteryGranularityScale DevExt Scale ScaleCount).Events = _ ∨
      (SimBattSetBatteryGranularityScale DevExt Scale ScaleCount).Events = _
    rcases setBatteryGranularityScale_eq DevExt Scale ScaleCount with ⟨_, e⟩ | ⟨_, _, e, _⟩
    · rw [e]
      exact Or.inl rfl
    · exact Or.inr (Or.inr (Or.inl e))
  | SetBatteryEstimatedTime EstimatedTime => exact Or.inr (Or.inr (Or.inl rfl))

/-- C30: on every successful path of `SimBattSetBatteryStatus` and of
`SimBattSetBatteryInformation` the effects come in the order: take the lock,
write the fields (for the information record the tag is advanced here too),
release the lock, call `BatteryClassStatusNotify`; and for every request and
every state, no notification falls between a lock acquisition and its release
(an order with the notification before the release would be caught by the
test). -/
theorem notify_after_lock_release (DevExt : SIMBATT_FDO_DATA) (BatteryStatus : BATTERY_STATUS)
    (Information : BATTERY_INFORMATION) (r : Request) :
    ((SimBattSetBatteryStatus DevExt BatteryStatus).Status = STATUS_SUCCESS →
      (SimBattSetBatteryStatus DevExt BatteryStatus).Events =
        [LockAcquire, StateAccess, LockRelease, StatusNotify]) ∧
    ((SimBattSetBatteryInformation DevExt Information).Status = STATUS_SUCCESS →
      (SimBattSetBatteryInformation DevExt Information).Events =
        [LockAcquire, StateAccess, LockRelease, StatusNotify]) ∧
    notifiesUnlocked false (SimBattSetBatteryStatus DevExt BatteryStatus).Events = true ∧
    notifiesUnlocked false (SimBattSetBatteryInformation DevExt Information).Events = true ∧
    notifiesUnlocked false (r.outcome DevExt).Events = true ∧
    notifiesUnlocked false [LockAcquire, StateAccess, StatusNotify, LockRelease] = false := by
  have all : ∀ q : Request, notifiesUnlocked false (q.outcome DevExt).Events = true := by
    intro q
    rcases request_outcome_events DevExt q with e | e | e | e <;> rw [e] <;> rfl
  refine ⟨?_, ?_, all (.SetBatteryStatus BatteryStatus), all (.SetBatteryInformation Information),
    all r, rfl⟩
  · intro hs
    rcases setBatteryStatus_eq DevExt BatteryStatus with ⟨_, e⟩ | ⟨_, e⟩
    · rw [e] at hs
      cases hs
    · rw [e]
  · intro hs
    rcases setBatteryInformation_eq DevExt Information with ⟨_, e⟩ | ⟨_, _, e⟩
    · rw [e] at hs
      cases hs
    · exact e

/-! ## Locking discipline -/

theorem request_outcome_events_locked (DevExt : SIMBATT_FDO_DATA) (r : Request)
    (hr : r ≠ .GetBatteryMaxChargingCurrent) :
    (r.outcome DevExt).Events = [] ∨
      (r.outcome DevExt).Events = [LockAcquire, StateAccess, LockRelease] ∨
      (r.outcome DevExt).Events = [LockAcquire, StateAccess, LockRelease, StatusNotify] := by
  cases r with
  | QueryTag => exact Or.inr (Or.inl rfl)
  | QueryInformation BatteryTag Level AtRate Buffer BufferLength ReturnedLength =>
    exact Or.inr (Or.inl (queryInformation_frame _ _ _ _ _ _ _).2)
  | QueryStatus BatteryTag BatteryStatus =>
    exact Or.inr (Or.inl (queryStatus_frame _ _ _).2)
  | SetStatusNotify BatteryTag =>
    exact Or.inr (Or.inl (setStatusNotify_frame _ _).2.1)
  | DisableStatusNotify => exact Or.inl rfl
  | SetInformation BatteryTag Level Buffer =>
    exact Or.inr (Or.inl (setInformation_frame _ _ _ _).1)
  | SetBatteryStatus BatteryStatus =>
    show (SimBattSetBatteryStatus DevExt BatteryStatus).Events = _ ∨
      (SimBattSetBatteryStatus DevExt BatteryStatus).Events = _ ∨
      (SimBattSetBatteryStatus DevExt BatteryStatus).Events = _
    rcases setBatteryStatus_eq DevExt BatteryStatus with ⟨_, e⟩ | ⟨_, e⟩
    · rw [e]
      exact Or.inl rfl
    · rw [e]
      exact Or.inr (Or.inr rfl)
  | SetBatteryInformation Information =>
    show (SimBattSetBatteryInformation DevExt Information).Events = _ ∨
      (SimBattSetBatteryInformation DevExt Information).Events = _ ∨
      (SimBattSetBatteryInformation DevExt Information).Events = _
    rcases setBatteryInformation_eq DevExt Information with ⟨_, e⟩ | ⟨_, _, e⟩
    · rw [e]
      exact Or.inl rfl
    · exact Or.inr (Or.inr e)
  | GetBatteryMaxChargingCurrent => exact absurd rfl hr
  | SetBatteryManufactureDate ManufactureDate =>
    show (SimBattSetBatteryManufactureDate DevExt ManufactureDate).Events = _ ∨
      (SimBattSetBatteryManufactureDate DevExt ManufactureDate).Events = _ ∨
      (SimBattSetBatteryManufactureDate DevExt ManufactureDate).Events = _
    rcases setBatteryManufactureDate_eq DevExt ManufactureDate with ⟨_, e⟩ | ⟨_, _, e, _⟩
    · rw [e]
      exact Or.inl rfl
    · exact Or.inr (Or.inl e)
  | SetBatteryGranularityScale Scale ScaleCount =>
    show (SimBattSetBatteryGranularityScale DevExt Scale ScaleCount).Events = _ ∨
      (SimBattSetBatteryGranularityScale DevExt Scale ScaleCount).Events = _ ∨
      (SimBattSetBatteryGranularityScale DevExt Scale ScaleCount).Events = _
    rcases setBatteryGranularityScale_eq DevExt Scale ScaleCount with ⟨_, e⟩ | ⟨_, _, e, _⟩
    · rw [e]
      exact Or.inl rfl
    · exact Or.inr (Or.inl e)
  | SetBatteryEstimatedTime EstimatedTime => exact Or.inr (Or.inl rfl)

/-- C31: `SimBattGetBatteryMaxChargingCurrent` reads `DevExt->State.MaxCurrentDraw`
without taking the state lock: in every state its only effect is one access to
the state with no acquisition before it and no release after it, so it breaks
the locking discipline, also when it is reached through
`IOCTL_SIMBATT_GET_MAXCHARGINGCURRENT`. Every other request keeps the
discipline on every path: each access to a field of the state or to the tag
lies between an acquisition of the lock and its release, and each acquisition
is followed by one release before the routine returns (the paths that reject a
payload return before they touch the lock or the state). -/
theorem max_charging_current_read_unlocked (DevExt : SIMBATT_FDO_DATA) (r : Request) :
    (SimBattGetBatteryMaxChargingCurrent DevExt).MaxChargingCurrent =
      DevExt.State.MaxCurrentDraw ∧
    (SimBattGetBatteryMaxChargingCurrent DevExt).Events = [StateAccess] ∧
    lockDiscipline false (SimBattGetBatteryMaxChargingCurrent DevExt).Events = false ∧
    lockDiscipline false
      (Request.outcome DevExt .GetBatteryMaxChargingCurrent).Events = false ∧
    lockDiscipline false
      (SimBattIoDeviceControl 8 DevExt [] [0, 0, 0, 0]
        IOCTL_SIMBATT_GET_MAXCHARGINGCURRENT).Events = false ∧
    (r ≠ .GetBatteryMaxChargingCurrent →
      lockDiscipline false (r.outcome DevExt).Events = true) := by
  refine ⟨rfl, rfl, rfl, rfl, rfl, fun hr => ?_⟩
  rcases request_outcome_events_locked DevExt r hr with e | e | e <;> rw [e] <;> rfl

/-! ## Frames of the mutations -/

theorem setBatteryStatus_state (DevExt : SIMBATT_FDO_DATA) (BatteryStatus : BATTERY_STATUS) :
    (SimBattSetBatteryStatus DevExt BatteryStatus).DevExt =
      { DevExt with
        State := { DevExt.State with
          BatteryStatus :=
            (SimBattSetBatteryStatus DevExt BatteryStatus).DevExt.State.BatteryStatus } } := by
  rcases setBatteryStatus_eq DevExt BatteryStatus with ⟨_, e⟩ | ⟨_, e⟩
  · rw [e]
  · rw [e]

theorem setBatteryInformation_state (DevExt : SIMBATT_FDO_DATA)
    (Information : BATTERY_INFORMATION) :
    (SimBattSetBatteryInformation DevExt Information).DevExt.State =
      { DevExt.State with
        BatteryInfo := (SimBattSetBatteryInformation DevExt Information).DevExt.State.BatteryInfo }
      := by
  unfold SimBattSetBatteryInformation
  dsimp only
  split
  · rfl
  · split
    · rfl
    · simp only [updateTag_state]

theorem setBatteryManufactureDate_state (DevExt : SIMBATT_FDO_DATA)
    (ManufactureDate : BATTERY_MANUFACTURE_DATE) :
    (SimBattSetBatteryManufactureDate DevExt ManufactureDate).DevExt.State =
      { DevExt.State with
        ManufactureDate :=
          (SimBattSetBatteryManufactureDate DevExt ManufactureDate).DevExt.State.ManufactureDate }
      := by
  rcases setBatteryManufactureDate_eq DevExt ManufactureDate with ⟨_, e⟩ | ⟨_, _, _, e⟩
  · rw [e]
  · rw [e]

theorem setBatteryGranularityScale_state (DevExt : SIMBATT_FDO_DATA)
    (Scale : List BATTERY_REPORTING_SCALE) (ScaleCount : Nat) :
    (SimBattSetBatteryGranularityScale DevExt Scale ScaleCount).DevExt.State =
      { DevExt.State with
        GranularityScale :=
          (SimBattSetBatteryGranularityScale DevExt Scale ScaleCount).DevExt.State.GranularityScale
        GranularityCount :=
          (SimBattSetBatteryGranularityScale DevExt Scale
            ScaleCount).DevExt.State.GranularityCount } := by
  rcases setBatteryGranularityScale_eq DevExt Scale ScaleCount with ⟨_, e⟩ | ⟨_, _, _, e⟩
  · rw [e]
  · rw [e]

theorem setInformation_state (DevExt : SIMBATT_FDO_DATA) (BatteryTag : Nat)
    (Level : BATTERY_SET_INFORMATION_LEVEL) (Buffer : Option BATTERY_CHARGING_SOURCE) :
    (SimBattSetInformation DevExt BatteryTag Level Buffer).DevExt =
      { DevExt with
        State := { DevExt.State with
          MaxCurrentDraw :=
            (SimBattSetInformation DevExt BatteryTag Level Buffer).DevExt.State.MaxCurrentDraw } }
      := by
  unfold SimBattSetInformation
  dsimp only
  split
  · rfl
  · split
    · rfl
    · split <;> rfl

/-! ## The stored manufacture date -/

theorem request_apply_date (DevExt : SIMBATT_FDO_DATA) (r : Request) :
    (r.apply DevExt).State.ManufactureDate = DevExt.State.ManufactureDate ∨
      ∃ d : BATTERY_MANUFACTURE_DATE, r = .SetBatteryManufactureDate d ∧
        manufactureDateRejected d = false ∧ (r.apply DevExt).State.ManufactureDate = d := by
  rcases request_tag_and_static DevExt r with ⟨⟨hs, hst⟩, _⟩ | ⟨_, _, hsd⟩
  · cases r with
    | SetBatteryInformation Information =>
      left
      show (SimBattSetBatteryInformation DevExt Information).DevExt.State.ManufactureDate = _
      rw [setBatteryInformation_state]
    | SetBatteryManufactureDate ManufactureDate =>
      rcases setBatteryManufactureDate_eq DevExt ManufactureDate with ⟨_, e⟩ | ⟨hv, _, _, e⟩
      · rw [show Request.outcome DevExt (.SetBatteryManufactureDate ManufactureDate) =
          SimBattSetBatteryManufactureDate DevExt ManufactureDate from rfl, e] at hst
        cases hst
      · right
        refine ⟨ManufactureDate, rfl, hv, ?_⟩
        show (SimBattSetBatteryManufactureDate DevExt ManufactureDate).DevExt.State.ManufactureDate
          = ManufactureDate
        rw [e]
    | SetBatteryGranularityScale Scale ScaleCount =>
      left
      show (SimBattSetBatteryGranularityScale DevExt Scale ScaleCount).DevExt.State.ManufactureDate
        = _
      rw [setBatteryGranularityScale_state]
    | QueryTag => cases hs
    | QueryInformation _ _ _ _ _ _ => cases hs
    | QueryStatus _ _ => cases hs
    | SetStatusNotify _ => cases hs
    | DisableStatusNotify => cases hs
    | SetInformation _ _ _ => cases hs
    | SetBatteryStatus _ => cases hs
    | GetBatteryMaxChargingCurrent => cases hs
    | SetBatteryEstimatedTime _ => cases hs
  · exact Or.inl (congrArg StaticData.ManufactureDate hsd)

theorem runRequests_date_valid (Requests : List Request) :
    ∀ DevExt : SIMBATT_FDO_DATA, DevExt.State.ManufactureDate.Valid →
      (runRequests DevExt Requests).State.ManufactureDate.Valid := by
  induction Requests with
  | nil => exact fun _ h => h
  | cons r rs ih =>
    intro DevExt h
    apply ih (r.apply DevExt)
    rcases request_apply_date DevExt r with e | ⟨d, _, hv, e⟩
    · rw [e]
      exact h
    · rw [e]
      exact (manufactureDateRejected_iff d).mp hv

theorem runRequests_date_year (Requests : List Request) :
    ∀ DevExt : SIMBATT_FDO_DATA, DevExt.State.ManufactureDate.Year < 2 ^ 16 →
      Requests.all Request.dateInType = true →
      (runRequests DevExt Requests).State.ManufactureDate.Year < 2 ^ 16 := by
  induction Requests with
  | nil => exact fun _ h _ => h
  | cons r rs ih =>
    intro DevExt h hall
    rw [List.all_cons, Bool.and_eq_true] at hall
    apply ih (r.apply DevExt) ?_ hall.2
    rcases request_apply_date DevExt r with e | ⟨d, hr, _, e⟩
    · rw [e]
      exact h
    · rw [e]
      have ht := hall.1
      rw [hr] at ht
      simp only [Request.dateInType, Bool.and_eq_true, decide_eq_true_eq] at ht
      exact ht.2

theorem queryInformation_success (DevExt : SIMBATT_FDO_DATA) (BatteryTag : Nat)
    (Level : BATTERY_QUERY_INFORMATION_LEVEL) (AtRate : Int) (Buffer : Option (List Nat))
    (BufferLength ReturnedLength : Nat)
    (h : (SimBattQueryInformation DevExt BatteryTag Level AtRate Buffer BufferLength
      ReturnedLength).Status = STATUS_SUCCESS)
    (hsrc : (QueryInformationSwitch DevExt.State Level AtRate).ReturnBuffer ≠ none) :
    ∃ Source Bytes : List Nat,
      QueryInformationSwitch DevExt.State Level AtRate =
        { Status := STATUS_SUCCESS, ReturnBuffer := some Source
          ReturnBufferLength :=
            (QueryInformationSwitch DevExt.State Level AtRate).ReturnBufferLength } ∧
      Buffer = some Bytes ∧
      (SimBattQueryInformation DevExt BatteryTag Level AtRate Buffer BufferLength
        ReturnedLength).Buffer =
        some (memcpy Bytes Source
          (QueryInformationSwitch DevExt.State Level AtRate).ReturnBufferLength) := by
  unfold SimBattQueryInformation at h ⊢
  dsimp only at h ⊢
  by_cases ht : BatteryTag ≠ DevExt.BatteryTag
  · rw [if_pos ht] at h
    cases h
  · rw [if_neg ht] at h ⊢
    cases hsel : QueryInformationSwitch DevExt.State Level AtRate with
    | mk Status ReturnBuffer ReturnBufferLength =>
      rw [hsel] at h hsrc
      dsimp only at h hsrc ⊢
      cases hst : NT_SUCCESS Status
      · rw [hst] at h
        simp only [Bool.false_eq_true, if_false] at h
        rw [h] at hst
        cases hst
      · rw [hst] at h
        simp only [if_true] at h ⊢
        cases ReturnBuffer with
        | none => exact absurd rfl hsrc
        | some Source =>
          cases Buffer with
          | none => cases h
          | some Bytes =>
            dsimp only at h ⊢
            by_cases hl : BufferLength < ReturnBufferLength
            · rw [if_pos hl] at h
              cases h
            · rw [if_neg hl] at h ⊢
              dsimp only at h
              subst h
              exact ⟨Source, Bytes, rfl, rfl, rfl⟩

/-- C32: in every state reached from instance creation by requests whose dates
fit the C types of their fields, the stored manufacture date satisfies the
data-model invariant (all three fields zero, or all three non-zero with month
at most 12 and day at most 31); so the test `Day != 0` of the query holds
exactly when year, month and day are all non-zero; and a
`BatteryManufactureDate` query that succeeds, whatever tag, buffer and
capacity it came with, hands out the stored date, whose year, month and day
are all non-zero. -/
theorem known_date_test (Requests : List Request) (BatteryTag : Nat) (AtRate : Int)
    (Buffer : Option (List Nat)) (BufferLength ReturnedLength : Nat)
    (htyped : Requests.all Request.dateInType = true) :
    (runRequests initialDevExt Requests).State.ManufactureDate.Valid ∧
    ((runRequests initialDevExt Requests).State.ManufactureDate.Day ≠ 0 ↔
      (runRequests initialDevExt Requests).State.ManufactureDate.Year ≠ 0 ∧
        (runRequests initialDevExt Requests).State.ManufactureDate.Month ≠ 0 ∧
        (runRequests initialDevExt Requests).State.ManufactureDate.Day ≠ 0) ∧
    ((SimBattQueryInformation (runRequests initialDevExt Requests) BatteryTag
        BatteryManufactureDate AtRate Buffer BufferLength ReturnedLength).Status =
          STATUS_SUCCESS →
      (runRequests initialDevExt Requests).State.ManufactureDate.Year ≠ 0 ∧
        (runRequests initialDevExt Requests).State.ManufactureDate.Month ≠ 0 ∧
        (runRequests initialDevExt Requests).State.ManufactureDate.Day ≠ 0 ∧
        ∃ Out : List Nat,
          (SimBattQueryInformation (runRequests initialDevExt Requests) BatteryTag
            BatteryManufactureDate AtRate Buffer BufferLength ReturnedLength).Buffer =
              some Out ∧
          BATTERY_MANUFACTURE_DATE.ofBytes (Out.take 4) =
            some (runRequests initialDevExt Requests).State.ManufactureDate) := by
  have hvalid := runRequests_date_valid Requests initialDevExt (Or.inl ⟨rfl, rfl, rfl⟩)
  have hyear := runRequests_date_year Requests initialDevExt (by decide) htyped
  have hall : (runRequests initialDevExt Requests).State.ManufactureDate.Day ≠ 0 →
      (runRequests initialDevExt Requests).State.ManufactureDate.Year ≠ 0 ∧
        (runRequests initialDevExt Requests).State.ManufactureDate.Month ≠ 0 ∧
        (runRequests initialDevExt Requests).State.ManufactureDate.Day ≠ 0 ∧
        (runRequests initialDevExt Requests).State.ManufactureDate.Month ≤ 12 ∧
        (runRequests initialDevExt Requests).State.ManufactureDate.Day ≤ 31 := by
    intro hd
    rcases hvalid with ⟨_, _, h0⟩ | h
    · exact absurd h0 hd
    · exact h
  refine ⟨hvalid, ⟨fun hd => ⟨(hall hd).1, (hall hd).2.1, hd⟩, fun h => h.2.2⟩, fun hs => ?_⟩
  have htag : ¬ BatteryTag ≠ (runRequests initialDevExt Requests).BatteryTag := by
    intro hne
    rw [queryInformation_stale _ _ _ _ _ _ _ hne] at hs
    cases hs
  have htag' := not_not.mp htag
  subst htag'
  have hd : (runRequests initialDevExt Requests).State.ManufactureDate.Day ≠ 0 := by
    intro h0
    rw [queryInformation_unavailable _ BatteryManufactureDate AtRate Buffer BufferLength
      ReturnedLength STATUS_INVALID_DEVICE_REQUEST
      (by simp only [QueryInformationSwitch, h0, ne_eq, not_true_eq_false, if_false]) rfl] at hs
    cases hs
  obtain ⟨hy, hm, -, hm12, hd31⟩ := hall hd
  have hsel : QueryInformationSwitch (runRequests initialDevExt Requests).State
      BatteryManufactureDate AtRate =
      { Status := STATUS_SUCCESS
        ReturnBuffer := some (runRequests initialDevExt Requests).State.ManufactureDate.bytes
        ReturnBufferLength := sizeof_BATTERY_MANUFACTURE_DATE } := by
    simp only [QueryInformationSwitch, ne_eq, hd, not_false_eq_true, if_true]
  obtain ⟨Source, Bytes, hsw, -, hout⟩ := queryInformation_success _ _ _ _ _ _ _ hs
    (by rw [hsel]; exact fun h => (by cases h))
  rw [hsel] at hsw hout
  have hsrc : Source = (runRequests initialDevExt Requests).State.ManufactureDate.bytes := by
    injection hsw with _ h2 _
    injection h2 with h2
    exact h2.symm
  subst hsrc
  exact ⟨hy, hm, hd, _, hout,
    manufactureDate_ofBytes_bytes _ (Bytes.drop 4) (by omega) (by omega) hyear⟩

theorem known_date_test_witness :
    [Request.SetBatteryManufactureDate sampleDate].all Request.dateInType = true ∧
      (SimBattQueryInformation (runRequests initialDevExt [.SetBatteryManufactureDate sampleDate])
        2 BatteryManufactureDate 0 (some sampleBuffer) 40 99).Status = STATUS_SUCCESS ∧
      (runRequests initialDevExt
        [.SetBatteryManufactureDate sampleDate]).State.ManufactureDate.Year ≠ 0 ∧
      (runRequests initialDevExt
        [.SetBatteryManufactureDate sampleDate]).State.ManufactureDate.Month ≠ 0 :=
  ⟨rfl, rfl,
    ((known_date_test [.SetBatteryManufactureDate sampleDate] 2 0 (some sampleBuffer) 40 99
      rfl).2.2 rfl).1,
    ((known_date_test [.SetBatteryManufactureDate sampleDate] 2 0 (some sampleBuffer) 40 99
      rfl).2.2 rfl).2.1⟩

/-! ## What no request changes -/

theorem reachable_text_selection (Requests : List Request)
    (Level : BATTERY_QUERY_INFORMATION_LEVEL) (Text : List Nat) (AtRate : Int)
    (h : placeholderString Level = some Text) :
    ∃ Source : List Nat,
      QueryInformationSwitch (runRequests initialDevExt Requests).State Level AtRate =
        { Status := STATUS_SUCCESS, ReturnBuffer := some Source
          ReturnBufferLength := 2 * Text.length + 2 } ∧
      2 * Text.length + 2 ≤ Source.length ∧
      2 * Text.length + 2 < 2 ^ 32 ∧
      Source.take (2 * Text.length + 2) = wcharBytes (Text ++ [0]) := by
  obtain ⟨e1, e2, e3, e4, -⟩ := runRequests_strings Requests initialDevExt
  cases Level <;> simp only [placeholderString, Option.some.injEq, reduceCtorEq] at h
  · subst h
    refine ⟨wcharBytes initialDevExt.State.DeviceName, ?_, ?_, by decide, rfl⟩
    swap
    · rw [wcharBytes_length, show initialDevExt.State.DeviceName.length = 128 from rfl]
      decide
    simp only [QueryInformationSwitch, e1]
    rfl
  · subst h
    refine ⟨wcharBytes initialDevExt.State.ManufacturerName, ?_, ?_, by decide, rfl⟩
    swap
    · rw [wcharBytes_length, show initialDevExt.State.ManufacturerName.length = 128 from rfl]
      decide
    simp only [QueryInformationSwitch, e2]
    rfl
  · subst h
    refine ⟨wcharBytes initialDevExt.State.UniqueId, ?_, ?_, by decide, rfl⟩
    swap
    · rw [wcharBytes_length, show initialDevExt.State.UniqueId.length = 128 from rfl]
      decide
    simp only [QueryInformationSwitch, e4]
    rfl
  · subst h
    refine ⟨wcharBytes initialDevExt.State.SerialNumber, ?_, ?_, by decide, rfl⟩
    swap
    · rw [wcharBytes_length, show initialDevExt.State.SerialNumber.length = 128 from rfl]
      decide
    simp only [QueryInformationSwitch, e3]
    rfl

/-- C33: each mutation leaves everything outside its own fields as it was,
whether it succeeds or is rejected: `SimBattSetBatteryStatus` changes at most the
status record (the tag stays), `SimBattSetBatteryInformation` at most the
information record and the tag, `SimBattSetBatteryManufactureDate` at most the
date and the tag, `SimBattSetBatteryGranularityScale` at most the table, its count
and the tag, `SimBattSetBatteryEstimatedTime` at most the estimated time (the tag
stays), the charging-source request of `SimBattSetInformation` at most
`MaxCurrentDraw` (the tag stays). No request changes the four text fields or
the temperature: in every state reached from instance creation the
temperature is 2931 and the temperature query, given 4 bytes or more, returns
it; and each text query, given room for the text and its terminator, returns
the placeholder string followed by the terminator. -/
theorem mutation_frames (DevExt : SIMBATT_FDO_DATA) (BatteryStatus : BATTERY_STATUS)
    (Information : BATTERY_INFORMATION) (ManufactureDate : BATTERY_MANUFACTURE_DATE)
    (Scale : List BATTERY_REPORTING_SCALE) (ScaleCount EstimatedTime BatteryTag : Nat)
    (Source : Option BATTERY_CHARGING_SOURCE) (Requests : List Request)
    (Level : BATTERY_QUERY_INFORMATION_LEVEL) (Text : List Nat) (AtRate : Int)
    (Bytes : List Nat) (BufferLength ReturnedLength : Nat)
    (htext : placeholderString Level = some Text)
    (hroom : 2 * Text.length + 2 ≤ BufferLength)
    (hlen : sizeof_ULONG ≤ BufferLength) :
    (SimBattSetBatteryStatus DevExt BatteryStatus).DevExt =
      { DevExt with
        State := { DevExt.State with
          BatteryStatus :=
            (SimBattSetBatteryStatus DevExt BatteryStatus).DevExt.State.BatteryStatus } } ∧
    (SimBattSetBatteryInformation DevExt Information).DevExt.State =
      { DevExt.State with
        BatteryInfo :=
          (SimBattSetBatteryInformation DevExt Information).DevExt.State.BatteryInfo } ∧
    (SimBattSetBatteryManufactureDate DevExt ManufactureDate).DevExt.State =
      { DevExt.State with
        ManufactureDate :=
          (SimBattSetBatteryManufactureDate DevExt
            ManufactureDate).DevExt.State.ManufactureDate } ∧
    (SimBattSetBatteryGranularityScale DevExt Scale ScaleCount).DevExt.State =
      { DevExt.State with
        GranularityScale :=
          (SimBattSetBatteryGranularityScale DevExt Scale ScaleCount).DevExt.State.GranularityScale
        GranularityCount :=
          (SimBattSetBatteryGranularityScale DevExt Scale
            ScaleCount).DevExt.State.GranularityCount } ∧
    (SimBattSetBatteryEstimatedTime DevExt EstimatedTime).DevExt =
      { DevExt with State := { DevExt.State with EstimatedTime := EstimatedTime } } ∧
    (SimBattSetInformation DevExt BatteryTag BatteryChargingSource Source).DevExt =
      { DevExt with
        State := { DevExt.State with
          MaxCurrentDraw :=
            (SimBattSetInformation DevExt BatteryTag BatteryChargingSource
              Source).DevExt.State.MaxCurrentDraw } } ∧
    (runRequests initialDevExt Requests).State.DeviceName = initialDevExt.State.DeviceName ∧
    (runRequests initialDevExt Requests).State.ManufacturerName =
      initialDevExt.State.ManufacturerName ∧
    (runRequests initialDevExt Requests).State.SerialNumber =
      initialDevExt.State.SerialNumber ∧
    (runRequests initialDevExt Requests).State.UniqueId = initialDevExt.State.UniqueId ∧
    (runRequests initialDevExt Requests).State.Temperature = 2931 ∧
    SimBattQueryInformation (runRequests initialDevExt Requests)
        (runRequests initialDevExt Requests).BatteryTag BatteryTemperature AtRate (some Bytes)
        BufferLength ReturnedLength =
      { Status := STATUS_SUCCESS, Buffer := some (le32 2931 ++ Bytes.drop 4)
        ReturnedLength := 4, DevExt := runRequests initialDevExt Requests
        Events := [LockAcquire, StateAccess, LockRelease] } ∧
    ∃ Out : List Nat,
      SimBattQueryInformation (runRequests initialDevExt Requests)
          (runRequests initialDevExt Requests).BatteryTag Level AtRate (some Bytes)
          BufferLength ReturnedLength =
        { Status := STATUS_SUCCESS, Buffer := some Out
          ReturnedLength := 2 * Text.length + 2
          DevExt := runRequests initialDevExt Requests
          Events := [LockAcquire, StateAccess, LockRelease] } ∧
      Out.take (2 * Text.length + 2) = wcharBytes (Text ++ [0]) ∧
      Out.drop (2 * Text.length + 2) = Bytes.drop (2 * Text.length + 2) := by
  obtain ⟨e1, e2, e3, e4, e5⟩ := runRequests_strings Requests initialDevExt
  have htemp : (runRequests initialDevExt Requests).State.Temperature = 2931 := e5.trans rfl
  refine ⟨setBatteryStatus_state _ _, setBatteryInformation_state _ _,
    setBatteryManufactureDate_state _ _, setBatteryGranularityScale_state _ _ _, rfl,
    setInformation_state _ _ _ _, e1, e2, e3, e4, htemp, ?_, ?_⟩
  · rw [queryInformation_copy _ BatteryTemperature AtRate Bytes BufferLength ReturnedLength
      (le32 (runRequests initialDevExt Requests).State.Temperature) sizeof_ULONG rfl hlen,
      htemp]
    rfl
  · obtain ⟨Src, hsel, hsrc, hn, htake⟩ := reachable_text_selection Requests Level Text AtRate
      htext
    refine ⟨memcpy Bytes Src (2 * Text.length + 2), ?_, ?_, memcpy_drop _ _ _ hsrc⟩
    · rw [queryInformation_copy _ Level AtRate Bytes BufferLength ReturnedLength Src _ hsel
        hroom, Nat.mod_eq_of_lt hn]
    · rw [memcpy_take _ _ _ hsrc, htake]

theorem mutation_frames_witness :
    placeholderString BatteryDeviceName = some DEFAULT_NAME ∧
      (SimBattQueryInformation (runRequests initialDevExt [.SetBatteryStatus sampleStatus])
        (runRequests initialDevExt [.SetBatteryStatus sampleStatus]).BatteryTag
        BatteryTemperature 0 (some sampleBuffer) 40 99).Buffer =
          some (le32 2931 ++ sampleBuffer.drop 4) :=
  ⟨rfl, congrArg QueryInformationResult.Buffer
    (mutation_frames initialDevExt sampleStatus sampleInformation sampleDate sampleScale 2
      1234 1 (some sampleSource) [.SetBatteryStatus sampleStatus] BatteryDeviceName DEFAULT_NAME
      0 sampleBuffer 40 99 rfl (by decide) (by decide)).2.2.2.2.2.2.2.2.2.2.2.1⟩

/-! ## Machine arithmetic of the estimated time -/

/-- C34: in "calculate" mode, for every stored capacity `c` and every effective
rate `r` (`AtRate` if not zero, otherwise the stored rate) with
`-2 ^ 31 < r < 0`, the value `SimBattQueryInformation` works out is
`((3600 * c) mod 2 ^ 32) / |r|`: the product wraps as a `ULONG`, the divisor
`-r` converted to `ULONG` is `|r|`, which is not zero and below `2 ^ 31`; the
value fits a `ULONG` and is what a query with a buffer of 4 bytes or more
hands out; and whenever `3600 * c < 2 ^ 32` it is the exact quotient
`3600 * c / |r|` rounded down. -/
theorem estimated_time_machine_arithmetic (DevExt : SIMBATT_FDO_DATA) (AtRate : Int)
    (Bytes : List Nat) (BufferLength ReturnedLength : Nat)
    (hcalc : DevExt.State.EstimatedTime = SIMBATT_RATE_CALCULATE)
    (hneg : effectiveRate DevExt.State AtRate < 0)
    (hlong : -2 ^ 31 < effectiveRate DevExt.State AtRate)
    (hlen : 4 ≤ BufferLength) :
    EstimatedTimeResultValue DevExt.State AtRate =
      ((3600 * DevExt.State.BatteryStatus.Capacity) % 2 ^ 32) /
        (effectiveRate DevExt.State AtRate).natAbs ∧
    ((-effectiveRate DevExt.State AtRate) % 2 ^ 32).toNat =
      (effectiveRate DevExt.State AtRate).natAbs ∧
    (effectiveRate DevExt.State AtRate).natAbs ≠ 0 ∧
    (effectiveRate DevExt.State AtRate).natAbs < 2 ^ 31 ∧
    EstimatedTimeResultValue DevExt.State AtRate < 2 ^ 32 ∧
    SimBattQueryInformation DevExt DevExt.BatteryTag BatteryEstimatedTime AtRate (some Bytes)
        BufferLength ReturnedLength =
      { Status := STATUS_SUCCESS
        Buffer := some (le32 (EstimatedTimeResultValue DevExt.State AtRate) ++ Bytes.drop 4)
        ReturnedLength := 4, DevExt := DevExt
        Events := [LockAcquire, StateAccess, LockRelease] } ∧
    ulongAt (le32 (EstimatedTimeResultValue DevExt.State AtRate) ++ Bytes.drop 4) 0 =
      EstimatedTimeResultValue DevExt.State AtRate ∧
    (3600 * DevExt.State.BatteryStatus.Capacity < 2 ^ 32 →
      EstimatedTimeResultValue DevExt.State AtRate =
        3600 * DevExt.State.BatteryStatus.Capacity /
          (effectiveRate DevExt.State AtRate).natAbs ∧
      ((EstimatedTimeResultValue DevExt.State AtRate : Nat) : Int) =
        (3600 * (DevExt.State.BatteryStatus.Capacity : Int)) /
          (-effectiveRate DevExt.State AtRate)) := by
  have hmag := long_magnitude _ hneg (le_of_lt hlong)
  have hval : EstimatedTimeResultValue DevExt.State AtRate =
      ((3600 * DevExt.State.BatteryStatus.Capacity) % 2 ^ 32) /
        (effectiveRate DevExt.State AtRate).natAbs := by
    rw [estimatedTime_calculate DevExt.State AtRate hcalc, if_pos hneg, hmag]
  have hlt : EstimatedTimeResultValue DevExt.State AtRate < 2 ^ 32 := by
    rw [hval]
    exact lt_of_le_of_lt (Nat.div_le_self _ _) (Nat.mod_lt _ (by norm_num))
  refine ⟨hval, hmag, by omega, by omega, hlt,
    queryEstimatedTime DevExt AtRate Bytes BufferLength ReturnedLength hlen, ?_, fun hfit => ?_⟩
  · rw [ulongAt_le32, Nat.mod_eq_of_lt hlt]
  · have hq : EstimatedTimeResultValue DevExt.State AtRate =
        3600 * DevExt.State.BatteryStatus.Capacity /
          (effectiveRate DevExt.State AtRate).natAbs := by
      rw [hval, Nat.mod_eq_of_lt hfit]
    refine ⟨hq, ?_⟩
    have habs : (-effectiveRate DevExt.State AtRate) =
        (((effectiveRate DevExt.State AtRate).natAbs : Nat) : Int) := by omega
    rw [hq, habs]
    push_cast
    rfl

theorem estimated_time_machine_arithmetic_witness :
    effectiveRate largeDevExt.State 0 = -1000 ∧
      EstimatedTimeResultValue largeDevExt.State 0 = 2905032 ∧
      (3600 * 2000000) % 2 ^ 32 / 1000 = 2905032 :=
  ⟨by decide,
    (estimated_time_machine_arithmetic largeDevExt 0 sampleBuffer 40 99 (by decide)
      (by decide) (by decide) (by decide)).1.trans (by decide),
    by decide⟩

end SimBatt
